import Mathlib

/-!
# RTLS Master application (`Application/rtls_master.c`)

A shallow embedding of the application task of the RTLS Master: the connection
table `rmConnCB`, the scan result list `scanList`/`scanRes`, the connection
event registration bitmap `connEventRegCauseBitmap`, and the handlers that the
task loop runs on stack notifications and on queued application messages.

Conventions of the embedding.

* Machine integers are `Nat`; the one place where the source relies on the
  width of a variable (`scanRes++` on a `uint8_t`, the complement in
  `CONNECTION_EVENT_REGISTER_BIT_REMOVE` on a `uint32_t`) is written with the
  explicit modulus.
* A pointer to a heap buffer is a `Ref`: the address of the buffer together
  with the value stored there; a nullable pointer is an `Option (Ref _)`.
* Every call into the stack, into RTLS Control or into the allocator that has
  an effect is appended to `AppState.trace` in program order.  Values that the
  stack returns to the application are inputs of the handlers
  (`StackAnswers`).
* A handler that dereferences a null pointer, indexes a table out of bounds or
  reinterprets a payload as the wrong type returns `Except.error`.
* The `BLE_LOG_*` calls, task creation and `RTLSMaster_init` are left out; of
  `RTLSMaster_processStackMsg` the GAP and the L2CAP signal branches are
  modelled.
* The line under `#ifdef RTLS_DEBUG` is guarded by `Consts.RTLS_DEBUG`, and
  the block under `#ifdef RTLS_TEST_CHAN_MAP_DYNAMIC_CHANGE` by the flag of
  that name; the function-static counter of that block is a field of the
  state.
-/

namespace RtlsMaster

/-! ## Constants -/

/-- Values that the source takes from SDK headers which are not part of the
application sources (`ble_user_config.h`, `rtls_master.h`, `linkdb.h`,
`bcomdef.h`, `rtls_ctrl_api.h`, `gap.h`, `gapbondmgr.h`, `hci.h`), and
`RTLS_DEBUG` and `RTLS_TEST_CHAN_MAP_DYNAMIC_CHANGE`: whether the build
defines the macro of that name. -/
structure Consts where
  MAX_NUM_BLE_CONNS : Nat
  RTLS_MASTER_DEFAULT_MAX_SCAN_RES : Nat
  LINKDB_CONNHANDLE_INVALID : Nat
  LINKDB_CONNHANDLE_ALL : Nat
  SUCCESS : Nat
  FAILURE : Nat
  INVALIDPARAMETER : Nat
  bleMemAllocError : Nat
  RTLS_TRUE : Nat
  RTLS_FALSE : Nat
  GAP_CONN_EVT_STAT_MISSED : Nat
  GAPBOND_PAIRING_STATE_COMPLETE : Nat
  GAPBOND_PAIRING_STATE_ENCRYPTED : Nat
  HCI_DISCONNECT_REMOTE_USER_TERM : Nat
  B_APP_DEFAULT_PASSCODE : Nat
  MAX_PDU_SIZE : Nat
  MASK_ADDRTYPE_ID : Nat
  GAP_EVT_ADV_REPORT : Nat
  GAP_EVT_SCAN_ENABLED : Nat
  GAP_EVT_SCAN_DISABLED : Nat
  RTLS_DEBUG : Bool
  RTLS_TEST_CHAN_MAP_DYNAMIC_CHANGE : Bool
  deriving Repr

-- Application events
def RM_EVT_SCAN_ENABLED : Nat := 0x01
def RM_EVT_SCAN_DISABLED : Nat := 0x02
def RM_EVT_ADV_REPORT : Nat := 0x03
def RM_EVT_PAIR_STATE : Nat := 0x04
def RM_EVT_PASSCODE_NEEDED : Nat := 0x05
def RM_EVT_INSUFFICIENT_MEM : Nat := 0x06
def RM_EVT_RTLS_CTRL_MSG_EVT : Nat := 0x07
def RM_EVT_RTLS_SRV_MSG_EVT : Nat := 0x08
def RM_EVT_CONN_EVT : Nat := 0x09

-- Default scan duration in 10 ms
def DEFAULT_SCAN_DURATION : Nat := 200

-- Default supervision timeout in 10ms
def DEFAULT_UPDATE_CONN_TIMEOUT : Nat := 200

-- Connection event registration (`connectionEventRegisterCause_u`)
def NOT_REGISTERED : Nat := 0x0
def FOR_RTLS : Nat := 0x2

-- Hard coded PSM for passing data between central and peripheral
def RTLS_PSM : Nat := 0x0080

/-- The bytes of `slaveScanRsp[] = {'R','T','L','S','S','l','a','v','e'}`. -/
def slaveScanRsp : List Nat := [82, 84, 76, 83, 83, 108, 97, 118, 101]

/-! ## Data types -/

/-- A device address, `uint8_t addr[B_ADDR_LEN]`. -/
abbrev BdAddr := List Nat

/-- A non-null pointer: the address of a heap buffer and the value it holds. -/
structure Ref (α : Type) where
  addr : Nat
  val : α
  deriving DecidableEq, Repr

/-- The faults of the embedding: places where the C program has no defined
behaviour. -/
inductive Fault where
  | nullDeref
  | outOfBounds
  | badCast
  deriving DecidableEq, Repr

/-- Status values passed to RTLS Control (`rtlsStatus_e`), as far as the source
names them. -/
inductive rtlsStatus_e where
  | RTLS_SUCCESS
  | RTLS_FAIL
  | RTLS_LINK_ESTAB_FAIL
  | RTLS_LINK_TERMINATED
  | RTLS_OUT_OF_MEMORY
  deriving DecidableEq, Repr

/-- One entry of the connection table. -/
structure rmConnCB_t where
  cocCID : Nat
  isActive : Bool
  deriving DecidableEq, Repr

/-- Scanned device information record. -/
structure scanRec_t where
  addrType : Nat
  addr : BdAddr
  deriving DecidableEq, Repr

/-- Container to store pairing state info. -/
structure rmPairStateData_t where
  connHandle : Nat
  status : Nat
  deriving DecidableEq, Repr

/-- Container to store passcode data. -/
structure rmPasscodeData_t where
  deviceAddr : BdAddr
  connHandle : Nat
  uiInputs : Nat
  uiOutputs : Nat
  numComparison : Nat
  deriving DecidableEq, Repr

/-- The fields of an advertising report that the application reads. -/
structure GapScan_Evt_AdvRpt_t where
  evtType : Nat
  addrType : Nat
  addr : BdAddr
  rssi : Nat
  dataLen : Nat
  pData : Option (Ref (List Nat))
  deriving DecidableEq, Repr

/-- The scan result handed to RTLS Control. -/
structure bleScanInfo_t where
  eventType : Nat
  addrType : Nat
  addr : BdAddr
  rssi : Nat
  dataLen : Nat
  pEvtData : List Nat
  deriving DecidableEq, Repr

/-- The fields of a connection event report that the application reads. -/
structure Gap_ConnEventRpt_t where
  status : Nat
  handle : Nat
  channel : Nat
  lastRssi : Nat
  nextTaskTime : Nat
  deriving DecidableEq, Repr

/-- The answer of `HCI_EXT_GetActiveConnInfoCmd`. -/
structure hciActiveConnInfo_t where
  accessAddr : Nat
  connInterval : Nat
  hopValue : Nat
  mSCA : Nat
  nextChan : Nat
  chanMap : List Nat
  crcInit : List Nat
  deriving DecidableEq, Repr

/-- The fields of the link database record that the application reads. -/
structure linkDBInfo_t where
  addr : BdAddr
  connLatency : Nat
  connTimeout : Nat
  deriving DecidableEq, Repr

/-- The connection information handed to RTLS Control. -/
structure bleConnInfo_t where
  connHandle : Nat
  addr : BdAddr
  accessAddr : Nat
  connInterval : Nat
  currChan : Nat
  hopValue : Nat
  mSCA : Nat
  crcInit : Nat
  chanMap : List Nat
  deriving DecidableEq, Repr

/-- Connection request of RTLS Control. -/
structure bleConnReq_t where
  addrType : Nat
  addr : BdAddr
  connInterval : Nat
  deriving DecidableEq, Repr

/-- Enable or disable synchronisation events. -/
structure rtlsEnableSync_t where
  enable : Nat
  deriving DecidableEq, Repr

/-- A data packet to send to the peer; `bytes` is the memory at the packet's
address, of which `payloadLen` bytes are sent. -/
structure rtlsPacket_t where
  connHandle : Nat
  payloadLen : Nat
  bytes : List Nat
  deriving DecidableEq, Repr

/-- Terminate link request of RTLS Control. -/
structure rtlsTerminateLinkReq_t where
  connHandle : Nat
  deriving DecidableEq, Repr

/-- AoA configuration request. -/
structure rtlsAoaConfigReq_t where
  connHandle : Nat
  samplingEnable : Nat
  slotDurations : Nat
  numAnt : Nat
  sampleRate : Nat
  sampleSize : Nat
  sampleCtrl : Nat
  pAntPattern : List Nat
  deriving DecidableEq, Repr

/-- AoA enable request. -/
structure rtlsAoaEnableReq_t where
  connHandle : Nat
  enableAoa : Nat
  cteInterval : Nat
  cteLength : Nat
  deriving DecidableEq, Repr

/-- Connection interval update request. -/
structure rtlsUpdateConnIntReq_t where
  connHandle : Nat
  connInterval : Nat
  deriving DecidableEq, Repr

/-- Connection information request. -/
structure rtlsGetActiveConnInfo_t where
  connHandle : Nat
  deriving DecidableEq, Repr

/-- Request opcodes of RTLS Control (`rtlsReq_e`) that the dispatcher names;
`RTLS_REQ_OTHER` stands for every other value of `reqOp`. -/
inductive rtlsReq_e where
  | RTLS_REQ_CONN
  | RTLS_REQ_SCAN
  | RTLS_REQ_ENABLE_SYNC
  | RTLS_REQ_SEND_DATA
  | RTLS_REQ_TERMINATE_LINK
  | RTLS_REQ_SET_AOA_PARAMS
  | RTLS_REQ_AOA_ENABLE
  | RTLS_REQ_UPDATE_CONN_INTERVAL
  | RTLS_REQ_GET_ACTIVE_CONN_INFO
  | RTLS_REQ_OTHER (reqOp : Nat)
  deriving DecidableEq, Repr

/-- What the buffer behind `rtlsCtrlReq_t.pData` holds; the dispatcher casts it
according to the opcode. -/
inductive CtrlData where
  | connReq (r : bleConnReq_t)
  | enableSync (r : rtlsEnableSync_t)
  | packet (r : rtlsPacket_t)
  | terminateLink (r : rtlsTerminateLinkReq_t)
  | aoaConfig (r : rtlsAoaConfigReq_t)
  | aoaEnable (r : rtlsAoaEnableReq_t)
  | updateConnInt (r : rtlsUpdateConnIntReq_t)
  | getConnInfo (r : rtlsGetActiveConnInfo_t)
  | raw (bytes : List Nat)
  deriving DecidableEq, Repr

/-- A request of RTLS Control. -/
structure rtlsCtrlReq_t where
  reqOp : rtlsReq_e
  pData : Option (Ref CtrlData)
  deriving DecidableEq, Repr

/-- IQ report of RTLS Services. -/
structure rtlsSrv_connectionIQReport_t where
  connHandle : Nat
  rssi : Nat
  dataChIndex : Nat
  sampleCount : Nat
  sampleRate : Nat
  sampleSize : Nat
  sampleCtrl : Nat
  slotDuration : Nat
  numAnt : Nat
  iqSamples : List Nat
  deriving DecidableEq, Repr

/-- Event types of RTLS Services that the application names;
`RTLSSRV_OTHER_EVT` stands for every other value of `evtType`. -/
inductive rtlsSrv_evtType_t where
  | RTLSSRV_CONNECTION_CTE_IQ_REPORT_EVT
  | RTLSSRV_ANTENNA_INFORMATION_EVT
  | RTLSSRV_CTE_REQUEST_FAILED_EVT
  | RTLSSRV_ERROR_EVT
  | RTLSSRV_OTHER_EVT (evtType : Nat)
  deriving DecidableEq, Repr

/-- What the buffer behind `rtlsSrv_evt_t.evtData` holds. -/
inductive SrvData where
  | iqReport (r : rtlsSrv_connectionIQReport_t)
  | cteReqFailed (status : Nat)
  | errorEvt (errCause : Nat)
  | raw (bytes : List Nat)
  deriving DecidableEq, Repr

/-- An event of RTLS Services. -/
structure rtlsSrv_evt_t where
  evtType : rtlsSrv_evtType_t
  evtData : Option (Ref SrvData)
  deriving DecidableEq, Repr

/-- What the buffer behind `rmEvt_t.pData` holds; `RTLSMaster_processAppMsg`
casts it according to the event. -/
inductive AppData where
  | advRpt (r : GapScan_Evt_AdvRpt_t)
  | pairState (d : rmPairStateData_t)
  | passcode (d : rmPasscodeData_t)
  | ctrlMsg (r : rtlsCtrlReq_t)
  | srvMsg (e : rtlsSrv_evt_t)
  | connEvt (r : Gap_ConnEventRpt_t)
  | raw (bytes : List Nat)
  deriving DecidableEq, Repr

/-- Event header of an application message. -/
structure appEvtHdr_t where
  event : Nat
  state : Nat
  deriving DecidableEq, Repr

/-- App event passed from profiles. -/
structure rmEvt_t where
  hdr : appEvtHdr_t
  pData : Option (Ref AppData)
  deriving DecidableEq, Repr

/-- PSM registration parameters. -/
structure l2capPsm_t where
  initPeerCredits : Nat
  maxNumChannels : Nat
  mtu : Nat
  peerCreditThreshold : Nat
  psm : Nat
  deriving DecidableEq, Repr

/-- An SDU handed to L2CAP. -/
structure l2capPacket_t where
  CID : Nat
  pPayload : Ref (List Nat)
  len : Nat
  deriving DecidableEq, Repr

/-- The two actions of `Gap_RegisterConnEventCb`. -/
inductive GAP_CB_Action_t where
  | GAP_CB_REGISTER
  | GAP_CB_UNREGISTER
  deriving DecidableEq, Repr

/-- The calls with an effect outside the application: events sent to RTLS
Control, requests to the stack, and allocator calls.  A call whose result the
application uses carries that result as `ret`. -/
inductive Effect where
  | RTLSCtrl_scanResultEvt (status : rtlsStatus_e) (scanResult : Option bleScanInfo_t)
  | RTLSCtrl_connResultEvt (connHandle : Nat) (status : rtlsStatus_e)
  | RTLSCtrl_connInfoEvt (connInfo : bleConnInfo_t)
  | RTLSCtrl_dataSentEvt (connHandle : Nat) (status : rtlsStatus_e)
  | RTLSCtrl_syncNotifyEvt (handle : Nat) (status : rtlsStatus_e) (nextTaskTime : Nat)
      (lastRssi : Nat) (channel : Nat)
  | RTLSCtrl_sendDebugEvt (debugString : String) (value : Nat)
  | RTLSAoa_processAoaResults (report : rtlsSrv_connectionIQReport_t)
  | GAP_TerminateLinkReq (connHandle : Nat) (reason : Nat)
  | GAP_UpdateLinkParamReq (connHandle intervalMin intervalMax connLatency connTimeout : Nat)
  | GAPBondMgr_PasscodeRsp (connHandle : Nat) (status : Nat) (passcode : Nat)
  | HCI_LE_ReadRemoteUsedFeaturesCmd (connHandle : Nat)
  | HCI_LE_SetHostChanClassificationCmd (chanMap : List Nat)
  | GapScan_enable (period : Nat) (duration : Nat) (maxNumReport : Nat)
  | GapScan_registerCb
  | GapScan_setEventMask
  | GapScan_setPhyParams
  | GapScan_setParam (param : String)
  | GapInit_setPhyParam (param : String) (value : Nat)
  | GapInit_connect (addrType : Nat) (addr : BdAddr)
  | Gap_RegisterConnEventCb (action : GAP_CB_Action_t) (connHandle : Nat) (ret : Nat)
  | L2CAP_RegisterPsm (psm : l2capPsm_t) (ret : Nat)
  | L2CAP_ConnectReq (connHandle : Nat) (psm : Nat) (peerPsm : Nat) (ret : Nat)
  | L2CAP_DisconnectReq (CID : Nat)
  | L2CAP_FlowCtrlCredit (CID : Nat) (peerCredits : Nat)
  | L2CAP_bm_alloc (size : Nat) (ret : Option Nat)
  | L2CAP_SendSDU (pkt : l2capPacket_t) (ret : Nat)
  | BM_free (addr : Nat)
  | ICall_malloc (ret : Option Nat)
  | ICall_free (addr : Nat)
  | RTLSSrv_initAntArray (mainAntenna : Nat)
  | RTLSSrv_setConnCteReceiveParams (config : rtlsAoaConfigReq_t)
  | RTLSSrv_setCteSampleAccuracy (config : rtlsAoaConfigReq_t)
  | RTLSSrv_setConnCteRequestEnableCmd (req : rtlsAoaEnableReq_t)
  | AssertHandler
  deriving DecidableEq, Repr

/-- The values the stack and the allocator return to one run of a handler. -/
structure StackAnswers where
  ICall_malloc : Option Nat
  L2CAP_bm_alloc : Option Nat
  L2CAP_PsmInfo : Nat
  L2CAP_RegisterPsm : Nat
  L2CAP_ConnectReq : Nat
  L2CAP_SendSDU : Nat
  Gap_RegisterConnEventCb : Nat
  linkDB_GetInfo : Nat → Nat × linkDBInfo_t
  HCI_EXT_GetActiveConnInfoCmd : Nat → hciActiveConnInfo_t
  RTLSSrv_initAntArray : Bool

/-- The static variables of the application (`connectionEventCount` is the
function-static counter of `RTLSMaster_processConnEvt`), the queue of
application messages, and the trace of effects. -/
structure AppState where
  rmConnCB : List rmConnCB_t
  scanRes : Nat
  scanList : List scanRec_t
  connEventRegCauseBitmap : Nat
  connectionEventCount : Nat
  appMsgQueue : List (Ref rmEvt_t)
  trace : List Effect
  deriving DecidableEq, Repr

/-- The state at start-up: zero-initialised statics, empty queue, no effect. -/
def AppState.init (K : Consts) : AppState where
  rmConnCB := List.replicate K.MAX_NUM_BLE_CONNS ⟨0, false⟩
  scanRes := 0
  scanList := List.replicate K.RTLS_MASTER_DEFAULT_MAX_SCAN_RES ⟨0, []⟩
  connEventRegCauseBitmap := NOT_REGISTERED
  connectionEventCount := 0
  appMsgQueue := []
  trace := []

deriving instance DecidableEq for Except

/-- Append one effect to the trace. -/
def AppState.emit (s : AppState) (e : Effect) : AppState :=
  { s with trace := s.trace ++ [e] }

/-! ## Stack notifications -/

/-- A GAP message, by opcode, with the fields the handler reads after its
cast; `other` stands for every opcode the handler does not name. -/
inductive gapEventHdr_t where
  | GAP_DEVICE_INIT_DONE_EVENT
  | GAP_LINK_ESTABLISHED_EVENT (status : Nat) (connectionHandle : Nat)
  | GAP_LINK_TERMINATED_EVENT (connectionHandle : Nat)
  | GAP_LINK_PARAM_UPDATE_EVENT (status : Nat) (connectionHandle : Nat)
  | other (opcode : Nat)
  deriving DecidableEq, Repr

/-- The opcode of an L2CAP signal with the part of `cmd` the handler reads. -/
inductive l2capSignalCmd where
  | L2CAP_CHANNEL_ESTABLISHED_EVT (CID : Nat)
  | L2CAP_SEND_SDU_DONE_EVT
  | L2CAP_CHANNEL_TERMINATED_EVT
  | other (opcode : Nat)
  deriving DecidableEq, Repr

/-- An L2CAP signalling event. -/
structure l2capSignalEvent_t where
  status : Nat
  connHandle : Nat
  cmd : l2capSignalCmd
  deriving DecidableEq, Repr

/-- `BUILD_UINT32(Byte0, Byte1, Byte2, Byte3)` on bytes. -/
def BUILD_UINT32 (b0 b1 b2 b3 : Nat) : Nat :=
  (b0 % 256) + (b1 % 256) * 2 ^ 8 + (b2 % 256) * 2 ^ 16 + (b3 % 256) * 2 ^ 24

/-- Assignment `rmConnCB[connHandle].isActive = v`. -/
def setIsActive (cb : List rmConnCB_t) (connHandle : Nat) (v : Bool) : List rmConnCB_t :=
  match cb[connHandle]? with
  | some e => cb.set connHandle { e with isActive := v }
  | none => cb

/-- Assignment `rmConnCB[connHandle].cocCID = v`. -/
def setCocCID (cb : List rmConnCB_t) (connHandle : Nat) (v : Nat) : List rmConnCB_t :=
  match cb[connHandle]? with
  | some e => cb.set connHandle { e with cocCID := v }
  | none => cb

/-- Process a connection established event - send conn info to RTLS Control. -/
def RTLSMaster_processRTLSConnInfo (A : StackAnswers) (connHandle : Nat) (s : AppState) :
    AppState :=
  -- Get BD Address of the requested Slave (the status of linkDB_GetInfo is not looked at)
  let addrInfo := (A.linkDB_GetInfo connHandle).2
  -- Get current active connection information
  let connInfo := A.HCI_EXT_GetActiveConnInfoCmd connHandle
  s.emit (.RTLSCtrl_connInfoEvt
    { connHandle := connHandle
      addr := addrInfo.addr
      accessAddr := connInfo.accessAddr
      connInterval := connInfo.connInterval
      currChan := connInfo.nextChan
      hopValue := connInfo.hopValue
      mSCA := connInfo.mSCA
      crcInit := BUILD_UINT32 (connInfo.crcInit.getD 0 0) (connInfo.crcInit.getD 1 0)
        (connInfo.crcInit.getD 2 0) 0
      chanMap := connInfo.chanMap })

/-- GAP message processing function. -/
def RTLSMaster_processGapMsg (K : Consts) (A : StackAnswers) (pMsg : gapEventHdr_t)
    (s : AppState) : AppState :=
  match pMsg with
  | .GAP_DEVICE_INIT_DONE_EVENT =>
    (((((((s.emit .GapScan_registerCb).emit .GapScan_setEventMask).emit
      .GapScan_setPhyParams).emit (.GapScan_setParam "SCAN_PARAM_RPT_FIELDS")).emit
      (.GapScan_setParam "SCAN_PARAM_PRIM_PHYS")).emit
      (.GapScan_setParam "SCAN_PARAM_FLT_DUP")).emit
      (.GapScan_setParam "SCAN_PARAM_FLT_PDU_TYPE"))
  | .GAP_LINK_ESTABLISHED_EVENT status connHandle =>
    if connHandle ≠ K.LINKDB_CONNHANDLE_INVALID ∧ connHandle < K.MAX_NUM_BLE_CONNS ∧
        status = K.SUCCESS then
      let s1 := { s with rmConnCB := setIsActive s.rmConnCB connHandle true }
      let s2 := s1.emit (.HCI_LE_ReadRemoteUsedFeaturesCmd connHandle)
      -- We send out the connection information at this point
      RTLSMaster_processRTLSConnInfo A connHandle s2
    else
      -- Link failed to establish
      s.emit (.RTLSCtrl_connResultEvt K.LINKDB_CONNHANDLE_INVALID .RTLS_LINK_ESTAB_FAIL)
  | .GAP_LINK_TERMINATED_EVENT connHandle =>
    if connHandle ≠ K.LINKDB_CONNHANDLE_INVALID ∧ connHandle < K.MAX_NUM_BLE_CONNS then
      -- This connection is inactive
      let s1 := { s with rmConnCB := setIsActive s.rmConnCB connHandle false }
      -- Link terminated
      s1.emit (.RTLSCtrl_connResultEvt connHandle .RTLS_LINK_TERMINATED)
    else
      s
  | .GAP_LINK_PARAM_UPDATE_EVENT status connHandle =>
    if connHandle ≠ K.LINKDB_CONNHANDLE_INVALID ∧ connHandle < K.MAX_NUM_BLE_CONNS ∧
        status = K.SUCCESS then
      -- Upon param update, resend connection information
      RTLSMaster_processRTLSConnInfo A connHandle s
    else
      s
  | .other _ => s

/-- Handle L2CAP signal events. -/
def RTLSMaster_processL2CAPSignalEvent (K : Consts) (pMsg : Option l2capSignalEvent_t)
    (s : AppState) : AppState :=
  match pMsg with
  | none => s
  | some m =>
    match m.cmd with
    | .L2CAP_CHANNEL_ESTABLISHED_EVT CID =>
      -- Connection established, save the CID
      if m.connHandle ≠ K.LINKDB_CONNHANDLE_INVALID ∧ m.connHandle < K.MAX_NUM_BLE_CONNS then
        let s1 := { s with rmConnCB := setCocCID s.rmConnCB m.connHandle CID }
        -- Give max credits to the other side
        let s2 := s1.emit (.L2CAP_FlowCtrlCredit CID 0xFFFF)
        -- Tell RTLS Control that we are ready for more commands
        s2.emit (.RTLSCtrl_connResultEvt m.connHandle .RTLS_SUCCESS)
      else
        -- We could not establish an L2CAP link, drop the connection
        let s1 := s.emit (.RTLSCtrl_sendDebugEvt "L2CAP COC: could not establish" m.connHandle)
        s1.emit (.GAP_TerminateLinkReq m.connHandle K.HCI_DISCONNECT_REMOTE_USER_TERM)
    | .L2CAP_SEND_SDU_DONE_EVT =>
      if m.status = K.SUCCESS then
        s.emit (.RTLSCtrl_dataSentEvt m.connHandle .RTLS_SUCCESS)
      else
        s.emit (.RTLSCtrl_dataSentEvt m.connHandle .RTLS_FAIL)
    | .L2CAP_CHANNEL_TERMINATED_EVT =>
      -- Terminate the connection
      let s1 := s.emit (.GAP_TerminateLinkReq m.connHandle K.HCI_DISCONNECT_REMOTE_USER_TERM)
      s1.emit (.RTLSCtrl_sendDebugEvt "L2CAP COC: terminated connHandle: " m.connHandle)
    | .other _ => s

/-- Opens a communication channel between RTLS Master/Slave; returns the
status and the new state. -/
def RTLSMaster_openL2CAPChanCoc (K : Consts) (A : StackAnswers) (connHandle : Nat)
    (s : AppState) : Nat × AppState :=
  if A.L2CAP_PsmInfo = K.INVALIDPARAMETER then
    -- Register PSM with L2CAP task
    let psm : l2capPsm_t :=
      { initPeerCredits := 0xFFFF
        maxNumChannels := K.MAX_NUM_BLE_CONNS
        mtu := K.MAX_PDU_SIZE
        peerCreditThreshold := 0
        psm := RTLS_PSM }
    let ret := A.L2CAP_RegisterPsm
    let s1 := s.emit (.L2CAP_RegisterPsm psm ret)
    if ret = K.SUCCESS then
      -- Send the connection request to RTLS slave
      (A.L2CAP_ConnectReq,
        s1.emit (.L2CAP_ConnectReq connHandle RTLS_PSM RTLS_PSM A.L2CAP_ConnectReq))
    else
      (ret, s1)
  else
    -- Send the connection request to RTLS slave
    (A.L2CAP_ConnectReq,
      s.emit (.L2CAP_ConnectReq connHandle RTLS_PSM RTLS_PSM A.L2CAP_ConnectReq))

/-- Process the new pairing state. -/
def RTLSMaster_processPairState (K : Consts) (A : StackAnswers) (state : Nat)
    (pPairData : Option rmPairStateData_t) (s : AppState) : Except Fault AppState :=
  match pPairData with
  | none => .error .nullDeref
  | some d =>
    let status := d.status
    -- #ifdef RTLS_DEBUG
    let s := if K.RTLS_DEBUG then
        s.emit (.RTLSCtrl_sendDebugEvt "RTLSMaster_processPairState" state)
      else s
    -- Once Master and Slave are paired, we can open a COC channel
    if state = K.GAPBOND_PAIRING_STATE_COMPLETE ∨ state = K.GAPBOND_PAIRING_STATE_ENCRYPTED then
      if status = K.SUCCESS then
        -- We are paired, open a L2CAP channel to pass data
        let r := RTLSMaster_openL2CAPChanCoc K A d.connHandle s
        if r.1 ≠ K.SUCCESS then
          -- We could not establish an L2CAP link, drop the connection
          .ok (r.2.emit (.GAP_TerminateLinkReq d.connHandle K.HCI_DISCONNECT_REMOTE_USER_TERM))
        else
          .ok r.2
      else
        .ok (s.emit (.GAP_TerminateLinkReq d.connHandle K.HCI_DISCONNECT_REMOTE_USER_TERM))
    else
      .ok s

/-- Process the Passcode request. -/
def RTLSMaster_processPasscode (K : Consts) (pData : Option rmPasscodeData_t) (s : AppState) :
    Except Fault AppState :=
  match pData with
  | none => .error .nullDeref
  | some d =>
    -- Send passcode response
    .ok (s.emit (.GAPBondMgr_PasscodeRsp d.connHandle K.SUCCESS K.B_APP_DEFAULT_PASSCODE))

/-! ## Scanning -/

/-- Process a scan response and forward to RTLS Control. -/
def RTLSMaster_processRTLSScanRes (A : StackAnswers) (deviceInfo : Option GapScan_Evt_AdvRpt_t)
    (s : AppState) : Except Fault AppState :=
  match deviceInfo with
  | none => .ok s
  | some devInfo =>
    -- Assign and allocate space
    let s1 := s.emit (.ICall_malloc A.ICall_malloc)
    match A.ICall_malloc with
    | none =>
      -- We could not allocate memory, report to host and exit
      .ok (s1.emit (.RTLSCtrl_scanResultEvt .RTLS_OUT_OF_MEMORY none))
    | some scanResult =>
      -- memcpy(scanResult->pEvtData, devInfo->pData, devInfo->dataLen)
      match devInfo.pData with
      | none => .error .nullDeref
      | some data =>
        let s2 := s1.emit (.RTLSCtrl_scanResultEvt .RTLS_SUCCESS (some
          { eventType := devInfo.evtType
            addrType := devInfo.addrType
            addr := devInfo.addr
            rssi := devInfo.rssi
            dataLen := devInfo.dataLen
            pEvtData := data.val.take devInfo.dataLen }))
        .ok (s2.emit (.ICall_free scanResult))

/-- The loop of `RTLSMaster_addDeviceInfo`: whether
`memcmp(deviceInfo->addr, scanList[i].addr, B_ADDR_LEN) == 0` for some
`i < scanRes`. -/
def addrInScanList (s : AppState) (addr : BdAddr) : Bool :=
  (s.scanList.take s.scanRes).any (fun r => decide (r.addr = addr))

/-- Add a device to the device discovery result list. -/
def RTLSMaster_addDeviceInfo (K : Consts) (A : StackAnswers) (deviceInfo : GapScan_Evt_AdvRpt_t)
    (s : AppState) : Except Fault AppState :=
  -- If result count not at max
  if s.scanRes < K.RTLS_MASTER_DEFAULT_MAX_SCAN_RES then
    -- Check if device is already in scan results
    if addrInScanList s deviceInfo.addr then
      .ok s
    else do
      -- Send the device info to RTLS Control
      let s1 ← RTLSMaster_processRTLSScanRes A (some deviceInfo) s
      -- Add addr to scan result list, increment scan result count (a uint8_t)
      .ok { s1 with
        scanList := s1.scanList.set s1.scanRes
          { addr := deviceInfo.addr, addrType := deviceInfo.addrType }
        scanRes := (s1.scanRes + 1) % 256 }
  else
    .ok s

/-- Process a scan request. -/
def RTLSMaster_processRTLSScanReq (K : Consts) (s : AppState) : AppState :=
  let s1 := { s with scanRes := 0 }
  -- Start discovery
  s1.emit (.GapScan_enable 0 DEFAULT_SCAN_DURATION K.RTLS_MASTER_DEFAULT_MAX_SCAN_RES)

/-! ## Requests of RTLS Control -/

/-- Start the connection process with another device. -/
def RTLSMaster_processRTLSConnReq (K : Consts) (bleConnReq : Option bleConnReq_t)
    (s : AppState) : AppState :=
  match bleConnReq with
  | none => s
  | some r =>
    -- Set connection interval and supervision timeout
    let s1 := s.emit (.GapInit_setPhyParam "INIT_PHYPARAM_CONN_INT_MAX" r.connInterval)
    let s2 := s1.emit (.GapInit_setPhyParam "INIT_PHYPARAM_CONN_INT_MIN" r.connInterval)
    let s3 := s2.emit (.GapInit_setPhyParam "INIT_PHYPARAM_SUP_TIMEOUT"
      DEFAULT_UPDATE_CONN_TIMEOUT)
    s3.emit (.GapInit_connect (r.addrType &&& K.MASK_ADDRTYPE_ID) r.addr)

/-- Send RTLS data to the peer; returns the status and the new state. -/
def RTLSMaster_sendRTLSData (K : Consts) (A : StackAnswers) (pMsg : Option rtlsPacket_t)
    (s : AppState) : Except Fault (Nat × AppState) :=
  match pMsg with
  | none => .ok (K.FAILURE, s)
  | some m =>
    -- Tell L2CAP the desired Channel ID
    match s.rmConnCB[m.connHandle]? with
    | none => .error .outOfBounds
    | some slot =>
      -- Allocate space for payload
      let s1 := s.emit (.L2CAP_bm_alloc m.payloadLen A.L2CAP_bm_alloc)
      match A.L2CAP_bm_alloc with
      | some pPayload =>
        -- The request is the payload for the L2CAP SDU
        let pkt : l2capPacket_t :=
          { CID := slot.cocCID
            pPayload := ⟨pPayload, m.bytes.take m.payloadLen⟩
            len := m.payloadLen }
        let status := A.L2CAP_SendSDU
        let s2 := s1.emit (.L2CAP_SendSDU pkt status)
        -- Check that the packet was sent
        if K.SUCCESS ≠ status then
          -- If SDU wasn't sent, free
          .ok (status, s2.emit (.BM_free pPayload))
        else
          .ok (status, s2)
      | none => .ok (K.bleMemAllocError, s1)

/-- The complement `~RegisterCause` in a `uint32_t` assignment. -/
def complement32 (x : Nat) : Nat := (2 ^ 32 - 1) ^^^ (x % 2 ^ 32)

/-- `CONNECTION_EVENT_REGISTER_BIT_SET(RegisterCause)`. -/
def CONNECTION_EVENT_REGISTER_BIT_SET (RegisterCause : Nat) (s : AppState) : AppState :=
  { s with connEventRegCauseBitmap := s.connEventRegCauseBitmap ||| RegisterCause }

/-- `CONNECTION_EVENT_REGISTER_BIT_REMOVE(RegisterCause)`. -/
def CONNECTION_EVENT_REGISTER_BIT_REMOVE (RegisterCause : Nat) (s : AppState) : AppState :=
  { s with connEventRegCauseBitmap := s.connEventRegCauseBitmap &&& complement32 RegisterCause }

/-- `CONNECTION_EVENT_IS_REGISTERED`. -/
def CONNECTION_EVENT_IS_REGISTERED (s : AppState) : Bool :=
  decide (s.connEventRegCauseBitmap > 0)

/-- `CONNECTION_EVENT_REGISTRATION_CAUSE(RegisterCause)`. -/
def CONNECTION_EVENT_REGISTRATION_CAUSE (RegisterCause : Nat) (s : AppState) : Nat :=
  s.connEventRegCauseBitmap &&& RegisterCause

/-- Start or stop sending synchronization events. -/
def RTLSMaster_enableRtlsSync (K : Consts) (A : StackAnswers) (enable : Option rtlsEnableSync_t)
    (s : AppState) : Except Fault AppState :=
  match enable with
  | none => .error .nullDeref
  | some e =>
    let status := K.RTLS_FALSE
    if e.enable = K.RTLS_TRUE then
      let r : Nat × AppState :=
        if ¬ CONNECTION_EVENT_IS_REGISTERED s then
          (A.Gap_RegisterConnEventCb, s.emit (.Gap_RegisterConnEventCb .GAP_CB_REGISTER
            K.LINKDB_CONNHANDLE_ALL A.Gap_RegisterConnEventCb))
        else
          (status, s)
      if r.1 = K.SUCCESS then
        .ok (CONNECTION_EVENT_REGISTER_BIT_SET FOR_RTLS r.2)
      else
        .ok r.2
    else if e.enable = K.RTLS_FALSE then
      let s1 := CONNECTION_EVENT_REGISTER_BIT_REMOVE FOR_RTLS s
      -- If there is nothing registered to the connection event, request to unregister
      if ¬ CONNECTION_EVENT_IS_REGISTERED s1 then
        .ok (s1.emit (.Gap_RegisterConnEventCb .GAP_CB_UNREGISTER K.LINKDB_CONNHANDLE_ALL
          A.Gap_RegisterConnEventCb))
      else
        .ok s1
    else
      .ok s

/-- Terminate active link. -/
def RTLSMaster_terminateLinkReq (K : Consts) (termInfo : Option rtlsTerminateLinkReq_t)
    (s : AppState) : Except Fault AppState :=
  match termInfo with
  | none => .error .nullDeref
  | some t =>
    if t.connHandle ≠ K.LINKDB_CONNHANDLE_INVALID ∧ t.connHandle < K.MAX_NUM_BLE_CONNS then
      match s.rmConnCB[t.connHandle]? with
      | none => .error .outOfBounds
      | some slot => .ok (s.emit (.L2CAP_DisconnectReq slot.cocCID))
    else
      .ok (s.emit (.RTLSCtrl_sendDebugEvt "Connection Handle invalid"
        K.LINKDB_CONNHANDLE_INVALID))

/-- Configure AoA parameters to the BLE Stack. -/
def RTLSMaster_setAoaParamsReq (A : StackAnswers) (pConfig : Option rtlsAoaConfigReq_t)
    (s : AppState) : Except Fault AppState :=
  match pConfig with
  | none => .ok s
  | some c =>
    match c.pAntPattern[0]? with
    | none => .error .outOfBounds
    | some mainAntenna =>
      let s1 := s.emit (.RTLSSrv_initAntArray mainAntenna)
      let s2 :=
        if A.RTLSSrv_initAntArray = false then
          (s1.emit (.RTLSCtrl_sendDebugEvt "Antenna array configuration invalid" 0)).emit
            .AssertHandler
        else
          s1
      -- Configure AoA receiver parameters
      let s3 := s2.emit (.RTLSSrv_setConnCteReceiveParams c)
      -- Configure sample accuracy
      .ok (s3.emit (.RTLSSrv_setCteSampleAccuracy c))

/-- Enable sampling AoA. -/
def RTLSMaster_enableAoaReq (pReq : Option rtlsAoaEnableReq_t) (s : AppState) : AppState :=
  match pReq with
  | none => s
  | some r =>
    -- Request CTE from our peer
    s.emit (.RTLSSrv_setConnCteRequestEnableCmd r)

/-- Update connection interval. -/
def RTLSMaster_processRTLSUpdateConnInterval (K : Consts) (A : StackAnswers)
    (updateReq : Option rtlsUpdateConnIntReq_t) (s : AppState) : AppState :=
  match updateReq with
  | none => s
  | some u =>
    let linkInfo := A.linkDB_GetInfo u.connHandle
    if linkInfo.1 = K.SUCCESS then
      -- Min/Max set to the same value
      s.emit (.GAP_UpdateLinkParamReq u.connHandle u.connInterval u.connInterval
        linkInfo.2.connLatency linkInfo.2.connTimeout)
    else
      s

/-- The block of `RTLSMaster_processConnEvt` under
`#ifdef RTLS_TEST_CHAN_MAP_DYNAMIC_CHANGE`: the counter (an `int`, kept as its
32-bit pattern) is incremented, and when it reaches 10 the channels 24 to 31
are unmapped. -/
def testChanMapChange (K : Consts) (s : AppState) : AppState :=
  if K.RTLS_TEST_CHAN_MAP_DYNAMIC_CHANGE then
    let s1 := { s with connectionEventCount := (s.connectionEventCount + 1) % 2 ^ 32 }
    if s1.connectionEventCount = 10 then
      s1.emit (.HCI_LE_SetHostChanClassificationCmd [0xFF, 0xFF, 0xFF, 0x00, 0x1F])
    else
      s1
  else
    s

/-- Connection event processing: forward the report as a synchronisation
event, then free it. -/
def RTLSMaster_processConnEvt (K : Consts) (pReport : Option (Ref Gap_ConnEventRpt_t))
    (s : AppState) : Except Fault AppState :=
  match pReport with
  | none => .ok s
  | some r =>
    let forwarded : Except Fault AppState :=
      if CONNECTION_EVENT_REGISTRATION_CAUSE FOR_RTLS s ≠ 0 then
        match s.rmConnCB[r.val.handle]? with
        | none => .error .outOfBounds
        | some slot =>
          if slot.isActive then
            -- Convert BLE specific status to RTLS Status
            let status : rtlsStatus_e :=
              if r.val.status ≠ K.GAP_CONN_EVT_STAT_MISSED then .RTLS_SUCCESS else .RTLS_FAIL
            -- #ifdef RTLS_TEST_CHAN_MAP_DYNAMIC_CHANGE
            let s := testChanMapChange K s
            .ok (s.emit (.RTLSCtrl_syncNotifyEvt r.val.handle status r.val.nextTaskTime
              r.val.lastRssi r.val.channel))
          else
            .ok s
      else
        .ok s
    match forwarded with
    | .error f => .error f
    | .ok s1 =>
      -- Free the report once we are done using it
      .ok (s1.emit (.ICall_free r.addr))

/-- Reinterpret a nullable pointer according to `f`; a buffer that does not
hold what the cast expects is a fault. -/
def castRef {α β : Type} (f : α → Option β) : Option (Ref α) → Except Fault (Option (Ref β))
  | none => .ok none
  | some r =>
    match f r.val with
    | some b => .ok (some ⟨r.addr, b⟩)
    | none => .error .badCast

/-- The value behind a nullable pointer, without its address. -/
def derefOpt {α : Type} (p : Option (Ref α)) : Option α := p.map (fun r => r.val)

/-- The address held by a nullable pointer (`0` for `NULL`). -/
def ptrAddr {α : Type} (p : Option (Ref α)) : Nat :=
  match p with
  | none => 0
  | some r => r.addr

def CtrlData.toConnReq : CtrlData → Option bleConnReq_t
  | .connReq r => some r
  | _ => none

def CtrlData.toEnableSync : CtrlData → Option rtlsEnableSync_t
  | .enableSync r => some r
  | _ => none

def CtrlData.toPacket : CtrlData → Option rtlsPacket_t
  | .packet r => some r
  | _ => none

def CtrlData.toTerminateLink : CtrlData → Option rtlsTerminateLinkReq_t
  | .terminateLink r => some r
  | _ => none

def CtrlData.toAoaConfig : CtrlData → Option rtlsAoaConfigReq_t
  | .aoaConfig r => some r
  | _ => none

def CtrlData.toAoaEnable : CtrlData → Option rtlsAoaEnableReq_t
  | .aoaEnable r => some r
  | _ => none

def CtrlData.toUpdateConnInt : CtrlData → Option rtlsUpdateConnIntReq_t
  | .updateConnInt r => some r
  | _ => none

def CtrlData.toGetConnInfo : CtrlData → Option rtlsGetActiveConnInfo_t
  | .getConnInfo r => some r
  | _ => none

def SrvData.toIqReport : SrvData → Option rtlsSrv_connectionIQReport_t
  | .iqReport r => some r
  | _ => none

def SrvData.toCteReqFailed : SrvData → Option Nat
  | .cteReqFailed st => some st
  | _ => none

def SrvData.toErrorEvt : SrvData → Option Nat
  | .errorEvt c => some c
  | _ => none

def AppData.toAdvRpt : AppData → Option GapScan_Evt_AdvRpt_t
  | .advRpt r => some r
  | _ => none

def AppData.toPairState : AppData → Option rmPairStateData_t
  | .pairState r => some r
  | _ => none

def AppData.toPasscode : AppData → Option rmPasscodeData_t
  | .passcode r => some r
  | _ => none

def AppData.toCtrlMsg : AppData → Option rtlsCtrlReq_t
  | .ctrlMsg r => some r
  | _ => none

def AppData.toSrvMsg : AppData → Option rtlsSrv_evt_t
  | .srvMsg r => some r
  | _ => none

def AppData.toConnEvt : AppData → Option Gap_ConnEventRpt_t
  | .connEvt r => some r
  | _ => none

/-- The dispatch of `RTLSMaster_processRtlsCtrlMsg` on `pReq->reqOp`. -/
def RTLSMaster_processRtlsCtrlMsg_switch (K : Consts) (A : StackAnswers) (pReq : rtlsCtrlReq_t)
    (s : AppState) : Except Fault AppState :=
  match pReq.reqOp with
  | .RTLS_REQ_CONN => do
    let p ← castRef CtrlData.toConnReq pReq.pData
    .ok (RTLSMaster_processRTLSConnReq K (derefOpt p) s)
  | .RTLS_REQ_SCAN =>
    .ok (RTLSMaster_processRTLSScanReq K s)
  | .RTLS_REQ_ENABLE_SYNC => do
    let p ← castRef CtrlData.toEnableSync pReq.pData
    RTLSMaster_enableRtlsSync K A (derefOpt p) s
  | .RTLS_REQ_SEND_DATA => do
    let p ← castRef CtrlData.toPacket pReq.pData
    let r ← RTLSMaster_sendRTLSData K A (derefOpt p) s
    .ok r.2
  | .RTLS_REQ_TERMINATE_LINK => do
    let p ← castRef CtrlData.toTerminateLink pReq.pData
    RTLSMaster_terminateLinkReq K (derefOpt p) s
  | .RTLS_REQ_SET_AOA_PARAMS => do
    let p ← castRef CtrlData.toAoaConfig pReq.pData
    RTLSMaster_setAoaParamsReq A (derefOpt p) s
  | .RTLS_REQ_AOA_ENABLE => do
    let p ← castRef CtrlData.toAoaEnable pReq.pData
    .ok (RTLSMaster_enableAoaReq (derefOpt p) s)
  | .RTLS_REQ_UPDATE_CONN_INTERVAL => do
    let p ← castRef CtrlData.toUpdateConnInt pReq.pData
    .ok (RTLSMaster_processRTLSUpdateConnInterval K A (derefOpt p) s)
  | .RTLS_REQ_GET_ACTIVE_CONN_INFO => do
    let p ← castRef CtrlData.toGetConnInfo pReq.pData
    match p with
    | some pConnInfoReq => .ok (RTLSMaster_processRTLSConnInfo A pConnInfoReq.val.connHandle s)
    | none => .ok s
  | .RTLS_REQ_OTHER _ => .ok s

/-- Handle processing messages from RTLS Control. -/
def RTLSMaster_processRtlsCtrlMsg (K : Consts) (A : StackAnswers) (pMsg : Option rtlsCtrlReq_t)
    (s : AppState) : Except Fault AppState :=
  match pMsg with
  | none => .ok s
  | some pReq => do
    let s1 ← RTLSMaster_processRtlsCtrlMsg_switch K A pReq s
    -- Free the payload
    match pReq.pData with
    | some d => .ok (s1.emit (.ICall_free d.addr))
    | none => .ok s1

/-- The dispatch of `RTLSMaster_processRtlsSrvMsg` on `pEvt->evtType`. -/
def RTLSMaster_processRtlsSrvMsg_switch (pEvt : rtlsSrv_evt_t) (s : AppState) :
    Except Fault AppState :=
  match pEvt.evtType with
  | .RTLSSRV_CONNECTION_CTE_IQ_REPORT_EVT => do
    let p ← castRef SrvData.toIqReport pEvt.evtData
    match p with
    | none => .error .nullDeref
    | some pReport => .ok (s.emit (.RTLSAoa_processAoaResults pReport.val))
  | .RTLSSRV_ANTENNA_INFORMATION_EVT => .ok s
  | .RTLSSRV_CTE_REQUEST_FAILED_EVT => do
    let p ← castRef SrvData.toCteReqFailed pEvt.evtData
    match p with
    | none => .error .nullDeref
    | some pReqFail => .ok (s.emit (.RTLSCtrl_sendDebugEvt "RTLS Services CTE Req Fail"
        pReqFail.val))
  | .RTLSSRV_ERROR_EVT => do
    let p ← castRef SrvData.toErrorEvt pEvt.evtData
    match p with
    | none => .error .nullDeref
    | some pError => .ok (s.emit (.RTLSCtrl_sendDebugEvt "RTLS Services Error" pError.val))
  | .RTLSSRV_OTHER_EVT _ => .ok s

/-- Handle processing messages from RTLS Services host module. -/
def RTLSMaster_processRtlsSrvMsg (pEvt : Option rtlsSrv_evt_t) (s : AppState) :
    Except Fault AppState :=
  match pEvt with
  | none => .ok s
  | some e => do
    let s1 ← RTLSMaster_processRtlsSrvMsg_switch e s
    -- Free the payload
    match e.evtData with
    | some d => .ok (s1.emit (.ICall_free d.addr))
    | none => .ok s1

/-! ## Application messages -/

/-- The filter of the `RM_EVT_ADV_REPORT` case:
`memcmp(&pAdvRpt->pData[2], slaveScanRsp, sizeof(slaveScanRsp)) == 0`. -/
def matchesSlaveScanRsp (data : List Nat) : Bool :=
  decide ((data.drop 2).take 9 = slaveScanRsp)

/-- The dispatch of `RTLSMaster_processAppMsg` on `pMsg->hdr.event`. -/
def RTLSMaster_processAppMsg_switch (K : Consts) (A : StackAnswers) (pMsg : rmEvt_t)
    (s : AppState) : Except Fault AppState :=
  if pMsg.hdr.event = RM_EVT_ADV_REPORT then do
    let p ← castRef AppData.toAdvRpt pMsg.pData
    match p with
    | none => .error .nullDeref
    | some pAdvRpt =>
      match pAdvRpt.val.pData with
      | none => .error .nullDeref
      | some data =>
        -- the comparison reads bytes 2 to 10 of the report payload
        if data.val.length < 11 then
          .error .outOfBounds
        else do
          -- Filter results by the slave's scanRsp array
          let s1 ←
            if matchesSlaveScanRsp data.val then
              RTLSMaster_addDeviceInfo K A pAdvRpt.val s
            else
              .ok s
          -- Free report payload data
          .ok (s1.emit (.ICall_free data.addr))
  else if pMsg.hdr.event = RM_EVT_SCAN_DISABLED then
    -- `((gapEstLinkReqEvent_t*) pMsg)->hdr.status` is the second byte of the
    -- message, which is `pMsg->hdr.state`
    if pMsg.hdr.state = K.SUCCESS then
      -- Scan stopped (no more results)
      .ok (s.emit (.RTLSCtrl_scanResultEvt .RTLS_SUCCESS none))
    else
      -- Scan stopped (failed due to wrong parameters)
      .ok (s.emit (.RTLSCtrl_scanResultEvt .RTLS_FAIL none))
  else if pMsg.hdr.event = RM_EVT_PAIR_STATE then do
    let p ← castRef AppData.toPairState pMsg.pData
    RTLSMaster_processPairState K A pMsg.hdr.state (derefOpt p) s
  else if pMsg.hdr.event = RM_EVT_PASSCODE_NEEDED then do
    let p ← castRef AppData.toPasscode pMsg.pData
    RTLSMaster_processPasscode K (derefOpt p) s
  else if pMsg.hdr.event = RM_EVT_RTLS_CTRL_MSG_EVT then do
    let p ← castRef AppData.toCtrlMsg pMsg.pData
    RTLSMaster_processRtlsCtrlMsg K A (derefOpt p) s
  else if pMsg.hdr.event = RM_EVT_RTLS_SRV_MSG_EVT then do
    let p ← castRef AppData.toSrvMsg pMsg.pData
    RTLSMaster_processRtlsSrvMsg (derefOpt p) s
  else if pMsg.hdr.event = RM_EVT_CONN_EVT then do
    let p ← castRef AppData.toConnEvt pMsg.pData
    RTLSMaster_processConnEvt K p s
  else
    -- Do nothing.
    .ok s

/-- Scanner application event processing function. -/
def RTLSMaster_processAppMsg (K : Consts) (A : StackAnswers) (pMsg : rmEvt_t) (s : AppState) :
    Except Fault AppState := do
  let safeToDealloc := true
  let s1 ← RTLSMaster_processAppMsg_switch K A pMsg s
  match pMsg.pData with
  | some d =>
    if safeToDealloc = true then
      .ok (s1.emit (.ICall_free d.addr))
    else
      .ok s1
  | none => .ok s1

/-! ## Producers of application messages -/

/-- The answers of the allocator and of the queue to one run of a callback:
the callback's own allocation of the event data (where it makes one), the
allocation of the message in `RTLSMaster_enqueueMsg`, and the result of
`Util_enqueueMsg`. -/
structure QueueAnswers where
  ICall_malloc_pData : Option Nat
  ICall_malloc_pMsg : Option Nat
  Util_enqueueMsg : Bool
  deriving DecidableEq, Repr

/-- Creates a message and puts the message in RTOS queue. -/
def RTLSMaster_enqueueMsg (K : Consts) (Q : QueueAnswers) (event : Nat) (state : Nat)
    (pData : Option (Ref AppData)) (s : AppState) : Nat × AppState :=
  let s1 := s.emit (.ICall_malloc Q.ICall_malloc_pMsg)
  -- Create dynamic pointer to message.
  match Q.ICall_malloc_pMsg with
  | some pMsg =>
    -- Enqueue the message.
    if Q.Util_enqueueMsg then
      (K.SUCCESS, { s1 with
        appMsgQueue := s1.appMsgQueue ++ [⟨pMsg, { hdr := ⟨event, state⟩, pData := pData }⟩] })
    else
      (K.FAILURE, s1)
  | none => (K.bleMemAllocError, s1)

/-- Pairing state callback. -/
def RTLSMaster_pairStateCb (K : Consts) (Q : QueueAnswers) (connHandle : Nat) (state : Nat)
    (status : Nat) (s : AppState) : AppState :=
  -- Allocate space for the event data.
  let s1 := s.emit (.ICall_malloc Q.ICall_malloc_pData)
  match Q.ICall_malloc_pData with
  | some pData =>
    -- Queue the event.
    let r := RTLSMaster_enqueueMsg K Q RM_EVT_PAIR_STATE state
      (some ⟨pData, .pairState { connHandle := connHandle, status := status }⟩) s1
    if r.1 ≠ K.SUCCESS then r.2.emit (.ICall_free pData) else r.2
  | none => s1

/-- Passcode callback. -/
def RTLSMaster_passcodeCb (K : Consts) (Q : QueueAnswers) (deviceAddr : BdAddr)
    (connHandle : Nat) (uiInputs : Nat) (uiOutputs : Nat) (numComparison : Nat)
    (s : AppState) : AppState :=
  let s1 := s.emit (.ICall_malloc Q.ICall_malloc_pData)
  -- Allocate space for the passcode event.
  match Q.ICall_malloc_pData with
  | some pData =>
    -- Enqueue the event.
    let r := RTLSMaster_enqueueMsg K Q RM_EVT_PASSCODE_NEEDED 0
      (some ⟨pData, .passcode
        { deviceAddr := deviceAddr, connHandle := connHandle, uiInputs := uiInputs,
          uiOutputs := uiOutputs, numComparison := numComparison }⟩) s1
    if r.1 ≠ K.SUCCESS then r.2.emit (.ICall_free pData) else r.2
  | none => s1

/-- Callback called by GapScan module. -/
def RTLSMaster_scanCb (K : Consts) (Q : QueueAnswers) (evt : Nat) (pMsg : Option (Ref AppData))
    (s : AppState) : AppState :=
  let event : Option Nat :=
    if evt &&& K.GAP_EVT_ADV_REPORT ≠ 0 then some RM_EVT_ADV_REPORT
    else if evt &&& K.GAP_EVT_SCAN_ENABLED ≠ 0 then some RM_EVT_SCAN_ENABLED
    else if evt &&& K.GAP_EVT_SCAN_DISABLED ≠ 0 then some RM_EVT_SCAN_DISABLED
    else none
  match event with
  | none => s
  | some event =>
    let r := RTLSMaster_enqueueMsg K Q event K.SUCCESS pMsg s
    if r.1 ≠ K.SUCCESS then r.2.emit (.ICall_free (ptrAddr pMsg)) else r.2

/-- Connection event callback. -/
def RTLSMaster_connEvtCB (K : Consts) (Q : QueueAnswers) (pReport : Option (Ref AppData))
    (s : AppState) : AppState :=
  -- Enqueue the event for processing in the app context.
  let r := RTLSMaster_enqueueMsg K Q RM_EVT_CONN_EVT K.SUCCESS pReport s
  if r.1 ≠ K.SUCCESS then r.2.emit (.ICall_free (ptrAddr pReport)) else r.2

/-- Callback given to RTLS Control. -/
def RTLSMaster_rtlsCtrlMsgCb (K : Consts) (Q : QueueAnswers) (cmd : Option (Ref AppData))
    (s : AppState) : AppState :=
  -- Enqueue the message to switch context
  (RTLSMaster_enqueueMsg K Q RM_EVT_RTLS_CTRL_MSG_EVT K.SUCCESS cmd s).2

/-- Callback given to RTLS Services. -/
def RTLSMaster_rtlsSrvlMsgCb (K : Consts) (Q : QueueAnswers)
    (pRtlsSrvEvt : Option (Ref AppData)) (s : AppState) : AppState :=
  -- Enqueue the message to switch context
  (RTLSMaster_enqueueMsg K Q RM_EVT_RTLS_SRV_MSG_EVT K.SUCCESS pRtlsSrvEvt s).2

/-! ## Sequences of notifications on the connection table -/

/-- The notifications that change the connection table, each with the answers
of the stack to the handler that processes it. -/
inductive RegistryNote where
  | linkEstablished (A : StackAnswers) (status : Nat) (connHandle : Nat)
  | linkTerminated (A : StackAnswers) (connHandle : Nat)
  | channelEstablished (status : Nat) (connHandle : Nat) (CID : Nat)

/-- Run the handler of one notification. -/
def applyNote (K : Consts) (s : AppState) : RegistryNote → AppState
  | .linkEstablished A status connHandle =>
    RTLSMaster_processGapMsg K A (.GAP_LINK_ESTABLISHED_EVENT status connHandle) s
  | .linkTerminated A connHandle =>
    RTLSMaster_processGapMsg K A (.GAP_LINK_TERMINATED_EVENT connHandle) s
  | .channelEstablished status connHandle CID =>
    RTLSMaster_processL2CAPSignalEvent K
      (some { status := status, connHandle := connHandle,
              cmd := .L2CAP_CHANNEL_ESTABLISHED_EVT CID }) s

/-- Run the handlers of a sequence of notifications, in order. -/
def applyNotes (K : Consts) (notes : List RegistryNote) (s : AppState) : AppState :=
  notes.foldl (applyNote K) s

/-- Spec wording (zero state of a slot): a channel identifier is valid when it
is not the zero of a reset slot. -/
def cidValid (e : rmConnCB_t) : Bool := decide (e.cocCID ≠ 0)

/-- Spec wording: one step of "a channel-established notification for `h` was
received since the last activation of `h`". -/
def channelSinceActivationStep (K : Consts) (h : Nat) (b : Bool) : RegistryNote → Bool
  | .linkEstablished _ status connHandle =>
    if connHandle = h ∧ status = K.SUCCESS then false else b
  | .linkTerminated _ _ => b
  | .channelEstablished _ connHandle _ => if connHandle = h then true else b

/-- Spec wording: whether a channel-established notification for `h` was
received since the last activation of `h`. -/
def channelSinceActivation (K : Consts) (h : Nat) (notes : List RegistryNote) : Bool :=
  notes.foldl (channelSinceActivationStep K h) false

/-- One step of `lastChannelCID`. -/
def lastChannelCIDStep (h : Nat) (c : Nat) : RegistryNote → Nat
  | .channelEstablished _ connHandle CID => if connHandle = h then CID else c
  | _ => c

/-- The identifier of the most recent channel-established notification for `h`
in `notes`, or `c` when there is none. -/
def lastChannelCID (h : Nat) (c : Nat) (notes : List RegistryNote) : Nat :=
  notes.foldl (lastChannelCIDStep h) c

/-- One step of `lastLinkUp`. -/
def lastLinkUpStep (K : Consts) (h : Nat) (b : Bool) : RegistryNote → Bool
  | .linkEstablished _ status connHandle =>
    if connHandle = h ∧ status = K.SUCCESS then true else b
  | .linkTerminated _ connHandle => if connHandle = h then false else b
  | _ => b

/-- Whether the most recent of the successful link-established and the
link-terminated notifications for `h` in `notes` is a link-established one;
`b` when there is none. -/
def lastLinkUp (K : Consts) (h : Nat) (b : Bool) (notes : List RegistryNote) : Bool :=
  notes.foldl (lastLinkUpStep K h) b


/-! ## Sequences of enable-sync requests -/

/-- Run a sequence of enable-sync requests with non-null payloads, each with
the answers of the stack to it. -/
def enableSyncRun (K : Consts) :
    List (StackAnswers × rtlsEnableSync_t) → AppState → Except Fault AppState
  | [], s => .ok s
  | (A, e) :: rest, s =>
    match RTLSMaster_enableRtlsSync K A (some e) s with
    | .ok s1 => enableSyncRun K rest s1
    | .error f => .error f

/-- Spec wording: one step of the stack-level subscription; a register request
makes it active when it returns `SUCCESS`, an unregister request makes it
inactive. -/
def stackSubscribedStep (K : Consts) (b : Bool) : Effect → Bool
  | .Gap_RegisterConnEventCb .GAP_CB_REGISTER _ ret => if ret = K.SUCCESS then true else b
  | .Gap_RegisterConnEventCb .GAP_CB_UNREGISTER _ _ => false
  | _ => b

/-- Spec wording: whether the stack-level timing subscription is active after
the requests of a trace. -/
def stackSubscribed (K : Consts) (trace : List Effect) : Bool :=
  trace.foldl (stackSubscribedStep K) false

/-- Whether an effect is a register request for connection events. -/
def isRegisterRequest : Effect → Bool
  | .Gap_RegisterConnEventCb .GAP_CB_REGISTER _ _ => true
  | _ => false

/-- Whether an effect is an unregister request for connection events. -/
def isUnregisterRequest : Effect → Bool
  | .Gap_RegisterConnEventCb .GAP_CB_UNREGISTER _ _ => true
  | _ => false

/-- The number of register requests in a trace. -/
def registerRequests (trace : List Effect) : Nat := trace.countP isRegisterRequest

/-- The number of unregister requests in a trace. -/
def unregisterRequests (trace : List Effect) : Nat := trace.countP isUnregisterRequest


/-! ## Scan sessions -/

/-- The first `scanRes` records of `scanList`: the scan results of the
session. -/
def resultSet (s : AppState) : List scanRec_t := s.scanList.take s.scanRes

/-- The queued message of an advertising report: `state` is the state byte of
the header, `addr` the address of the report and `rpt` the report. -/
def advReportMsg (state : Nat) (addr : Nat) (rpt : GapScan_Evt_AdvRpt_t) : rmEvt_t where
  hdr := { event := RM_EVT_ADV_REPORT, state := state }
  pData := some ⟨addr, .advRpt rpt⟩

/-- The inputs of scan sessions: a start-scan request, or a queued advertising
report with the answers of the allocator to its handler. -/
inductive ScanNote where
  | startScan
  | advReport (A : StackAnswers) (state : Nat) (addr : Nat) (rpt : GapScan_Evt_AdvRpt_t)

/-- Run the handler of one input of a scan session. -/
def applyScanNote (K : Consts) (s : AppState) : ScanNote → Except Fault AppState
  | .startScan => .ok (RTLSMaster_processRTLSScanReq K s)
  | .advReport A state addr rpt => RTLSMaster_processAppMsg K A (advReportMsg state addr rpt) s

/-- Run the handlers of a sequence of inputs of scan sessions, in order. -/
def scanRun (K : Consts) : List ScanNote → AppState → Except Fault AppState
  | [], s => .ok s
  | note :: rest, s =>
    match applyScanNote K s note with
    | .ok s1 => scanRun K rest s1
    | .error f => .error f

/-- A report whose payload pointer is not null and whose payload has the
eleven bytes that the filter reads. -/
def reportReadable (rpt : GapScan_Evt_AdvRpt_t) : Bool :=
  match rpt.pData with
  | some data => decide (11 ≤ data.val.length)
  | none => false

/-- A sequence of inputs all of whose reports are readable. -/
def notesReadable : List ScanNote → Bool
  | [] => true
  | .startScan :: rest => notesReadable rest
  | .advReport _ _ _ rpt :: rest => reportReadable rpt && notesReadable rest

/-- Whether an effect is a scan result event sent to RTLS Control. -/
def isScanResultEvt : Effect → Bool
  | .RTLSCtrl_scanResultEvt _ _ => true
  | _ => false

/-- The scan result events of a trace, in order. -/
def scanResultEvents (trace : List Effect) : List Effect := trace.filter isScanResultEvt

/-- The effects of forwarding a report and releasing its buffers: the
allocation of the scan result, the scan result event (with the record when
the allocation succeeded), the release of the scan result, of the report
payload at `dataAddr` and of the report at `addr`. -/
def forwardEffects (A : StackAnswers) (rpt : GapScan_Evt_AdvRpt_t) (data : List Nat)
    (dataAddr : Nat) (addr : Nat) : List Effect :=
  match A.ICall_malloc with
  | some scanResult =>
    [.ICall_malloc (some scanResult),
     .RTLSCtrl_scanResultEvt .RTLS_SUCCESS (some
       { eventType := rpt.evtType, addrType := rpt.addrType, addr := rpt.addr, rssi := rpt.rssi,
         dataLen := rpt.dataLen, pEvtData := data.take rpt.dataLen }),
     .ICall_free scanResult, .ICall_free dataAddr, .ICall_free addr]
  | none =>
    [.ICall_malloc none, .RTLSCtrl_scanResultEvt .RTLS_OUT_OF_MEMORY none,
     .ICall_free dataAddr, .ICall_free addr]


/-- The invariant of scan sessions: the list has its declared size, the count
is within it, and the addresses of the scan results are pairwise distinct. -/
def ScanInv (K : Consts) (s : AppState) : Prop :=
  s.scanList.length = K.RTLS_MASTER_DEFAULT_MAX_SCAN_RES ∧
    s.scanRes ≤ K.RTLS_MASTER_DEFAULT_MAX_SCAN_RES ∧
    ((resultSet s).map (fun r => r.addr)).Nodup


/-! ## Inputs of the task loop -/

/-- Whether an effect is an event sent to RTLS Control (`RTLSCtrl_*`). -/
def isCtrlEvt : Effect → Bool
  | .RTLSCtrl_scanResultEvt _ _ => true
  | .RTLSCtrl_connResultEvt _ _ => true
  | .RTLSCtrl_connInfoEvt _ => true
  | .RTLSCtrl_dataSentEvt _ _ => true
  | .RTLSCtrl_syncNotifyEvt _ _ _ _ _ => true
  | .RTLSCtrl_sendDebugEvt _ _ => true
  | _ => false

/-- The events sent to RTLS Control in a trace, in order. -/
def ctrlEvents (trace : List Effect) : List Effect := trace.filter isCtrlEvt

/-- Whether an effect is a connection result event. -/
def isConnResultEvt : Effect → Bool
  | .RTLSCtrl_connResultEvt _ _ => true
  | _ => false

/-- Whether an effect is a connection information event. -/
def isConnInfoEvt : Effect → Bool
  | .RTLSCtrl_connInfoEvt _ => true
  | _ => false

/-- Whether an effect is a link termination request. -/
def isTerminateLinkReq : Effect → Bool
  | .GAP_TerminateLinkReq _ _ => true
  | _ => false

/-- Whether an effect is a flow control credit grant. -/
def isCreditGrant : Effect → Bool
  | .L2CAP_FlowCtrlCredit _ _ => true
  | _ => false

/-- Whether an effect is a PSM registration. -/
def isRegisterPsm : Effect → Bool
  | .L2CAP_RegisterPsm _ _ => true
  | _ => false

/-- Whether an effect is an L2CAP connect request. -/
def isConnectReq : Effect → Bool
  | .L2CAP_ConnectReq _ _ _ _ => true
  | _ => false

/-- Whether an effect is the allocation of a transport buffer. -/
def isBmAlloc : Effect → Bool
  | .L2CAP_bm_alloc _ _ => true
  | _ => false

/-- Whether an effect is the submission of an SDU. -/
def isSendSDU : Effect → Bool
  | .L2CAP_SendSDU _ _ => true
  | _ => false

/-- Whether an effect is a request to the stack (allocator calls and events
sent to RTLS Control are not). -/
def isStackRequest : Effect → Bool
  | .GAP_TerminateLinkReq _ _ => true
  | .GAP_UpdateLinkParamReq _ _ _ _ _ => true
  | .GAPBondMgr_PasscodeRsp _ _ _ => true
  | .HCI_LE_ReadRemoteUsedFeaturesCmd _ => true
  | .HCI_LE_SetHostChanClassificationCmd _ => true
  | .GapScan_enable _ _ _ => true
  | .GapScan_registerCb => true
  | .GapScan_setEventMask => true
  | .GapScan_setPhyParams => true
  | .GapScan_setParam _ => true
  | .GapInit_setPhyParam _ _ => true
  | .GapInit_connect _ _ => true
  | .Gap_RegisterConnEventCb _ _ _ => true
  | .L2CAP_RegisterPsm _ _ => true
  | .L2CAP_ConnectReq _ _ _ _ => true
  | .L2CAP_DisconnectReq _ => true
  | .L2CAP_FlowCtrlCredit _ _ => true
  | .L2CAP_SendSDU _ _ => true
  | .RTLSSrv_initAntArray _ => true
  | .RTLSSrv_setConnCteReceiveParams _ => true
  | .RTLSSrv_setCteSampleAccuracy _ => true
  | .RTLSSrv_setConnCteRequestEnableCmd _ => true
  | _ => false

/-- The connection information that `RTLSMaster_processRTLSConnInfo` builds for
a handle from the answers of the stack. -/
def connInfoOf (A : StackAnswers) (connHandle : Nat) : bleConnInfo_t where
  connHandle := connHandle
  addr := (A.linkDB_GetInfo connHandle).2.addr
  accessAddr := (A.HCI_EXT_GetActiveConnInfoCmd connHandle).accessAddr
  connInterval := (A.HCI_EXT_GetActiveConnInfoCmd connHandle).connInterval
  currChan := (A.HCI_EXT_GetActiveConnInfoCmd connHandle).nextChan
  hopValue := (A.HCI_EXT_GetActiveConnInfoCmd connHandle).hopValue
  mSCA := (A.HCI_EXT_GetActiveConnInfoCmd connHandle).mSCA
  crcInit := BUILD_UINT32 ((A.HCI_EXT_GetActiveConnInfoCmd connHandle).crcInit.getD 0 0)
    ((A.HCI_EXT_GetActiveConnInfoCmd connHandle).crcInit.getD 1 0)
    ((A.HCI_EXT_GetActiveConnInfoCmd connHandle).crcInit.getD 2 0) 0
  chanMap := (A.HCI_EXT_GetActiveConnInfoCmd connHandle).chanMap

/-- The inputs that the task loop hands to the handlers: a GAP message and an
L2CAP signal (through `RTLSMaster_processStackMsg`), and a queued application
message; each with the answers of the stack to its handler. -/
inductive TaskInput where
  | gapMsg (A : StackAnswers) (pMsg : gapEventHdr_t)
  | l2capSignal (pMsg : l2capSignalEvent_t)
  | appMsg (A : StackAnswers) (pMsg : rmEvt_t)

/-- Run the handler of one input of the task loop. -/
def taskStep (K : Consts) (s : AppState) : TaskInput → Except Fault AppState
  | .gapMsg A pMsg => .ok (RTLSMaster_processGapMsg K A pMsg s)
  | .l2capSignal pMsg => .ok (RTLSMaster_processL2CAPSignalEvent K (some pMsg) s)
  | .appMsg A pMsg => RTLSMaster_processAppMsg K A pMsg s

/-- Run the handlers of a sequence of inputs of the task loop, in order. -/
def taskRun (K : Consts) : List TaskInput → AppState → Except Fault AppState
  | [], s => .ok s
  | i :: rest, s =>
    match taskStep K s i with
    | .ok s1 => taskRun K rest s1
    | .error f => .error f

/-- The queued message of a request of RTLS Control, as
`RTLSMaster_rtlsCtrlMsgCb` enqueues it: `addr` is the address of the request. -/
def ctrlReqMsg (K : Consts) (addr : Nat) (req : rtlsCtrlReq_t) : rmEvt_t where
  hdr := { event := RM_EVT_RTLS_CTRL_MSG_EVT, state := K.SUCCESS }
  pData := some ⟨addr, .ctrlMsg req⟩

/-- The queued message of a pairing state change, as `RTLSMaster_pairStateCb`
enqueues it: `addr` is the address of the event data. -/
def pairStateMsg (addr : Nat) (connHandle : Nat) (state : Nat) (status : Nat) : rmEvt_t where
  hdr := { event := RM_EVT_PAIR_STATE, state := state }
  pData := some ⟨addr, .pairState { connHandle := connHandle, status := status }⟩

/-- A connect request for the peer `addr` with a connection interval. -/
def connectReq (addrType : Nat) (addr : BdAddr) (connInterval : Nat) : rtlsCtrlReq_t where
  reqOp := .RTLS_REQ_CONN
  pData := some ⟨0x1100, .connReq { addrType := addrType, addr := addr,
                                    connInterval := connInterval }⟩

/-- A send-data request for a handle. -/
def sendDataReq (pkt : rtlsPacket_t) : rtlsCtrlReq_t where
  reqOp := .RTLS_REQ_SEND_DATA
  pData := some ⟨0x1100, .packet pkt⟩

/-- A terminate-link request for a handle. -/
def terminateLinkReq (connHandle : Nat) : rtlsCtrlReq_t where
  reqOp := .RTLS_REQ_TERMINATE_LINK
  pData := some ⟨0x1100, .terminateLink { connHandle := connHandle }⟩

/-- The trace of a connection that becomes ready, carries one packet and is
torn down: connect, link established, pairing complete, channel established
with identifier 7, send data (20 bytes), send complete, terminate link, link
terminated; `A i` are the answers of the stack to step `i`. -/
def readyScenario (K : Consts) (A : Nat → StackAnswers) (peer : BdAddr) (H : Nat)
    (bytes : List Nat) : List TaskInput :=
  [.appMsg (A 0) (ctrlReqMsg K 0x1000 (connectReq 0 peer 80)),
   .gapMsg (A 1) (.GAP_LINK_ESTABLISHED_EVENT K.SUCCESS H),
   .appMsg (A 2) (pairStateMsg 0x1000 H K.GAPBOND_PAIRING_STATE_COMPLETE K.SUCCESS),
   .l2capSignal { status := K.SUCCESS, connHandle := H, cmd := .L2CAP_CHANNEL_ESTABLISHED_EVT 7 },
   .appMsg (A 4) (ctrlReqMsg K 0x1000
     (sendDataReq { connHandle := H, payloadLen := 20, bytes := bytes })),
   .l2capSignal { status := K.SUCCESS, connHandle := H, cmd := .L2CAP_SEND_SDU_DONE_EVT },
   .appMsg (A 6) (ctrlReqMsg K 0x1000 (terminateLinkReq H)),
   .gapMsg (A 7) (.GAP_LINK_TERMINATED_EVENT H)]

/-- The trace of a connection whose pairing fails: connect, link established,
pairing complete with the status `pairStatus`, link terminated. -/
def pairFailScenario (K : Consts) (A : Nat → StackAnswers) (peer : BdAddr) (h : Nat)
    (pairStatus : Nat) : List TaskInput :=
  [.appMsg (A 0) (ctrlReqMsg K 0x1000 (connectReq 0 peer 80)),
   .gapMsg (A 1) (.GAP_LINK_ESTABLISHED_EVENT K.SUCCESS h),
   .appMsg (A 2) (pairStateMsg 0x1000 h K.GAPBOND_PAIRING_STATE_COMPLETE pairStatus),
   .gapMsg (A 3) (.GAP_LINK_TERMINATED_EVENT h)]


/-- The effects that the scenarios observe: events sent to RTLS Control, credit
grants and link termination requests. -/
def isObservable (e : Effect) : Bool :=
  isCtrlEvt e || isCreditGrant e || isTerminateLinkReq e

/-- The observed effects of a trace, in order. -/
def observable (trace : List Effect) : List Effect := trace.filter isObservable

/-- What the scenarios observe of a state: the connection table and the
observed effects. -/
def Observed (s : AppState) (cb : List rmConnCB_t) (obs : List Effect) : Prop :=
  s.rmConnCB = cb ∧ observable s.trace = obs


/-! ## Further observations of a trace -/

/-- Whether an effect is the release of a transport buffer. -/
def isBmFree : Effect → Bool
  | .BM_free _ => true
  | _ => false

/-- Whether an effect is a release through `ICall_free`. -/
def isICallFree : Effect → Bool
  | .ICall_free _ => true
  | _ => false

/-- Whether an effect is a synchronisation event sent to RTLS Control. -/
def isSyncNotifyEvt : Effect → Bool
  | .RTLSCtrl_syncNotifyEvt _ _ _ _ _ => true
  | _ => false

/-- Whether the buffer behind `pData` holds what the dispatcher casts it to for
the opcode (any buffer for the scan request and for an opcode the dispatcher
does not name). -/
def payloadFits : rtlsReq_e → CtrlData → Bool
  | .RTLS_REQ_CONN, .connReq _ => true
  | .RTLS_REQ_SCAN, _ => true
  | .RTLS_REQ_ENABLE_SYNC, .enableSync _ => true
  | .RTLS_REQ_SEND_DATA, .packet _ => true
  | .RTLS_REQ_TERMINATE_LINK, .terminateLink _ => true
  | .RTLS_REQ_SET_AOA_PARAMS, .aoaConfig _ => true
  | .RTLS_REQ_AOA_ENABLE, .aoaEnable _ => true
  | .RTLS_REQ_UPDATE_CONN_INTERVAL, .updateConnInt _ => true
  | .RTLS_REQ_GET_ACTIVE_CONN_INFO, .getConnInfo _ => true
  | .RTLS_REQ_OTHER _, _ => true
  | _, _ => false

/-- Whether the reads of a handler in the buffer behind `pData` and in the
connection table stay in bounds: the handle of a packet is below
`MAX_NUM_BLE_CONNS` and an antenna pattern has a first entry. -/
def payloadInBounds (K : Consts) : CtrlData → Bool
  | .packet m => decide (m.connHandle < K.MAX_NUM_BLE_CONNS)
  | .aoaConfig c => decide (c.pAntPattern ≠ [])
  | _ => true

/-- A sequence of inputs of a scan session without a start-scan request. -/
def onlyReports : List ScanNote → Bool
  | [] => true
  | .startScan :: _ => false
  | .advReport _ _ _ _ :: rest => onlyReports rest

/-! ## Sample values -/

/-- A choice of the header constants: the status codes and the connection
handle sentinels as the SDK headers define them, eight connection slots and a
scan list of fifteen records. -/
def sdk : Consts where
  MAX_NUM_BLE_CONNS := 8
  RTLS_MASTER_DEFAULT_MAX_SCAN_RES := 15
  LINKDB_CONNHANDLE_INVALID := 0xFFFF
  LINKDB_CONNHANDLE_ALL := 0xFFFE
  SUCCESS := 0
  FAILURE := 1
  INVALIDPARAMETER := 2
  bleMemAllocError := 0x13
  RTLS_TRUE := 1
  RTLS_FALSE := 0
  GAP_CONN_EVT_STAT_MISSED := 2
  GAPBOND_PAIRING_STATE_COMPLETE := 1
  GAPBOND_PAIRING_STATE_ENCRYPTED := 2
  HCI_DISCONNECT_REMOTE_USER_TERM := 0x13
  B_APP_DEFAULT_PASSCODE := 123456
  MAX_PDU_SIZE := 255
  MASK_ADDRTYPE_ID := 1
  GAP_EVT_ADV_REPORT := 2 ^ 22
  GAP_EVT_SCAN_ENABLED := 2 ^ 16
  GAP_EVT_SCAN_DISABLED := 2 ^ 17
  RTLS_DEBUG := false
  RTLS_TEST_CHAN_MAP_DYNAMIC_CHANGE := false

/-- Stack answers in which every request succeeds and every allocation
returns a buffer. -/
def okAnswers : StackAnswers where
  ICall_malloc := some 0x2000
  L2CAP_bm_alloc := some 0x3000
  L2CAP_PsmInfo := 0
  L2CAP_RegisterPsm := 0
  L2CAP_ConnectReq := 0
  L2CAP_SendSDU := 0
  Gap_RegisterConnEventCb := 0
  linkDB_GetInfo := fun _ => (0, { addr := [1, 2, 3, 4, 5, 6], connLatency := 0,
                                   connTimeout := 200 })
  HCI_EXT_GetActiveConnInfoCmd := fun _ =>
    { accessAddr := 0x8E89BED6, connInterval := 80, hopValue := 5, mSCA := 0, nextChan := 3,
      chanMap := [255, 255, 255, 255, 31], crcInit := [1, 2, 3] }
  RTLSSrv_initAntArray := true

/-- A link on handle 0 comes up, its channel is established with identifier 7,
and the link goes down. -/
def notesLinkChannelDown : List RegistryNote :=
  [.linkEstablished okAnswers 0 0, .channelEstablished 0 0 7, .linkTerminated okAnswers 0]

/-- The state after a link on handle 0 came up and its channel was established
with identifier 7. -/
def stateChannelOpen : AppState :=
  applyNotes sdk [.linkEstablished okAnswers 0 0, .channelEstablished 0 0 7] (AppState.init sdk)


/-- A queued connection event report: the payload at address `0x1000` holds a
report for handle 0. -/
def connEvtMsg : rmEvt_t where
  hdr := { event := RM_EVT_CONN_EVT, state := 0 }
  pData := some ⟨0x1000, .connEvt { status := 0, handle := 0, channel := 5, lastRssi := 200,
                                    nextTaskTime := 1000 }⟩

/-- A scan request of RTLS Control at address `0x1000`. -/
def scanCmd : Option (Ref AppData) :=
  some ⟨0x1000, .ctrlMsg { reqOp := .RTLS_REQ_SCAN, pData := none }⟩

/-- A connection event report at address `0x1000`, as handed to the callback. -/
def connEvtReport : Option (Ref AppData) := connEvtMsg.pData

/-- The allocation of the message fails. -/
def noMsgMemory : QueueAnswers where
  ICall_malloc_pData := some 0x5000
  ICall_malloc_pMsg := none
  Util_enqueueMsg := true

/-- The message is allocated at `0x4000` and the queue rejects it. -/
def queueRejects : QueueAnswers where
  ICall_malloc_pData := some 0x5000
  ICall_malloc_pMsg := some 0x4000
  Util_enqueueMsg := false

/-- An enable-sync request that turns synchronisation on. -/
def syncOn (K : Consts) : rtlsEnableSync_t := { enable := K.RTLS_TRUE }

/-- An enable-sync request that turns synchronisation off. -/
def syncOff (K : Consts) : rtlsEnableSync_t := { enable := K.RTLS_FALSE }


/-- A report payload with the name `RTLSSlave` at bytes 2 to 10. -/
def slaveAdvData : List Nat := [10, 9, 82, 84, 76, 83, 83, 108, 97, 118, 101]

/-- A report of the peer `01:02:03:04:05:06` with address type 0. -/
def rptPublic : GapScan_Evt_AdvRpt_t where
  evtType := 0x13
  addrType := 0
  addr := [1, 2, 3, 4, 5, 6]
  rssi := 200
  dataLen := 11
  pData := some ⟨0x6000, slaveAdvData⟩

/-- A report with the same address bytes and address type 1. -/
def rptRandom : GapScan_Evt_AdvRpt_t := { rptPublic with addrType := 1 }

/-- A report of another peer. -/
def rptOther : GapScan_Evt_AdvRpt_t := { rptPublic with addr := [6, 5, 4, 3, 2, 1] }

/-- The state of a scan session in which `rptPublic` has been accepted. -/
def stateOneResult : AppState :=
  { AppState.init sdk with
    scanRes := 1
    scanList := (AppState.init sdk).scanList.set 0 { addrType := 0, addr := [1, 2, 3, 4, 5, 6] } }


/-- Two scan sessions: `rptPublic` and `rptOther` are reported in the first,
and `rptPublic`, `rptRandom` and `rptOther` in the second. -/
def twoSessions : List ScanNote :=
  [.startScan, .advReport okAnswers 0 0x1000 rptPublic, .advReport okAnswers 0 0x1000 rptOther,
   .startScan, .advReport okAnswers 0 0x1000 rptPublic, .advReport okAnswers 0 0x1000 rptRandom,
   .advReport okAnswers 0 0x1000 rptOther]

/-- The state that `twoSessions` runs to from the initial state. -/
def twoSessionsEnd : AppState :=
  match scanRun sdk twoSessions (AppState.init sdk) with
  | .ok s => s
  | .error _ => AppState.init sdk


/-- Stack answers in which the RTLS PSM is not registered yet and every
request succeeds. -/
def notRegistered : StackAnswers := { okAnswers with L2CAP_PsmInfo := 2 }

/-- Stack answers in which the RTLS PSM is not registered yet and its
registration fails with `bleMemAllocError`. -/
def registerFails : StackAnswers :=
  { okAnswers with L2CAP_PsmInfo := 2, L2CAP_RegisterPsm := 0x13 }


/-- Stack answers in which L2CAP rejects the SDU with `INVALIDPARAMETER`. -/
def sduRejected : StackAnswers := { okAnswers with L2CAP_SendSDU := 2 }

/-- A packet of 20 bytes for handle 0. -/
def packet20 : rtlsPacket_t where
  connHandle := 0
  payloadLen := 20
  bytes := List.replicate 20 0

/-- A report whose payload does not carry the name `RTLSSlave`. -/
def rptForeign : GapScan_Evt_AdvRpt_t :=
  { rptPublic with pData := some ⟨0x6000, [10, 9, 79, 116, 104, 101, 114, 32, 32, 32, 32]⟩ }


/-- An enable-sync request whose payload pointer is null. -/
def enableSyncNull : rtlsCtrlReq_t := { reqOp := .RTLS_REQ_ENABLE_SYNC, pData := none }

/-- A terminate-link request whose payload pointer is null. -/
def terminateLinkNull : rtlsCtrlReq_t := { reqOp := .RTLS_REQ_TERMINATE_LINK, pData := none }

/-- A packet of 20 bytes for the handle 8, the first one past the table of
`sdk`. -/
def packetHandle8 : rtlsPacket_t := { packet20 with connHandle := 8 }

/-- A connection event report for the handle 8 at address `0x1000`. -/
def connEvtHandle8 : Option (Ref Gap_ConnEventRpt_t) :=
  some ⟨0x1000, { status := 0, handle := 8, channel := 5, lastRssi := 200,
                  nextTaskTime := 1000 }⟩

/-- The initial state with the `FOR_RTLS` cause registered. -/
def stateSyncOn : AppState := { AppState.init sdk with connEventRegCauseBitmap := FOR_RTLS }

/-- The state `stateChannelOpen` with the `FOR_RTLS` cause registered. -/
def stateChannelOpenSyncOn : AppState :=
  { stateChannelOpen with connEventRegCauseBitmap := FOR_RTLS }

/-- Allocator answers in which the scan result cannot be allocated. -/
def noScanResultMemory : StackAnswers := { okAnswers with ICall_malloc := none }

/-- Every allocation succeeds and the queue accepts the message, which is
allocated at `0x4000`. -/
def queueAccepts : QueueAnswers where
  ICall_malloc_pData := some 0x5000
  ICall_malloc_pMsg := some 0x4000
  Util_enqueueMsg := true


/-- A request with an opcode that the dispatcher does not name, and a payload
of three bytes at `0x1100`. -/
def unknownReq : rtlsCtrlReq_t :=
  { reqOp := .RTLS_REQ_OTHER 0x77, pData := some ⟨0x1100, .raw [1, 2, 3]⟩ }

/-- A connection event report for the handle 0. -/
def connEvtHandle0 : Ref Gap_ConnEventRpt_t :=
  ⟨0x1000, { status := 0, handle := 0, channel := 5, lastRssi := 200, nextTaskTime := 1000 }⟩

/-- A report of `rptPublic` whose scan result cannot be allocated, followed by
two more reports of the same address, one with the other address type. -/
def outOfMemoryThenAgain : List ScanNote :=
  [.advReport noScanResultMemory 0 0x1000 rptPublic, .advReport okAnswers 0 0x2000 rptPublic,
   .advReport okAnswers 0 0x3000 rptRandom]

/-- The state that `outOfMemoryThenAgain` runs to from the initial state. -/
def outOfMemoryThenAgainEnd : AppState :=
  match scanRun sdk outOfMemoryThenAgain (AppState.init sdk) with
  | .ok s => s
  | .error _ => AppState.init sdk

/-- The event mask bit of a stopped scan, as the scanner reports it. -/
def scanDisabledEvt : Nat := sdk.GAP_EVT_SCAN_DISABLED

/-! ## Theorems -/

/-! ### Connection table -/

theorem setIsActive_length (cb : List rmConnCB_t) (i : Nat) (v : Bool) :
    (setIsActive cb i v).length = cb.length := by
  unfold setIsActive
  split <;> simp

theorem setCocCID_length (cb : List rmConnCB_t) (i : Nat) (v : Nat) :
    (setCocCID cb i v).length = cb.length := by
  unfold setCocCID
  split <;> simp

theorem setIsActive_getElem?_self (cb : List rmConnCB_t) (i : Nat) (v : Bool) :
    (setIsActive cb i v)[i]? = (cb[i]?).map (fun e => { e with isActive := v }) := by
  unfold setIsActive
  split
  · next e he =>
    have hi : i < cb.length := (List.getElem?_eq_some.mp he).1
    simp [he, List.getElem?_set_self hi]
  · next he => simp [he]

theorem setIsActive_getElem?_ne (cb : List rmConnCB_t) (i j : Nat) (v : Bool) (h : i ≠ j) :
    (setIsActive cb i v)[j]? = cb[j]? := by
  unfold setIsActive
  split
  · simp [List.getElem?_set_ne h]
  · rfl

theorem setCocCID_getElem?_self (cb : List rmConnCB_t) (i : Nat) (v : Nat) :
    (setCocCID cb i v)[i]? = (cb[i]?).map (fun e => { e with cocCID := v }) := by
  unfold setCocCID
  split
  · next e he =>
    have hi : i < cb.length := (List.getElem?_eq_some.mp he).1
    simp [he, List.getElem?_set_self hi]
  · next he => simp [he]

theorem setCocCID_getElem?_ne (cb : List rmConnCB_t) (i j : Nat) (v : Nat) (h : i ≠ j) :
    (setCocCID cb i v)[j]? = cb[j]? := by
  unfold setCocCID
  split
  · simp [List.getElem?_set_ne h]
  · rfl

theorem emit_rmConnCB (s : AppState) (e : Effect) : (s.emit e).rmConnCB = s.rmConnCB := rfl

theorem processRTLSConnInfo_rmConnCB (A : StackAnswers) (h : Nat) (s : AppState) :
    (RTLSMaster_processRTLSConnInfo A h s).rmConnCB = s.rmConnCB := rfl

/-- One notification changes slot `h` as the two trackers say. -/
theorem applyNote_slot (K : Consts) (s : AppState) (note : RegistryNote) (h : Nat)
    (hv : h ≠ K.LINKDB_CONNHANDLE_INVALID) (hlt : h < K.MAX_NUM_BLE_CONNS) :
    (applyNote K s note).rmConnCB[h]? =
      (s.rmConnCB[h]?).map (fun e =>
        { cocCID := lastChannelCIDStep h e.cocCID note
          isActive := lastLinkUpStep K h e.isActive note }) := by
  cases note with
  | linkEstablished A status c =>
    simp only [applyNote, RTLSMaster_processGapMsg, lastChannelCIDStep, lastLinkUpStep]
    by_cases hc : c = h
    · subst hc
      by_cases hs : status = K.SUCCESS
      · simp [hv, hlt, hs, processRTLSConnInfo_rmConnCB, emit_rmConnCB,
          setIsActive_getElem?_self]
      · simp [hs, emit_rmConnCB]
    · split
      · simp [hc, processRTLSConnInfo_rmConnCB, emit_rmConnCB,
          setIsActive_getElem?_ne _ _ _ _ hc]
      · simp [hc, emit_rmConnCB]
  | linkTerminated A c =>
    simp only [applyNote, RTLSMaster_processGapMsg, lastChannelCIDStep, lastLinkUpStep]
    by_cases hc : c = h
    · subst hc
      simp [hv, hlt, emit_rmConnCB, setIsActive_getElem?_self]
    · split
      · simp [hc, emit_rmConnCB, setIsActive_getElem?_ne _ _ _ _ hc]
      · simp [hc]
  | channelEstablished status c cid =>
    simp only [applyNote, RTLSMaster_processL2CAPSignalEvent, lastChannelCIDStep,
      lastLinkUpStep]
    by_cases hc : c = h
    · subst hc
      simp [hv, hlt, emit_rmConnCB, setCocCID_getElem?_self]
    · split
      · simp [hc, emit_rmConnCB, setCocCID_getElem?_ne _ _ _ _ hc]
      · simp [hc, emit_rmConnCB]

/-- A sequence of notifications changes slot `h` as the two trackers say. -/
theorem applyNotes_slot (K : Consts) (notes : List RegistryNote) (s : AppState) (h : Nat)
    (hv : h ≠ K.LINKDB_CONNHANDLE_INVALID) (hlt : h < K.MAX_NUM_BLE_CONNS) :
    (applyNotes K notes s).rmConnCB[h]? =
      (s.rmConnCB[h]?).map (fun e =>
        { cocCID := lastChannelCID h e.cocCID notes
          isActive := lastLinkUp K h e.isActive notes }) := by
  induction notes generalizing s with
  | nil =>
    simp [applyNotes, lastChannelCID, lastLinkUp]
  | cons note rest ih =>
    have hstep := applyNote_slot K s note h hv hlt
    have ih1 := ih (applyNote K s note)
    simp only [applyNotes, List.foldl_cons] at ih1 ⊢
    rw [ih1, hstep]
    cases s.rmConnCB[h]? <;> simp [lastChannelCID, lastLinkUp]

theorem init_slot (K : Consts) (h : Nat) (hlt : h < K.MAX_NUM_BLE_CONNS) :
    (AppState.init K).rmConnCB[h]? = some { cocCID := 0, isActive := false } := by
  simp [AppState.init, List.getElem?_replicate, hlt]

/-- C1 (as stated, refuted): after a link on handle 0 came up, its channel was
established with identifier 7 and the link went down, slot 0 is inactive and
still holds the identifier 7, so "valid iff active and established since the
last activation" fails. -/
theorem C1_counterexample :
    (applyNotes sdk notesLinkChannelDown (AppState.init sdk)).rmConnCB[0]? =
        some { cocCID := 7, isActive := false } ∧
      ¬ (cidValid { cocCID := 7, isActive := false } = true ↔
          (({ cocCID := 7, isActive := false } : rmConnCB_t).isActive = true ∧
            channelSinceActivation sdk 0 notesLinkChannelDown = true)) := by
  decide

/-- C1 (amended): after any sequence of link-established, link-terminated and
channel-established notifications applied to the initial table, and for every
valid handle `h`, slot `h` holds the identifier of the most recent
channel-established notification for `h` in the whole sequence (0 when there
was none), and is active exactly when the most recent of the successful
link-established and the link-terminated notifications for `h` is a
link-established one. -/
theorem C1_slot_after_notifications (K : Consts) (notes : List RegistryNote) (h : Nat)
    (hv : h ≠ K.LINKDB_CONNHANDLE_INVALID) (hlt : h < K.MAX_NUM_BLE_CONNS) :
    (applyNotes K notes (AppState.init K)).rmConnCB[h]? =
      some { cocCID := lastChannelCID h 0 notes, isActive := lastLinkUp K h false notes } := by
  rw [applyNotes_slot K notes (AppState.init K) h hv hlt, init_slot K h hlt]
  rfl

/-- Witness of C1 (amended): the sequence link up, channel 7, link down on
handle 0. -/
theorem C1_slot_after_notifications_witness :
    (0 ≠ sdk.LINKDB_CONNHANDLE_INVALID ∧ 0 < sdk.MAX_NUM_BLE_CONNS) ∧
      lastChannelCID 0 0 notesLinkChannelDown = 7 ∧
      lastLinkUp sdk 0 false notesLinkChannelDown = false ∧
      (applyNotes sdk notesLinkChannelDown (AppState.init sdk)).rmConnCB[0]? =
        some { cocCID := lastChannelCID 0 0 notesLinkChannelDown,
               isActive := lastLinkUp sdk 0 false notesLinkChannelDown } :=
  ⟨⟨by decide, by decide⟩, by decide, by decide,
    C1_slot_after_notifications sdk notesLinkChannelDown 0 (by decide) (by decide)⟩

/-- C2 (as stated, refuted): with the channel of handle 0 open on identifier
7, a link-terminated notification for handle 0 leaves slot 0 with the
identifier 7, which is not the zero slot, and a link-established notification
that follows makes the slot active with the identifier 7 still in it. -/
theorem C2_counterexample :
    (RTLSMaster_processGapMsg sdk okAnswers (.GAP_LINK_TERMINATED_EVENT 0)
        stateChannelOpen).rmConnCB[0]? = some { cocCID := 7, isActive := false } ∧
      (RTLSMaster_processGapMsg sdk okAnswers (.GAP_LINK_TERMINATED_EVENT 0)
        stateChannelOpen).rmConnCB[0]? ≠ some { cocCID := 0, isActive := false } ∧
      (RTLSMaster_processGapMsg sdk okAnswers (.GAP_LINK_ESTABLISHED_EVENT 0 0)
        (RTLSMaster_processGapMsg sdk okAnswers (.GAP_LINK_TERMINATED_EVENT 0)
          stateChannelOpen)).rmConnCB[0]? = some { cocCID := 7, isActive := true } := by
  decide

/-- C2 (amended): a link-terminated notification with a valid handle `h`
clears the active flag of slot `h` and leaves its channel identifier as it
was, leaves every other slot unchanged, and a successful link-established
notification on `h` that follows sets the active flag with that same channel
identifier still in the slot. -/
theorem C2_link_terminated_slot (K : Consts) (A A2 : StackAnswers) (s : AppState) (h : Nat)
    (e : rmConnCB_t) (hv : h ≠ K.LINKDB_CONNHANDLE_INVALID) (hlt : h < K.MAX_NUM_BLE_CONNS)
    (he : s.rmConnCB[h]? = some e) :
    (RTLSMaster_processGapMsg K A (.GAP_LINK_TERMINATED_EVENT h) s).rmConnCB[h]? =
        some { cocCID := e.cocCID, isActive := false } ∧
      (∀ j, j ≠ h →
        (RTLSMaster_processGapMsg K A (.GAP_LINK_TERMINATED_EVENT h) s).rmConnCB[j]? =
          s.rmConnCB[j]?) ∧
      (RTLSMaster_processGapMsg K A2 (.GAP_LINK_ESTABLISHED_EVENT K.SUCCESS h)
        (RTLSMaster_processGapMsg K A (.GAP_LINK_TERMINATED_EVENT h) s)).rmConnCB[h]? =
          some { cocCID := e.cocCID, isActive := true } := by
  have h1 : (RTLSMaster_processGapMsg K A (.GAP_LINK_TERMINATED_EVENT h) s).rmConnCB =
      setIsActive s.rmConnCB h false := by
    simp [RTLSMaster_processGapMsg, hv, hlt, emit_rmConnCB]
  have h2 : ∀ t : AppState,
      (RTLSMaster_processGapMsg K A2 (.GAP_LINK_ESTABLISHED_EVENT K.SUCCESS h) t).rmConnCB =
        setIsActive t.rmConnCB h true := by
    intro t
    simp [RTLSMaster_processGapMsg, hv, hlt, emit_rmConnCB, processRTLSConnInfo_rmConnCB]
  refine ⟨?_, ?_, ?_⟩
  · rw [h1, setIsActive_getElem?_self, he]
    rfl
  · intro j hj
    rw [h1, setIsActive_getElem?_ne _ _ _ _ (Ne.symm hj)]
  · rw [h2, setIsActive_getElem?_self, h1, setIsActive_getElem?_self, he]
    rfl

/-- Witness of C2 (amended): handle 0 with its channel open on identifier 7. -/
theorem C2_link_terminated_slot_witness :
    (0 ≠ sdk.LINKDB_CONNHANDLE_INVALID ∧ 0 < sdk.MAX_NUM_BLE_CONNS ∧
        stateChannelOpen.rmConnCB[0]? = some { cocCID := 7, isActive := true }) ∧
      ((RTLSMaster_processGapMsg sdk okAnswers (.GAP_LINK_TERMINATED_EVENT 0)
          stateChannelOpen).rmConnCB[0]? =
          some { cocCID := ({ cocCID := 7, isActive := true } : rmConnCB_t).cocCID,
                 isActive := false } ∧
        (∀ j, j ≠ 0 →
          (RTLSMaster_processGapMsg sdk okAnswers (.GAP_LINK_TERMINATED_EVENT 0)
            stateChannelOpen).rmConnCB[j]? = stateChannelOpen.rmConnCB[j]?) ∧
        (RTLSMaster_processGapMsg sdk okAnswers (.GAP_LINK_ESTABLISHED_EVENT sdk.SUCCESS 0)
          (RTLSMaster_processGapMsg sdk okAnswers (.GAP_LINK_TERMINATED_EVENT 0)
            stateChannelOpen)).rmConnCB[0]? =
          some { cocCID := ({ cocCID := 7, isActive := true } : rmConnCB_t).cocCID,
                 isActive := true }) :=
  ⟨⟨by decide, by decide, by decide⟩,
    C2_link_terminated_slot sdk okAnswers okAnswers stateChannelOpen 0
      { cocCID := 7, isActive := true } (by decide) (by decide) (by decide)⟩

/-! ### Release of message payloads -/

/-- C3 (code evaluated at the failing input): for a queued connection event
report at address `0x1000`, `RTLSMaster_processAppMsg` releases the payload
twice, once in `RTLSMaster_processConnEvt` and once more after the switch. -/
theorem C3_connEvt_payload_freed_twice :
    RTLSMaster_processAppMsg sdk okAnswers connEvtMsg (AppState.init sdk) =
        .ok { AppState.init sdk with trace := [.ICall_free 0x1000, .ICall_free 0x1000] } ∧
      List.count (Effect.ICall_free 0x1000)
        [Effect.ICall_free 0x1000, Effect.ICall_free 0x1000] = 2 := by
  decide

/-- C4 (code evaluated at the failing inputs): when the message cannot be
allocated, `RTLSMaster_rtlsCtrlMsgCb` returns without releasing the command
at `0x1000` and without queueing it; and when the queue rejects the message,
`RTLSMaster_connEvtCB` releases the report at `0x1000` while the message
allocated at `0x4000` is neither queued nor released. -/
theorem C4_enqueue_failure_leaks :
    RTLSMaster_rtlsCtrlMsgCb sdk noMsgMemory scanCmd (AppState.init sdk) =
        { AppState.init sdk with trace := [.ICall_malloc none] } ∧
      RTLSMaster_connEvtCB sdk queueRejects connEvtReport (AppState.init sdk) =
        { AppState.init sdk with trace := [.ICall_malloc (some 0x4000), .ICall_free 0x1000] } := by
  decide

/-! ### Connection event registration -/

theorem testBit_two (j : Nat) : Nat.testBit 2 j = decide (1 = j) := by
  have h := @Nat.testBit_two_pow 1 j
  simpa using h

/-- Setting a bit that is already set changes nothing. -/
theorem lor_FOR_RTLS_of_set (b : Nat) (h : b &&& FOR_RTLS ≠ 0) : b ||| FOR_RTLS = b := by
  unfold FOR_RTLS at h ⊢
  have hb : b.testBit 1 = true := by
    by_contra hcon
    apply h
    apply Nat.eq_of_testBit_eq
    intro j
    rw [Nat.testBit_land, testBit_two]
    by_cases hj : 1 = j
    · subst hj
      simp [hcon]
    · simp [hj]
  apply Nat.eq_of_testBit_eq
  intro j
  rw [Nat.testBit_lor, testBit_two]
  by_cases hj : 1 = j
  · subst hj
    simp [hb]
  · simp [hj]

theorem stackSubscribed_append (K : Consts) (t : List Effect) (e : Effect) :
    stackSubscribed K (t ++ [e]) = stackSubscribedStep K (stackSubscribed K t) e := by
  simp [stackSubscribed, List.foldl_append]

/-- Turning synchronisation on while nothing is registered: one register
request, and the bit is set when the stack returns `SUCCESS`. -/
theorem enableRtlsSync_on_unregistered (K : Consts) (A : StackAnswers) (e : rtlsEnableSync_t)
    (s : AppState) (hT : e.enable = K.RTLS_TRUE) (hb : s.connEventRegCauseBitmap = 0) :
    RTLSMaster_enableRtlsSync K A (some e) s =
      .ok (if A.Gap_RegisterConnEventCb = K.SUCCESS then
          CONNECTION_EVENT_REGISTER_BIT_SET FOR_RTLS
            (s.emit (.Gap_RegisterConnEventCb .GAP_CB_REGISTER K.LINKDB_CONNHANDLE_ALL
              A.Gap_RegisterConnEventCb))
        else
          s.emit (.Gap_RegisterConnEventCb .GAP_CB_REGISTER K.LINKDB_CONNHANDLE_ALL
            A.Gap_RegisterConnEventCb)) := by
  simp only [RTLSMaster_enableRtlsSync, hT, if_true, CONNECTION_EVENT_IS_REGISTERED, hb]
  by_cases hr : A.Gap_RegisterConnEventCb = K.SUCCESS <;> simp [hr]

/-- Turning synchronisation on while something is registered: no request to
the stack. -/
theorem enableRtlsSync_on_registered (K : Consts) (A : StackAnswers) (e : rtlsEnableSync_t)
    (s : AppState) (hT : e.enable = K.RTLS_TRUE) (hb : 0 < s.connEventRegCauseBitmap) :
    RTLSMaster_enableRtlsSync K A (some e) s =
      .ok (if K.RTLS_FALSE = K.SUCCESS then CONNECTION_EVENT_REGISTER_BIT_SET FOR_RTLS s
        else s) := by
  simp only [RTLSMaster_enableRtlsSync, hT, if_true, CONNECTION_EVENT_IS_REGISTERED]
  by_cases hr : K.RTLS_FALSE = K.SUCCESS <;> simp [hr, hb]

/-- Turning synchronisation off: the bit is removed, and an unregister request
is issued when no bit is left. -/
theorem enableRtlsSync_off (K : Consts) (A : StackAnswers) (e : rtlsEnableSync_t)
    (s : AppState) (hT : e.enable ≠ K.RTLS_TRUE) (hF : e.enable = K.RTLS_FALSE) :
    RTLSMaster_enableRtlsSync K A (some e) s =
      .ok (if 0 < (CONNECTION_EVENT_REGISTER_BIT_REMOVE FOR_RTLS s).connEventRegCauseBitmap then
          CONNECTION_EVENT_REGISTER_BIT_REMOVE FOR_RTLS s
        else
          (CONNECTION_EVENT_REGISTER_BIT_REMOVE FOR_RTLS s).emit
            (.Gap_RegisterConnEventCb .GAP_CB_UNREGISTER K.LINKDB_CONNHANDLE_ALL
              A.Gap_RegisterConnEventCb)) := by
  have hT2 : ¬ K.RTLS_FALSE = K.RTLS_TRUE := by rw [← hF]; exact hT
  simp only [RTLSMaster_enableRtlsSync, hF, hT2, if_false, if_true,
    CONNECTION_EVENT_IS_REGISTERED]
  by_cases hr : 0 < (CONNECTION_EVENT_REGISTER_BIT_REMOVE FOR_RTLS s).connEventRegCauseBitmap <;>
    simp [hr]

/-- A request that neither turns synchronisation on nor off changes nothing. -/
theorem enableRtlsSync_other (K : Consts) (A : StackAnswers) (e : rtlsEnableSync_t)
    (s : AppState) (hT : e.enable ≠ K.RTLS_TRUE) (hF : e.enable ≠ K.RTLS_FALSE) :
    RTLSMaster_enableRtlsSync K A (some e) s = .ok s := by
  simp [RTLSMaster_enableRtlsSync, hT, hF]

/-- The invariant of the registration: the bitmap is zero and the stack-level
subscription inactive, or the bitmap is `FOR_RTLS` and the subscription
active. -/
theorem enableRtlsSync_invariant (K : Consts) (A : StackAnswers) (e : rtlsEnableSync_t)
    (s : AppState)
    (hs : (s.connEventRegCauseBitmap = 0 ∧ stackSubscribed K s.trace = false) ∨
      (s.connEventRegCauseBitmap = FOR_RTLS ∧ stackSubscribed K s.trace = true)) :
    ∃ s1, RTLSMaster_enableRtlsSync K A (some e) s = .ok s1 ∧
      ((s1.connEventRegCauseBitmap = 0 ∧ stackSubscribed K s1.trace = false) ∨
        (s1.connEventRegCauseBitmap = FOR_RTLS ∧ stackSubscribed K s1.trace = true)) := by
  by_cases hT : e.enable = K.RTLS_TRUE
  · rcases hs with ⟨hb, hsub⟩ | ⟨hb, hsub⟩
    · refine ⟨_, enableRtlsSync_on_unregistered K A e s hT hb, ?_⟩
      by_cases hr : A.Gap_RegisterConnEventCb = K.SUCCESS
      · right
        simp [hr, CONNECTION_EVENT_REGISTER_BIT_SET, AppState.emit, hb, stackSubscribed_append,
          stackSubscribedStep]
      · left
        simp [hr, AppState.emit, hb, stackSubscribed_append, stackSubscribedStep, hsub]
    · have hpos : 0 < s.connEventRegCauseBitmap := by rw [hb]; decide
      refine ⟨_, enableRtlsSync_on_registered K A e s hT hpos, ?_⟩
      right
      by_cases hr : K.RTLS_FALSE = K.SUCCESS
      · simp [hr, CONNECTION_EVENT_REGISTER_BIT_SET, hb, hsub]
      · simp [hr, hb, hsub]
  · by_cases hF : e.enable = K.RTLS_FALSE
    · have hrem : (CONNECTION_EVENT_REGISTER_BIT_REMOVE FOR_RTLS s).connEventRegCauseBitmap = 0 := by
        rcases hs with ⟨hb, _⟩ | ⟨hb, _⟩
        · simp [CONNECTION_EVENT_REGISTER_BIT_REMOVE, hb]
        · simp only [CONNECTION_EVENT_REGISTER_BIT_REMOVE, hb]
          decide
      refine ⟨_, enableRtlsSync_off K A e s hT hF, ?_⟩
      left
      simp [hrem, AppState.emit, stackSubscribed_append, stackSubscribedStep]
    · exact ⟨s, enableRtlsSync_other K A e s hT hF, hs⟩

theorem enableSyncRun_invariant (K : Consts) (reqs : List (StackAnswers × rtlsEnableSync_t))
    (s : AppState)
    (hs : (s.connEventRegCauseBitmap = 0 ∧ stackSubscribed K s.trace = false) ∨
      (s.connEventRegCauseBitmap = FOR_RTLS ∧ stackSubscribed K s.trace = true)) :
    ∃ s1, enableSyncRun K reqs s = .ok s1 ∧
      ((s1.connEventRegCauseBitmap = 0 ∧ stackSubscribed K s1.trace = false) ∨
        (s1.connEventRegCauseBitmap = FOR_RTLS ∧ stackSubscribed K s1.trace = true)) := by
  induction reqs generalizing s with
  | nil => exact ⟨s, rfl, hs⟩
  | cons r rest ih =>
    obtain ⟨A, e⟩ := r
    obtain ⟨s1, h1, hinv⟩ := enableRtlsSync_invariant K A e s hs
    obtain ⟨s2, h2, hinv2⟩ := ih s1 hinv
    refine ⟨s2, ?_, hinv2⟩
    simp [enableSyncRun, h1, h2]

/-- C6: every sequence of enable-sync requests, with any outcome of each
register request, runs to a state in which the stack-level timing subscription
is active if and only if `connEventRegCauseBitmap` is non-zero. -/
theorem C6_subscribed_iff_bitmap_nonzero (K : Consts)
    (reqs : List (StackAnswers × rtlsEnableSync_t)) :
    ∃ s1, enableSyncRun K reqs (AppState.init K) = .ok s1 ∧
      (stackSubscribed K s1.trace = true ↔ s1.connEventRegCauseBitmap ≠ 0) := by
  obtain ⟨s1, h1, hinv⟩ := enableSyncRun_invariant K reqs (AppState.init K)
    (Or.inl ⟨rfl, rfl⟩)
  refine ⟨s1, h1, ?_⟩
  rcases hinv with ⟨hb, hsub⟩ | ⟨hb, hsub⟩
  · simp [hb, hsub]
  · simp [hb, hsub, FOR_RTLS]

/-- C5 (as stated, refuted): after enable-sync(true), enable-sync(true),
enable-sync(false) with the stack accepting the registration, an unregister
request has been issued and the bitmap is zero. -/
theorem C5_counterexample :
    enableSyncRun sdk
        [(okAnswers, syncOn sdk), (okAnswers, syncOn sdk), (okAnswers, syncOff sdk)]
        (AppState.init sdk) =
      .ok { AppState.init sdk with
            connEventRegCauseBitmap := 0
            trace := [.Gap_RegisterConnEventCb .GAP_CB_REGISTER 0xFFFE 0,
                      .Gap_RegisterConnEventCb .GAP_CB_UNREGISTER 0xFFFE 0] } ∧
      ¬ (unregisterRequests [.Gap_RegisterConnEventCb .GAP_CB_REGISTER 0xFFFE 0,
                             .Gap_RegisterConnEventCb .GAP_CB_UNREGISTER 0xFFFE 0] = 0 ∧
          (0 : Nat) ≠ 0) := by
  decide

/-- The state after the first enable-sync(true) that the stack accepts. -/
theorem enableSyncRun_first_on (K : Consts) (A1 : StackAnswers)
    (hacc : A1.Gap_RegisterConnEventCb = K.SUCCESS) :
    RTLSMaster_enableRtlsSync K A1 (some (syncOn K)) (AppState.init K) =
      .ok { AppState.init K with
            connEventRegCauseBitmap := FOR_RTLS
            trace := [.Gap_RegisterConnEventCb .GAP_CB_REGISTER K.LINKDB_CONNHANDLE_ALL
                        K.SUCCESS] } := by
  rw [enableRtlsSync_on_unregistered K A1 (syncOn K) (AppState.init K) rfl rfl]
  simp [hacc, CONNECTION_EVENT_REGISTER_BIT_SET, AppState.emit, AppState.init, NOT_REGISTERED]

/-- Turning synchronisation on again in a state whose bitmap is `FOR_RTLS`
changes nothing. -/
theorem enableRtlsSync_on_again (K : Consts) (A : StackAnswers) (s : AppState)
    (hb : s.connEventRegCauseBitmap = FOR_RTLS) :
    RTLSMaster_enableRtlsSync K A (some (syncOn K)) s = .ok s := by
  have hpos : 0 < s.connEventRegCauseBitmap := by rw [hb]; decide
  rw [enableRtlsSync_on_registered K A (syncOn K) s rfl hpos]
  by_cases hr : K.RTLS_FALSE = K.SUCCESS
  · simp only [hr, if_true, CONNECTION_EVENT_REGISTER_BIT_SET, hb, Nat.or_self]
    cases s
    simp_all
  · simp [hr]

/-- Turning synchronisation off in a state whose bitmap is zero or `FOR_RTLS`
clears the bitmap and issues an unregister request. -/
theorem enableRtlsSync_off_last (K : Consts) (A : StackAnswers) (s : AppState)
    (hTF : K.RTLS_TRUE ≠ K.RTLS_FALSE)
    (hb : s.connEventRegCauseBitmap = 0 ∨ s.connEventRegCauseBitmap = FOR_RTLS) :
    RTLSMaster_enableRtlsSync K A (some (syncOff K)) s =
      .ok { s with
            connEventRegCauseBitmap := 0
            trace := s.trace ++ [.Gap_RegisterConnEventCb .GAP_CB_UNREGISTER
              K.LINKDB_CONNHANDLE_ALL A.Gap_RegisterConnEventCb] } := by
  have hrem : s.connEventRegCauseBitmap &&& complement32 FOR_RTLS = 0 := by
    rcases hb with hb | hb
    · simp [hb]
    · rw [hb]
      decide
  rw [enableRtlsSync_off K A (syncOff K) s (fun h => hTF h.symm) rfl]
  simp [CONNECTION_EVENT_REGISTER_BIT_REMOVE, hrem, AppState.emit]

/-- C5 (amended): from the unsubscribed state with the stack accepting the
registration, after enable-sync(true), enable-sync(true), enable-sync(false)
the subscription is already dropped: one register request and then one
unregister request have been issued and the bitmap is zero.  A further
enable-sync(false) leaves the bitmap zero and issues one more unregister
request. -/
theorem C5_dropped_by_first_disable (K : Consts) (A1 A2 A3 A4 : StackAnswers)
    (hTF : K.RTLS_TRUE ≠ K.RTLS_FALSE) (hacc : A1.Gap_RegisterConnEventCb = K.SUCCESS) :
    enableSyncRun K [(A1, syncOn K), (A2, syncOn K), (A3, syncOff K)] (AppState.init K) =
        .ok { AppState.init K with
              connEventRegCauseBitmap := 0
              trace := [.Gap_RegisterConnEventCb .GAP_CB_REGISTER K.LINKDB_CONNHANDLE_ALL
                          K.SUCCESS,
                        .Gap_RegisterConnEventCb .GAP_CB_UNREGISTER K.LINKDB_CONNHANDLE_ALL
                          A3.Gap_RegisterConnEventCb] } ∧
      enableSyncRun K [(A1, syncOn K), (A2, syncOn K), (A3, syncOff K), (A4, syncOff K)]
          (AppState.init K) =
        .ok { AppState.init K with
              connEventRegCauseBitmap := 0
              trace := [.Gap_RegisterConnEventCb .GAP_CB_REGISTER K.LINKDB_CONNHANDLE_ALL
                          K.SUCCESS,
                        .Gap_RegisterConnEventCb .GAP_CB_UNREGISTER K.LINKDB_CONNHANDLE_ALL
                          A3.Gap_RegisterConnEventCb,
                        .Gap_RegisterConnEventCb .GAP_CB_UNREGISTER K.LINKDB_CONNHANDLE_ALL
                          A4.Gap_RegisterConnEventCb] } := by
  have h1 := enableSyncRun_first_on K A1 hacc
  have h2 := enableRtlsSync_on_again K A2
    { AppState.init K with
      connEventRegCauseBitmap := FOR_RTLS
      trace := [.Gap_RegisterConnEventCb .GAP_CB_REGISTER K.LINKDB_CONNHANDLE_ALL K.SUCCESS] }
    rfl
  have h3 := enableRtlsSync_off_last K A3
    { AppState.init K with
      connEventRegCauseBitmap := FOR_RTLS
      trace := [.Gap_RegisterConnEventCb .GAP_CB_REGISTER K.LINKDB_CONNHANDLE_ALL K.SUCCESS] }
    hTF (Or.inr rfl)
  have h4 := enableRtlsSync_off_last K A4
    { AppState.init K with
      connEventRegCauseBitmap := 0
      trace := [.Gap_RegisterConnEventCb .GAP_CB_REGISTER K.LINKDB_CONNHANDLE_ALL K.SUCCESS,
                .Gap_RegisterConnEventCb .GAP_CB_UNREGISTER K.LINKDB_CONNHANDLE_ALL
                  A3.Gap_RegisterConnEventCb] }
    hTF (Or.inl rfl)
  constructor
  · simp only [enableSyncRun, h1, h2, h3]
    rfl
  · simp only [enableSyncRun, h1, h2, h3]
    exact congrArg (fun r : Except Fault AppState =>
      match r with
      | .ok s1 => Except.ok s1
      | .error f => .error f) h4

/-- Witness of C5 (amended): the SDK constants with a stack that accepts every
request. -/
theorem C5_dropped_by_first_disable_witness :
    (sdk.RTLS_TRUE ≠ sdk.RTLS_FALSE ∧ okAnswers.Gap_RegisterConnEventCb = sdk.SUCCESS) ∧
      (enableSyncRun sdk [(okAnswers, syncOn sdk), (okAnswers, syncOn sdk),
            (okAnswers, syncOff sdk)] (AppState.init sdk) =
          .ok { AppState.init sdk with
                connEventRegCauseBitmap := 0
                trace := [.Gap_RegisterConnEventCb .GAP_CB_REGISTER sdk.LINKDB_CONNHANDLE_ALL
                            sdk.SUCCESS,
                          .Gap_RegisterConnEventCb .GAP_CB_UNREGISTER sdk.LINKDB_CONNHANDLE_ALL
                            okAnswers.Gap_RegisterConnEventCb] } ∧
        enableSyncRun sdk [(okAnswers, syncOn sdk), (okAnswers, syncOn sdk),
            (okAnswers, syncOff sdk), (okAnswers, syncOff sdk)] (AppState.init sdk) =
          .ok { AppState.init sdk with
                connEventRegCauseBitmap := 0
                trace := [.Gap_RegisterConnEventCb .GAP_CB_REGISTER sdk.LINKDB_CONNHANDLE_ALL
                            sdk.SUCCESS,
                          .Gap_RegisterConnEventCb .GAP_CB_UNREGISTER sdk.LINKDB_CONNHANDLE_ALL
                            okAnswers.Gap_RegisterConnEventCb,
                          .Gap_RegisterConnEventCb .GAP_CB_UNREGISTER sdk.LINKDB_CONNHANDLE_ALL
                            okAnswers.Gap_RegisterConnEventCb] }) :=
  ⟨⟨by decide, by decide⟩,
    C5_dropped_by_first_disable sdk okAnswers okAnswers okAnswers okAnswers (by decide)
      (by decide)⟩

/-- C7: in every state in which the `FOR_RTLS` bit is set, enable-sync(true)
issues no request to the stack and leaves the whole state, the bitmap
included, unchanged; and from the initial state with the stack accepting the
registration, enabling twice ends in the same state as enabling once, with
one register request issued. -/
theorem C7_enable_twice_registers_once (K : Consts) (A A1 A2 : StackAnswers) (s : AppState)
    (hset : CONNECTION_EVENT_REGISTRATION_CAUSE FOR_RTLS s ≠ 0)
    (hacc : A1.Gap_RegisterConnEventCb = K.SUCCESS) :
    RTLSMaster_enableRtlsSync K A (some (syncOn K)) s = .ok s ∧
      enableSyncRun K [(A1, syncOn K), (A2, syncOn K)] (AppState.init K) =
        enableSyncRun K [(A1, syncOn K)] (AppState.init K) ∧
      ∃ s1, enableSyncRun K [(A1, syncOn K)] (AppState.init K) = .ok s1 ∧
        registerRequests s1.trace = 1 ∧ s1.connEventRegCauseBitmap = FOR_RTLS := by
  have h1 := enableSyncRun_first_on K A1 hacc
  refine ⟨?_, ?_, ?_⟩
  · have hpos : 0 < s.connEventRegCauseBitmap := by
      rcases Nat.eq_zero_or_pos s.connEventRegCauseBitmap with h0 | h0
      · exfalso
        apply hset
        simp [CONNECTION_EVENT_REGISTRATION_CAUSE, h0]
      · exact h0
    rw [enableRtlsSync_on_registered K A (syncOn K) s rfl hpos]
    by_cases hr : K.RTLS_FALSE = K.SUCCESS
    · have hor := lor_FOR_RTLS_of_set s.connEventRegCauseBitmap hset
      simp only [hr, if_true, CONNECTION_EVENT_REGISTER_BIT_SET, hor]
    · simp [hr]
  · have h2 := enableRtlsSync_on_again K A2
      { AppState.init K with
        connEventRegCauseBitmap := FOR_RTLS
        trace := [.Gap_RegisterConnEventCb .GAP_CB_REGISTER K.LINKDB_CONNHANDLE_ALL
                    K.SUCCESS] }
      rfl
    simp only [enableSyncRun, h1, h2]
  · refine ⟨{ AppState.init K with
              connEventRegCauseBitmap := FOR_RTLS
              trace := [.Gap_RegisterConnEventCb .GAP_CB_REGISTER K.LINKDB_CONNHANDLE_ALL
                          K.SUCCESS] }, ?_, ?_, rfl⟩
    · simp only [enableSyncRun, h1]
    · simp [registerRequests, isRegisterRequest]

/-- Witness of C7: a state whose bitmap is `FOR_RTLS`, and a stack that accepts
the registration. -/
theorem C7_enable_twice_registers_once_witness :
    (CONNECTION_EVENT_REGISTRATION_CAUSE FOR_RTLS
          { AppState.init sdk with connEventRegCauseBitmap := 2 } ≠ 0 ∧
        okAnswers.Gap_RegisterConnEventCb = sdk.SUCCESS) ∧
      (RTLSMaster_enableRtlsSync sdk okAnswers (some (syncOn sdk))
            { AppState.init sdk with connEventRegCauseBitmap := 2 } =
          .ok { AppState.init sdk with connEventRegCauseBitmap := 2 } ∧
        enableSyncRun sdk [(okAnswers, syncOn sdk), (okAnswers, syncOn sdk)]
            (AppState.init sdk) =
          enableSyncRun sdk [(okAnswers, syncOn sdk)] (AppState.init sdk) ∧
        ∃ s1, enableSyncRun sdk [(okAnswers, syncOn sdk)] (AppState.init sdk) = .ok s1 ∧
          registerRequests s1.trace = 1 ∧ s1.connEventRegCauseBitmap = FOR_RTLS) :=
  ⟨⟨by decide, by decide⟩,
    C7_enable_twice_registers_once sdk okAnswers okAnswers okAnswers
      { AppState.init sdk with connEventRegCauseBitmap := 2 } (by decide) (by decide)⟩

/-! ### Scan sessions -/

theorem take_set_of_le {α : Type} (a : α) {n m : Nat} (l : List α) (h : m ≤ n) :
    (l.set n a).take m = l.take m := by
  apply List.ext_getElem?
  intro i
  rw [List.getElem?_take, List.getElem?_take]
  split
  · next h1 => rw [List.getElem?_set_ne (by omega)]
  · rfl

theorem take_succ_set {α : Type} (a : α) (n : Nat) (l : List α) (h : n < l.length) :
    (l.set n a).take (n + 1) = l.take n ++ [a] := by
  rw [List.take_succ, take_set_of_le a l (Nat.le_refl n), List.getElem?_set_self h]
  rfl

theorem processRTLSScanRes_ok (A : StackAnswers) (rpt : GapScan_Evt_AdvRpt_t)
    (data : Ref (List Nat)) (s : AppState) (hd : rpt.pData = some data) :
    RTLSMaster_processRTLSScanRes A (some rpt) s =
      .ok { s with trace := s.trace ++
        (match A.ICall_malloc with
         | some scanResult =>
           [.ICall_malloc (some scanResult),
            .RTLSCtrl_scanResultEvt .RTLS_SUCCESS (some
              { eventType := rpt.evtType, addrType := rpt.addrType, addr := rpt.addr,
                rssi := rpt.rssi, dataLen := rpt.dataLen,
                pEvtData := data.val.take rpt.dataLen }),
            .ICall_free scanResult]
         | none => [.ICall_malloc none, .RTLSCtrl_scanResultEvt .RTLS_OUT_OF_MEMORY none]) } := by
  unfold RTLSMaster_processRTLSScanRes
  cases hA : A.ICall_malloc with
  | none => simp [AppState.emit]
  | some b => simp [hd, AppState.emit]

/-- The handler of an advertising report whose payload is readable: the
report is dropped without an event when the filter rejects it, when the list
is full or when the address is in the list, and is forwarded and appended
otherwise; its buffers are released in every case. -/
theorem processAppMsg_advReport (K : Consts) (A : StackAnswers) (state addr : Nat)
    (rpt : GapScan_Evt_AdvRpt_t) (data : Ref (List Nat)) (s : AppState)
    (hd : rpt.pData = some data) (hlen : 11 ≤ data.val.length) :
    RTLSMaster_processAppMsg K A (advReportMsg state addr rpt) s =
      .ok (if matchesSlaveScanRsp data.val = true ∧
              s.scanRes < K.RTLS_MASTER_DEFAULT_MAX_SCAN_RES ∧
              addrInScanList s rpt.addr = false then
          { s with
            scanList := s.scanList.set s.scanRes { addrType := rpt.addrType, addr := rpt.addr }
            scanRes := (s.scanRes + 1) % 256
            trace := s.trace ++ forwardEffects A rpt data.val data.addr addr }
        else
          { s with trace := s.trace ++ [.ICall_free data.addr, .ICall_free addr] }) := by
  have hlen2 : ¬ data.val.length < 11 := by omega
  simp only [RTLSMaster_processAppMsg, RTLSMaster_processAppMsg_switch, advReportMsg, castRef,
    AppData.toAdvRpt, if_true, bind, Except.bind, hd, hlen2, if_false]
  by_cases hm : matchesSlaveScanRsp data.val = true
  · by_cases hcap : s.scanRes < K.RTLS_MASTER_DEFAULT_MAX_SCAN_RES
    · cases hin : addrInScanList s rpt.addr with
      | true =>
        simp [hm, hcap, hin, RTLSMaster_addDeviceInfo, AppState.emit]
      | false =>
        simp only [hm, hcap, hin, RTLSMaster_addDeviceInfo, if_true, bind, Except.bind,
          processRTLSScanRes_ok A rpt data s hd, forwardEffects]
        cases hA : A.ICall_malloc <;> simp [AppState.emit]
    · simp [hm, hcap, RTLSMaster_addDeviceInfo, AppState.emit]
  · simp [hm, AppState.emit]

theorem addrInScanList_false_iff (s : AppState) (a : BdAddr) :
    addrInScanList s a = false ↔ a ∉ (resultSet s).map (fun r => r.addr) := by
  simp only [addrInScanList, resultSet, List.any_eq_false, List.mem_map, decide_eq_true_eq]
  constructor
  · rintro h ⟨r, hr, rfl⟩
    exact h r hr rfl
  · intro h r hr heq
    exact h ⟨r, hr, heq⟩

theorem ScanInv_init (K : Consts) : ScanInv K (AppState.init K) := by
  simp [ScanInv, AppState.init, resultSet]

theorem ScanInv_startScan (K : Consts) (s : AppState) (h : ScanInv K s) :
    ScanInv K (RTLSMaster_processRTLSScanReq K s) := by
  obtain ⟨h1, _, _⟩ := h
  simp [ScanInv, RTLSMaster_processRTLSScanReq, AppState.emit, resultSet, h1]

theorem ScanInv_append (K : Consts) (s : AppState) (r : scanRec_t) (t : List Effect)
    (h : ScanInv K s) (hcap : s.scanRes < K.RTLS_MASTER_DEFAULT_MAX_SCAN_RES)
    (hnew : addrInScanList s r.addr = false) :
    ScanInv K { s with
      scanList := s.scanList.set s.scanRes r
      scanRes := (s.scanRes + 1) % 256
      trace := t } := by
  obtain ⟨h1, h2, h3⟩ := h
  have hmod : (s.scanRes + 1) % 256 ≤ s.scanRes + 1 := Nat.mod_le _ _
  refine ⟨by simp [h1], by simp only; omega, ?_⟩
  simp only [resultSet] at h3 ⊢
  by_cases hw : (s.scanRes + 1) % 256 = s.scanRes + 1
  · rw [hw, take_succ_set r s.scanRes s.scanList (by omega)]
    rw [List.map_append, List.nodup_append]
    refine ⟨h3, by simp, ?_⟩
    have hnot := (addrInScanList_false_iff s r.addr).mp hnew
    simp only [resultSet] at hnot
    intro a ha hb
    simp only [List.map_cons, List.map_nil, List.mem_singleton] at hb
    subst hb
    exact hnot ha
  · have hle : (s.scanRes + 1) % 256 ≤ s.scanRes := by omega
    rw [take_set_of_le r s.scanList hle]
    exact List.Nodup.sublist
      (List.Sublist.map _ (List.take_sublist_take_left s.scanList hle)) h3

theorem ScanInv_trace (K : Consts) (s : AppState) (t : List Effect) (h : ScanInv K s) :
    ScanInv K { s with trace := t } := h

theorem processAppMsg_advReport_error (K : Consts) (A : StackAnswers) (state addr : Nat)
    (rpt : GapScan_Evt_AdvRpt_t) (s : AppState) (hr : reportReadable rpt = false) :
    ∃ f, RTLSMaster_processAppMsg K A (advReportMsg state addr rpt) s = .error f := by
  unfold reportReadable at hr
  cases hd : rpt.pData with
  | none =>
    exact ⟨.nullDeref, by
      simp [RTLSMaster_processAppMsg, RTLSMaster_processAppMsg_switch, advReportMsg, castRef,
        AppData.toAdvRpt, bind, Except.bind, hd]⟩
  | some data =>
    rw [hd] at hr
    have hlt : data.val.length < 11 := by
      simp only [decide_eq_false_iff_not] at hr
      omega
    exact ⟨.outOfBounds, by
      simp [RTLSMaster_processAppMsg, RTLSMaster_processAppMsg_switch, advReportMsg, castRef,
        AppData.toAdvRpt, bind, Except.bind, hd, hlt]⟩

/-- Each input of a scan session keeps the invariant. -/
theorem ScanInv_step (K : Consts) (s s1 : AppState) (note : ScanNote) (h : ScanInv K s)
    (hrun : applyScanNote K s note = .ok s1) : ScanInv K s1 := by
  cases note with
  | startScan =>
    simp only [applyScanNote, Except.ok.injEq] at hrun
    rw [← hrun]
    exact ScanInv_startScan K s h
  | advReport A state addr rpt =>
    simp only [applyScanNote] at hrun
    cases hr : reportReadable rpt with
    | false =>
      obtain ⟨f, hf⟩ := processAppMsg_advReport_error K A state addr rpt s hr
      rw [hf] at hrun
      cases hrun
    | true =>
      unfold reportReadable at hr
      cases hd : rpt.pData with
      | none => simp [hd] at hr
      | some data =>
        rw [hd] at hr
        have hlen : 11 ≤ data.val.length := by simpa using hr
        rw [processAppMsg_advReport K A state addr rpt data s hd hlen] at hrun
        simp only [Except.ok.injEq] at hrun
        rw [← hrun]
        split
        · next hc => exact ScanInv_append K s _ _ h hc.2.1 hc.2.2
        · exact ScanInv_trace K s _ h

theorem ScanInv_run (K : Consts) (notes : List ScanNote) (s s1 : AppState) (h : ScanInv K s)
    (hrun : scanRun K notes s = .ok s1) : ScanInv K s1 := by
  induction notes generalizing s with
  | nil =>
    simp only [scanRun, Except.ok.injEq] at hrun
    rw [← hrun]
    exact h
  | cons note rest ih =>
    simp only [scanRun] at hrun
    cases hstep : applyScanNote K s note with
    | error f =>
      rw [hstep] at hrun
      cases hrun
    | ok s2 =>
      rw [hstep] at hrun
      exact ih s2 (ScanInv_step K s s2 note h hstep) hrun

theorem scanRun_total (K : Consts) (notes : List ScanNote) (s : AppState)
    (hr : notesReadable notes = true) : ∃ s1, scanRun K notes s = .ok s1 := by
  induction notes generalizing s with
  | nil => exact ⟨s, rfl⟩
  | cons note rest ih =>
    cases note with
    | startScan =>
      simp only [notesReadable] at hr
      simpa [scanRun, applyScanNote] using ih (RTLSMaster_processRTLSScanReq K s) hr
    | advReport A state addr rpt =>
      simp only [notesReadable, Bool.and_eq_true] at hr
      obtain ⟨hr1, hr2⟩ := hr
      unfold reportReadable at hr1
      cases hd : rpt.pData with
      | none => simp [hd] at hr1
      | some data =>
        rw [hd] at hr1
        have hlen : 11 ≤ data.val.length := by simpa using hr1
        simp only [scanRun, applyScanNote,
          processAppMsg_advReport K A state addr rpt data s hd hlen]
        exact ih _ hr2

/-- C8: every sequence of start-scan requests and readable advertising reports
applied to the initial state runs to a state, and in every state that a
sequence of start-scan requests and advertising reports runs to, `scanRes`
does not exceed `RTLS_MASTER_DEFAULT_MAX_SCAN_RES` and the first `scanRes`
entries of `scanList` are pairwise distinct as (address, address type)
pairs. -/
theorem C8_result_set_bounded_distinct (K : Consts) (notes : List ScanNote) :
    (notesReadable notes = true → ∃ s1, scanRun K notes (AppState.init K) = .ok s1) ∧
      ∀ s1, scanRun K notes (AppState.init K) = .ok s1 →
        s1.scanRes ≤ K.RTLS_MASTER_DEFAULT_MAX_SCAN_RES ∧
          (resultSet s1).Pairwise
            (fun a b => (a.addr, a.addrType) ≠ (b.addr, b.addrType)) := by
  refine ⟨scanRun_total K notes (AppState.init K), ?_⟩
  intro s1 hrun
  obtain ⟨_, h2, h3⟩ := ScanInv_run K notes (AppState.init K) s1 (ScanInv_init K) hrun
  refine ⟨h2, ?_⟩
  have hp := List.pairwise_map.mp h3
  refine List.Pairwise.imp ?_ hp
  intro a b hab hpair
  apply hab
  exact congrArg Prod.fst hpair

/-- Witness of C8: two scan sessions with repeated reports, which end with two
scan results. -/
theorem C8_result_set_bounded_distinct_witness :
    notesReadable twoSessions = true ∧
      (∃ s1, scanRun sdk twoSessions (AppState.init sdk) = .ok s1) ∧
      scanRun sdk twoSessions (AppState.init sdk) = .ok twoSessionsEnd ∧
      twoSessionsEnd.scanRes = 2 ∧
      (twoSessionsEnd.scanRes ≤ sdk.RTLS_MASTER_DEFAULT_MAX_SCAN_RES ∧
        (resultSet twoSessionsEnd).Pairwise
          (fun a b => (a.addr, a.addrType) ≠ (b.addr, b.addrType))) :=
  ⟨by decide, (C8_result_set_bounded_distinct sdk twoSessions).1 (by decide), by decide,
    by decide, (C8_result_set_bounded_distinct sdk twoSessions).2 twoSessionsEnd (by decide)⟩

theorem resultSet_nonempty_of_mem (s : AppState) (a : BdAddr)
    (hin : addrInScanList s a = true) : 0 < s.scanRes ∧ 0 < s.scanList.length := by
  simp only [addrInScanList, List.any_eq_true, decide_eq_true_eq] at hin
  obtain ⟨r, hr, _⟩ := hin
  have hlen : 0 < (s.scanList.take s.scanRes).length := List.length_pos_of_mem hr
  rw [List.length_take] at hlen
  omega

/-- C9: a start-scan request empties the scan results whatever they held
before, so that no address is found among them; and when an address that was among the scan results before the
request is reported again, in a readable report that passes the filter, the
report is forwarded in exactly one scan result event and its address becomes
the first scan result of the new session. -/
theorem C9_start_scan_clears_results (K : Consts) (A : StackAnswers) (s : AppState)
    (state addr : Nat) (rpt : GapScan_Evt_AdvRpt_t) (data : Ref (List Nat)) :
    ((RTLSMaster_processRTLSScanReq K s).scanRes = 0 ∧
        resultSet (RTLSMaster_processRTLSScanReq K s) = [] ∧
        ∀ a, addrInScanList (RTLSMaster_processRTLSScanReq K s) a = false) ∧
      (s.scanRes ≤ K.RTLS_MASTER_DEFAULT_MAX_SCAN_RES →
        addrInScanList s rpt.addr = true →
        rpt.pData = some data → 11 ≤ data.val.length → matchesSlaveScanRsp data.val = true →
        ∃ s2, RTLSMaster_processAppMsg K A (advReportMsg state addr rpt)
              (RTLSMaster_processRTLSScanReq K s) = .ok s2 ∧
          s2.trace = (RTLSMaster_processRTLSScanReq K s).trace ++
            forwardEffects A rpt data.val data.addr addr ∧
          (scanResultEvents (forwardEffects A rpt data.val data.addr addr)).length = 1 ∧
          s2.scanRes = 1 ∧
          resultSet s2 = [{ addrType := rpt.addrType, addr := rpt.addr }]) := by
  have hempty : ∀ a, addrInScanList (RTLSMaster_processRTLSScanReq K s) a = false := by
    intro a
    simp [addrInScanList, RTLSMaster_processRTLSScanReq, AppState.emit]
  refine ⟨⟨rfl, by simp [resultSet, RTLSMaster_processRTLSScanReq, AppState.emit], hempty⟩, ?_⟩
  intro hcap hin hd hlen hm
  obtain ⟨hpos, hlist⟩ := resultSet_nonempty_of_mem s rpt.addr hin
  have hnew := hempty rpt.addr
  have hcap0 : (RTLSMaster_processRTLSScanReq K s).scanRes <
      K.RTLS_MASTER_DEFAULT_MAX_SCAN_RES := by
    show 0 < K.RTLS_MASTER_DEFAULT_MAX_SCAN_RES
    omega
  rw [processAppMsg_advReport K A state addr rpt data _ hd hlen]
  simp only [hm, hcap0, hnew, and_self, if_true]
  refine ⟨_, rfl, rfl, ?_, rfl, ?_⟩
  · unfold forwardEffects
    cases A.ICall_malloc <;> simp [scanResultEvents, isScanResultEvt]
  · have h := take_succ_set ({ addrType := rpt.addrType, addr := rpt.addr } : scanRec_t) 0
      s.scanList hlist
    simpa [resultSet, RTLSMaster_processRTLSScanReq, AppState.emit] using h

/-- Witness of C9: `rptPublic` is a scan result, a scan is started and
`rptPublic` is reported again. -/
theorem C9_start_scan_clears_results_witness :
    ((RTLSMaster_processRTLSScanReq sdk stateOneResult).scanRes = 0 ∧
        resultSet (RTLSMaster_processRTLSScanReq sdk stateOneResult) = [] ∧
        ∀ a, addrInScanList (RTLSMaster_processRTLSScanReq sdk stateOneResult) a = false) ∧
      (stateOneResult.scanRes ≤ sdk.RTLS_MASTER_DEFAULT_MAX_SCAN_RES ∧
        addrInScanList stateOneResult rptPublic.addr = true ∧
        rptPublic.pData = some ⟨0x6000, slaveAdvData⟩ ∧ 11 ≤ slaveAdvData.length ∧
        matchesSlaveScanRsp slaveAdvData = true) ∧
      ∃ s2, RTLSMaster_processAppMsg sdk okAnswers (advReportMsg 0 0x1000 rptPublic)
            (RTLSMaster_processRTLSScanReq sdk stateOneResult) = .ok s2 ∧
        s2.trace = (RTLSMaster_processRTLSScanReq sdk stateOneResult).trace ++
          forwardEffects okAnswers rptPublic slaveAdvData 0x6000 0x1000 ∧
        (scanResultEvents (forwardEffects okAnswers rptPublic slaveAdvData 0x6000
          0x1000)).length = 1 ∧
        s2.scanRes = 1 ∧
        resultSet s2 = [{ addrType := rptPublic.addrType, addr := rptPublic.addr }] :=
  ⟨(C9_start_scan_clears_results sdk okAnswers stateOneResult 0 0x1000 rptPublic
      ⟨0x6000, slaveAdvData⟩).1,
    ⟨by decide, by decide, by decide, by decide, by decide⟩,
    (C9_start_scan_clears_results sdk okAnswers stateOneResult 0 0x1000 rptPublic
      ⟨0x6000, slaveAdvData⟩).2 (by decide) (by decide) (by decide) (by decide) (by decide)⟩

/-- C10 (as stated, refuted): with `01:02:03:04:05:06` of address type 0 as
the only scan result, a report of the same address bytes with address type 1
passes the filter, is not equal to any scan result as an (address, address
type) pair, and arrives below capacity; it is dropped: no scan result event
is sent and the scan results stay as they were. -/
theorem C10_counterexample :
    (scanRun sdk [.advReport okAnswers 0 0x1000 rptPublic] (AppState.init sdk)).map
        (fun s => (s.scanRes, s.scanList)) =
        .ok (stateOneResult.scanRes, stateOneResult.scanList) ∧
      matchesSlaveScanRsp slaveAdvData = true ∧
      (rptRandom.addr, rptRandom.addrType) ∉
        (resultSet stateOneResult).map (fun r => (r.addr, r.addrType)) ∧
      stateOneResult.scanRes < sdk.RTLS_MASTER_DEFAULT_MAX_SCAN_RES ∧
      RTLSMaster_processAppMsg sdk okAnswers (advReportMsg 0 0x1000 rptRandom) stateOneResult =
        .ok { stateOneResult with trace := [.ICall_free 0x6000, .ICall_free 0x1000] } := by
  decide

/-- C10 (amended): a readable advertising report that passes the filter and
whose address is not equal to the address of any scan result (the address
type is not compared), with the scan results below capacity, is forwarded in
exactly one scan result event, and (address type, address) is appended as the
new last scan result with the earlier ones and their order unchanged. -/
theorem C10_new_address_forwarded (K : Consts) (A : StackAnswers) (s : AppState)
    (state addr : Nat) (rpt : GapScan_Evt_AdvRpt_t) (data : Ref (List Nat))
    (hd : rpt.pData = some data) (hlen : 11 ≤ data.val.length)
    (hm : matchesSlaveScanRsp data.val = true)
    (hnew : ∀ r ∈ resultSet s, r.addr ≠ rpt.addr)
    (hcap : s.scanRes < K.RTLS_MASTER_DEFAULT_MAX_SCAN_RES)
    (hsize : s.scanList.length = K.RTLS_MASTER_DEFAULT_MAX_SCAN_RES)
    (hmax : K.RTLS_MASTER_DEFAULT_MAX_SCAN_RES ≤ 255) :
    ∃ s2, RTLSMaster_processAppMsg K A (advReportMsg state addr rpt) s = .ok s2 ∧
      s2.trace = s.trace ++ forwardEffects A rpt data.val data.addr addr ∧
      (scanResultEvents (forwardEffects A rpt data.val data.addr addr)).length = 1 ∧
      s2.scanRes = s.scanRes + 1 ∧
      resultSet s2 = resultSet s ++ [{ addrType := rpt.addrType, addr := rpt.addr }] := by
  have hnot : addrInScanList s rpt.addr = false := by
    rw [addrInScanList_false_iff]
    intro hmem
    obtain ⟨r, hr, heq⟩ := List.mem_map.mp hmem
    exact hnew r hr heq
  rw [processAppMsg_advReport K A state addr rpt data s hd hlen]
  simp only [hm, hcap, hnot, and_self, if_true]
  have hmod : (s.scanRes + 1) % 256 = s.scanRes + 1 := Nat.mod_eq_of_lt (by omega)
  refine ⟨_, rfl, rfl, ?_, hmod, ?_⟩
  · unfold forwardEffects
    cases A.ICall_malloc <;> simp [scanResultEvents, isScanResultEvt]
  · simp only [resultSet, hmod]
    exact take_succ_set _ s.scanRes s.scanList (by omega)

/-- Witness of C10 (amended): `rptOther` is reported while `rptPublic` is the
only scan result. -/
theorem C10_new_address_forwarded_witness :
    (rptOther.pData = some ⟨0x6000, slaveAdvData⟩ ∧ 11 ≤ slaveAdvData.length ∧
        matchesSlaveScanRsp slaveAdvData = true ∧
        (∀ r ∈ resultSet stateOneResult, r.addr ≠ rptOther.addr) ∧
        stateOneResult.scanRes < sdk.RTLS_MASTER_DEFAULT_MAX_SCAN_RES ∧
        stateOneResult.scanList.length = sdk.RTLS_MASTER_DEFAULT_MAX_SCAN_RES ∧
        sdk.RTLS_MASTER_DEFAULT_MAX_SCAN_RES ≤ 255) ∧
      ∃ s2, RTLSMaster_processAppMsg sdk okAnswers (advReportMsg 0 0x1000 rptOther)
            stateOneResult = .ok s2 ∧
        s2.trace = stateOneResult.trace ++
          forwardEffects okAnswers rptOther slaveAdvData 0x6000 0x1000 ∧
        (scanResultEvents (forwardEffects okAnswers rptOther slaveAdvData 0x6000
          0x1000)).length = 1 ∧
        s2.scanRes = stateOneResult.scanRes + 1 ∧
        resultSet s2 = resultSet stateOneResult ++
          [{ addrType := rptOther.addrType, addr := rptOther.addr }] :=
  ⟨⟨by decide, by decide, by decide, by decide, by decide, by decide, by decide⟩,
    C10_new_address_forwarded sdk okAnswers stateOneResult 0 0x1000 rptOther
      ⟨0x6000, slaveAdvData⟩ (by decide) (by decide) (by decide) (by decide) (by decide)
      (by decide) (by decide)⟩

/-! ### Link establishment, termination and the data channel -/

theorem ctrlEvents_append (t u : List Effect) :
    ctrlEvents (t ++ u) = ctrlEvents t ++ ctrlEvents u := by
  simp [ctrlEvents]

theorem processRTLSConnInfo_eq (A : StackAnswers) (h : Nat) (s : AppState) :
    RTLSMaster_processRTLSConnInfo A h s = s.emit (.RTLSCtrl_connInfoEvt (connInfoOf A h)) :=
  rfl

theorem processGapMsg_linkEstablished_ok (K : Consts) (A : StackAnswers) (s : AppState)
    (h : Nat) (hv : h ≠ K.LINKDB_CONNHANDLE_INVALID) (hlt : h < K.MAX_NUM_BLE_CONNS) :
    RTLSMaster_processGapMsg K A (.GAP_LINK_ESTABLISHED_EVENT K.SUCCESS h) s =
      { s with
        rmConnCB := setIsActive s.rmConnCB h true
        trace := s.trace ++ [.HCI_LE_ReadRemoteUsedFeaturesCmd h,
                             .RTLSCtrl_connInfoEvt (connInfoOf A h)] } := by
  simp [RTLSMaster_processGapMsg, hv, hlt, processRTLSConnInfo_eq, AppState.emit]

theorem processGapMsg_linkTerminated_ok (K : Consts) (A : StackAnswers) (s : AppState)
    (h : Nat) (hv : h ≠ K.LINKDB_CONNHANDLE_INVALID) (hlt : h < K.MAX_NUM_BLE_CONNS) :
    RTLSMaster_processGapMsg K A (.GAP_LINK_TERMINATED_EVENT h) s =
      { s with
        rmConnCB := setIsActive s.rmConnCB h false
        trace := s.trace ++ [.RTLSCtrl_connResultEvt h .RTLS_LINK_TERMINATED] } := by
  simp [RTLSMaster_processGapMsg, hv, hlt, AppState.emit]

theorem processL2CAPSignalEvent_established_ok (K : Consts) (s : AppState) (status h c : Nat)
    (hv : h ≠ K.LINKDB_CONNHANDLE_INVALID) (hlt : h < K.MAX_NUM_BLE_CONNS) :
    RTLSMaster_processL2CAPSignalEvent K
        (some { status := status, connHandle := h, cmd := .L2CAP_CHANNEL_ESTABLISHED_EVT c }) s =
      { s with
        rmConnCB := setCocCID s.rmConnCB h c
        trace := s.trace ++ [.L2CAP_FlowCtrlCredit c 0xFFFF,
                             .RTLSCtrl_connResultEvt h .RTLS_SUCCESS] } := by
  simp [RTLSMaster_processL2CAPSignalEvent, hv, hlt, AppState.emit]

/-- C14: a link-established notification with status `SUCCESS` and a valid
handle `h` sets the active flag of slot `h`, leaves every other slot
unchanged, and sends exactly one event to RTLS Control: the connection
information with the handle `h` and the peer address and link parameters that
the stack reports for `h`; no connection result event is sent. -/
theorem C14_link_established_activates (K : Consts) (A : StackAnswers) (s : AppState)
    (h : Nat) (e : rmConnCB_t)
    (hv : h ≠ K.LINKDB_CONNHANDLE_INVALID) (hlt : h < K.MAX_NUM_BLE_CONNS)
    (he : s.rmConnCB[h]? = some e) :
    (RTLSMaster_processGapMsg K A (.GAP_LINK_ESTABLISHED_EVENT K.SUCCESS h) s).rmConnCB[h]? =
        some { cocCID := e.cocCID, isActive := true } ∧
      (∀ j, j ≠ h →
        (RTLSMaster_processGapMsg K A (.GAP_LINK_ESTABLISHED_EVENT K.SUCCESS h) s).rmConnCB[j]? =
          s.rmConnCB[j]?) ∧
      ctrlEvents (RTLSMaster_processGapMsg K A (.GAP_LINK_ESTABLISHED_EVENT K.SUCCESS h) s).trace =
        ctrlEvents s.trace ++ [.RTLSCtrl_connInfoEvt (connInfoOf A h)] ∧
      (connInfoOf A h).connHandle = h ∧
      (connInfoOf A h).addr = (A.linkDB_GetInfo h).2.addr ∧
      (connInfoOf A h).connInterval = (A.HCI_EXT_GetActiveConnInfoCmd h).connInterval ∧
      (connInfoOf A h).accessAddr = (A.HCI_EXT_GetActiveConnInfoCmd h).accessAddr ∧
      (connInfoOf A h).hopValue = (A.HCI_EXT_GetActiveConnInfoCmd h).hopValue ∧
      (connInfoOf A h).chanMap = (A.HCI_EXT_GetActiveConnInfoCmd h).chanMap ∧
      (RTLSMaster_processGapMsg K A (.GAP_LINK_ESTABLISHED_EVENT K.SUCCESS h) s).trace.filter
        isConnResultEvt = s.trace.filter isConnResultEvt := by
  rw [processGapMsg_linkEstablished_ok K A s h hv hlt]
  refine ⟨?_, ?_, ?_, rfl, rfl, rfl, rfl, rfl, rfl, ?_⟩
  · simp only [setIsActive_getElem?_self, he]
    rfl
  · intro j hj
    simp only [setIsActive_getElem?_ne _ _ _ _ (Ne.symm hj)]
  · simp [ctrlEvents, isCtrlEvt]
  · simp [isConnResultEvt]

/-- Witness of C14: handle 0 in the initial state. -/
theorem C14_link_established_activates_witness :
    (0 ≠ sdk.LINKDB_CONNHANDLE_INVALID ∧ 0 < sdk.MAX_NUM_BLE_CONNS ∧
        (AppState.init sdk).rmConnCB[0]? = some { cocCID := 0, isActive := false }) ∧
      (RTLSMaster_processGapMsg sdk okAnswers (.GAP_LINK_ESTABLISHED_EVENT sdk.SUCCESS 0)
          (AppState.init sdk)).rmConnCB[0]? = some { cocCID := 0, isActive := true } ∧
      ctrlEvents (RTLSMaster_processGapMsg sdk okAnswers
          (.GAP_LINK_ESTABLISHED_EVENT sdk.SUCCESS 0) (AppState.init sdk)).trace =
        ctrlEvents (AppState.init sdk).trace ++ [.RTLSCtrl_connInfoEvt (connInfoOf okAnswers 0)] :=
  ⟨⟨by decide, by decide, by decide⟩,
    (C14_link_established_activates sdk okAnswers (AppState.init sdk) 0
      { cocCID := 0, isActive := false } (by decide) (by decide) (by decide)).1,
    (C14_link_established_activates sdk okAnswers (AppState.init sdk) 0
      { cocCID := 0, isActive := false } (by decide) (by decide) (by decide)).2.2.1⟩

/-- C15: a link-established notification whose status is not `SUCCESS`, or
whose handle is the invalid sentinel or is not below `MAX_NUM_BLE_CONNS`,
changes nothing in the state but the trace, to which it appends exactly one
effect: the connection result event for `LINKDB_CONNHANDLE_INVALID` with
`RTLS_LINK_ESTAB_FAIL`. -/
theorem C15_link_establish_failure (K : Consts) (A : StackAnswers) (s : AppState)
    (status h : Nat)
    (hfail : status ≠ K.SUCCESS ∨ h = K.LINKDB_CONNHANDLE_INVALID ∨ K.MAX_NUM_BLE_CONNS ≤ h) :
    RTLSMaster_processGapMsg K A (.GAP_LINK_ESTABLISHED_EVENT status h) s =
        { s with trace := s.trace ++
            [.RTLSCtrl_connResultEvt K.LINKDB_CONNHANDLE_INVALID .RTLS_LINK_ESTAB_FAIL] } ∧
      (RTLSMaster_processGapMsg K A (.GAP_LINK_ESTABLISHED_EVENT status h) s).rmConnCB =
        s.rmConnCB ∧
      (RTLSMaster_processGapMsg K A (.GAP_LINK_ESTABLISHED_EVENT status h) s).trace.filter
        isConnInfoEvt = s.trace.filter isConnInfoEvt ∧
      ctrlEvents (RTLSMaster_processGapMsg K A (.GAP_LINK_ESTABLISHED_EVENT status h) s).trace =
        ctrlEvents s.trace ++
          [.RTLSCtrl_connResultEvt K.LINKDB_CONNHANDLE_INVALID .RTLS_LINK_ESTAB_FAIL] := by
  have hcond : ¬ (h ≠ K.LINKDB_CONNHANDLE_INVALID ∧ h < K.MAX_NUM_BLE_CONNS ∧
      status = K.SUCCESS) := by
    rintro ⟨h1, h2, h3⟩
    rcases hfail with hf | hf | hf
    · exact hf h3
    · exact h1 hf
    · omega
  have heq : RTLSMaster_processGapMsg K A (.GAP_LINK_ESTABLISHED_EVENT status h) s =
      { s with trace := s.trace ++
          [.RTLSCtrl_connResultEvt K.LINKDB_CONNHANDLE_INVALID .RTLS_LINK_ESTAB_FAIL] } := by
    simp only [RTLSMaster_processGapMsg, hcond, if_false, AppState.emit]
  rw [heq]
  refine ⟨rfl, rfl, ?_, ?_⟩
  · simp [isConnInfoEvt]
  · simp [ctrlEvents, isCtrlEvt]

/-- Witness of C15: a failed establishment reported with the invalid handle. -/
theorem C15_link_establish_failure_witness :
    ((1 : Nat) ≠ sdk.SUCCESS ∨ 0xFFFF = sdk.LINKDB_CONNHANDLE_INVALID ∨
        sdk.MAX_NUM_BLE_CONNS ≤ 0xFFFF) ∧
      RTLSMaster_processGapMsg sdk okAnswers (.GAP_LINK_ESTABLISHED_EVENT 1 0xFFFF)
          (AppState.init sdk) =
        { AppState.init sdk with trace := (AppState.init sdk).trace ++
            [.RTLSCtrl_connResultEvt sdk.LINKDB_CONNHANDLE_INVALID .RTLS_LINK_ESTAB_FAIL] } :=
  ⟨by decide,
    (C15_link_establish_failure sdk okAnswers (AppState.init sdk) 1 0xFFFF (by decide)).1⟩

/-- C16 (as stated, refuted): in the initial state slot 0 is inactive; a
link-terminated notification for handle 0 nevertheless sends the connection
result event for handle 0 with `RTLS_LINK_TERMINATED`. -/
theorem C16_counterexample :
    (AppState.init sdk).rmConnCB[0]? = some { cocCID := 0, isActive := false } ∧
      RTLSMaster_processGapMsg sdk okAnswers (.GAP_LINK_TERMINATED_EVENT 0) (AppState.init sdk) =
        { AppState.init sdk with
          trace := [.RTLSCtrl_connResultEvt 0 .RTLS_LINK_TERMINATED] } ∧
      RTLSMaster_processGapMsg sdk okAnswers (.GAP_LINK_TERMINATED_EVENT 0) (AppState.init sdk) ≠
        AppState.init sdk := by
  decide

/-- C16 (amended): a link-terminated notification with a valid handle `h`
leaves slot `h` inactive and sends exactly one event to RTLS Control, the
connection result for `h` with `RTLS_LINK_TERMINATED`, whatever the slot held
before, also when it was inactive already; a notification with the invalid
handle or a handle not below `MAX_NUM_BLE_CONNS` changes nothing and sends
nothing. -/
theorem C16_link_terminated_reports (K : Consts) (A : StackAnswers) (s : AppState) (h : Nat) :
    (h ≠ K.LINKDB_CONNHANDLE_INVALID → h < K.MAX_NUM_BLE_CONNS →
      ∀ e, s.rmConnCB[h]? = some e →
        (RTLSMaster_processGapMsg K A (.GAP_LINK_TERMINATED_EVENT h) s).rmConnCB[h]? =
            some { cocCID := e.cocCID, isActive := false } ∧
          (RTLSMaster_processGapMsg K A (.GAP_LINK_TERMINATED_EVENT h) s).trace =
            s.trace ++ [.RTLSCtrl_connResultEvt h .RTLS_LINK_TERMINATED]) ∧
      (h = K.LINKDB_CONNHANDLE_INVALID ∨ K.MAX_NUM_BLE_CONNS ≤ h →
        RTLSMaster_processGapMsg K A (.GAP_LINK_TERMINATED_EVENT h) s = s) := by
  constructor
  · intro hv hlt e he
    rw [processGapMsg_linkTerminated_ok K A s h hv hlt]
    refine ⟨?_, rfl⟩
    simp only [setIsActive_getElem?_self, he]
    rfl
  · intro hbad
    have hcond : ¬ (h ≠ K.LINKDB_CONNHANDLE_INVALID ∧ h < K.MAX_NUM_BLE_CONNS) := by
      rintro ⟨h1, h2⟩
      rcases hbad with hb | hb
      · exact h1 hb
      · omega
    simp only [RTLSMaster_processGapMsg, hcond, if_false]

/-- Witness of C16 (amended): handle 0 with its channel open, and the invalid
handle. -/
theorem C16_link_terminated_reports_witness :
    (0 ≠ sdk.LINKDB_CONNHANDLE_INVALID ∧ 0 < sdk.MAX_NUM_BLE_CONNS ∧
        stateChannelOpen.rmConnCB[0]? = some { cocCID := 7, isActive := true } ∧
        (0xFFFF = sdk.LINKDB_CONNHANDLE_INVALID ∨ sdk.MAX_NUM_BLE_CONNS ≤ 0xFFFF)) ∧
      ((RTLSMaster_processGapMsg sdk okAnswers (.GAP_LINK_TERMINATED_EVENT 0)
            stateChannelOpen).rmConnCB[0]? = some { cocCID := 7, isActive := false } ∧
        (RTLSMaster_processGapMsg sdk okAnswers (.GAP_LINK_TERMINATED_EVENT 0)
            stateChannelOpen).trace =
          stateChannelOpen.trace ++ [.RTLSCtrl_connResultEvt 0 .RTLS_LINK_TERMINATED]) ∧
      RTLSMaster_processGapMsg sdk okAnswers (.GAP_LINK_TERMINATED_EVENT 0xFFFF)
        stateChannelOpen = stateChannelOpen :=
  ⟨⟨by decide, by decide, by decide, by decide⟩,
    (C16_link_terminated_reports sdk okAnswers stateChannelOpen 0).1 (by decide) (by decide)
      { cocCID := 7, isActive := true } (by decide),
    (C16_link_terminated_reports sdk okAnswers stateChannelOpen 0xFFFF).2 (by decide)⟩

/-- C19: a channel-established notification with a valid handle `h` and the
channel identifier `c` stores `c` in slot `h`, leaving its active flag and
every other slot unchanged, and appends to the trace exactly the grant of
`0xFFFF` credits for `c` and the connection result event for `h` with
`RTLS_SUCCESS`; with the invalid handle or a handle not below
`MAX_NUM_BLE_CONNS` the table is unchanged and the trace gets a debug event
and a link termination request. -/
theorem C19_channel_established (K : Consts) (s : AppState) (status h c : Nat) :
    (h ≠ K.LINKDB_CONNHANDLE_INVALID → h < K.MAX_NUM_BLE_CONNS →
      ∀ e, s.rmConnCB[h]? = some e →
        (RTLSMaster_processL2CAPSignalEvent K 
          (some { status := status, connHandle := h, cmd := .L2CAP_CHANNEL_ESTABLISHED_EVT c }) s).rmConnCB[h]? =
            some { cocCID := c, isActive := e.isActive } ∧
          (∀ j, j ≠ h →
            (RTLSMaster_processL2CAPSignalEvent K 
          (some { status := status, connHandle := h, cmd := .L2CAP_CHANNEL_ESTABLISHED_EVT c }) s).rmConnCB[j]? = s.rmConnCB[j]?) ∧
          (RTLSMaster_processL2CAPSignalEvent K 
          (some { status := status, connHandle := h, cmd := .L2CAP_CHANNEL_ESTABLISHED_EVT c }) s).trace =
            s.trace ++ [.L2CAP_FlowCtrlCredit c 0xFFFF,
                        .RTLSCtrl_connResultEvt h .RTLS_SUCCESS]) ∧
      (h = K.LINKDB_CONNHANDLE_INVALID ∨ K.MAX_NUM_BLE_CONNS ≤ h →
        RTLSMaster_processL2CAPSignalEvent K 
          (some { status := status, connHandle := h, cmd := .L2CAP_CHANNEL_ESTABLISHED_EVT c }) s =
          { s with trace := s.trace ++
              [.RTLSCtrl_sendDebugEvt "L2CAP COC: could not establish" h,
               .GAP_TerminateLinkReq h K.HCI_DISCONNECT_REMOTE_USER_TERM] }) := by
  constructor
  · intro hv hlt e he
    rw [processL2CAPSignalEvent_established_ok K s status h c hv hlt]
    refine ⟨?_, ?_, rfl⟩
    · simp only [setCocCID_getElem?_self, he]
      rfl
    · intro j hj
      simp only [setCocCID_getElem?_ne _ _ _ _ (Ne.symm hj)]
  · intro hbad
    have hcond : ¬ (h ≠ K.LINKDB_CONNHANDLE_INVALID ∧ h < K.MAX_NUM_BLE_CONNS) := by
      rintro ⟨h1, h2⟩
      rcases hbad with hb | hb
      · exact h1 hb
      · omega
    simp [RTLSMaster_processL2CAPSignalEvent, hcond, AppState.emit]

/-- Witness of C19: the channel of the active handle 0 gets the identifier 9,
and a notification with the invalid handle. -/
theorem C19_channel_established_witness :
    (0 ≠ sdk.LINKDB_CONNHANDLE_INVALID ∧ 0 < sdk.MAX_NUM_BLE_CONNS ∧
        stateChannelOpen.rmConnCB[0]? = some { cocCID := 7, isActive := true } ∧
        (0xFFFF = sdk.LINKDB_CONNHANDLE_INVALID ∨ sdk.MAX_NUM_BLE_CONNS ≤ 0xFFFF)) ∧
      ((RTLSMaster_processL2CAPSignalEvent sdk 
          (some { status := 0, connHandle := 0, cmd := .L2CAP_CHANNEL_ESTABLISHED_EVT 9 }) stateChannelOpen).rmConnCB[0]? =
            some { cocCID := 9, isActive := true } ∧
        (∀ j, j ≠ 0 →
          (RTLSMaster_processL2CAPSignalEvent sdk 
          (some { status := 0, connHandle := 0, cmd := .L2CAP_CHANNEL_ESTABLISHED_EVT 9 }) stateChannelOpen).rmConnCB[j]? =
            stateChannelOpen.rmConnCB[j]?) ∧
        (RTLSMaster_processL2CAPSignalEvent sdk 
          (some { status := 0, connHandle := 0, cmd := .L2CAP_CHANNEL_ESTABLISHED_EVT 9 }) stateChannelOpen).trace =
          stateChannelOpen.trace ++ [.L2CAP_FlowCtrlCredit 9 0xFFFF,
                                     .RTLSCtrl_connResultEvt 0 .RTLS_SUCCESS]) ∧
      RTLSMaster_processL2CAPSignalEvent sdk 
          (some { status := 0, connHandle := 0xFFFF, cmd := .L2CAP_CHANNEL_ESTABLISHED_EVT 9 }) stateChannelOpen =
        { stateChannelOpen with trace := stateChannelOpen.trace ++
            [.RTLSCtrl_sendDebugEvt "L2CAP COC: could not establish" 0xFFFF,
             .GAP_TerminateLinkReq 0xFFFF sdk.HCI_DISCONNECT_REMOTE_USER_TERM] } :=
  ⟨⟨by decide, by decide, by decide, by decide⟩,
    (C19_channel_established sdk stateChannelOpen 0 0 9).1 (by decide) (by decide)
      { cocCID := 7, isActive := true } (by decide),
    (C19_channel_established sdk stateChannelOpen 0 0xFFFF 9).2 (by decide)⟩

/-- The PSM is not registered and its registration succeeds. -/
theorem openL2CAPChanCoc_register_ok (K : Consts) (A : StackAnswers) (h : Nat) (s : AppState)
    (h1 : A.L2CAP_PsmInfo = K.INVALIDPARAMETER) (h2 : A.L2CAP_RegisterPsm = K.SUCCESS) :
    RTLSMaster_openL2CAPChanCoc K A h s =
      (A.L2CAP_ConnectReq,
        { s with trace := s.trace ++
            [.L2CAP_RegisterPsm
               { initPeerCredits := 0xFFFF, maxNumChannels := K.MAX_NUM_BLE_CONNS,
                 mtu := K.MAX_PDU_SIZE, peerCreditThreshold := 0, psm := RTLS_PSM }
               A.L2CAP_RegisterPsm,
             .L2CAP_ConnectReq h RTLS_PSM RTLS_PSM A.L2CAP_ConnectReq] }) := by
  simp [RTLSMaster_openL2CAPChanCoc, h1, h2, AppState.emit]

/-- The PSM is not registered and its registration fails. -/
theorem openL2CAPChanCoc_register_fail (K : Consts) (A : StackAnswers) (h : Nat) (s : AppState)
    (h1 : A.L2CAP_PsmInfo = K.INVALIDPARAMETER) (h2 : A.L2CAP_RegisterPsm ≠ K.SUCCESS) :
    RTLSMaster_openL2CAPChanCoc K A h s =
      (A.L2CAP_RegisterPsm,
        { s with trace := s.trace ++
            [.L2CAP_RegisterPsm
               { initPeerCredits := 0xFFFF, maxNumChannels := K.MAX_NUM_BLE_CONNS,
                 mtu := K.MAX_PDU_SIZE, peerCreditThreshold := 0, psm := RTLS_PSM }
               A.L2CAP_RegisterPsm] }) := by
  simp [RTLSMaster_openL2CAPChanCoc, h1, h2, AppState.emit]

/-- The PSM is registered already. -/
theorem openL2CAPChanCoc_registered (K : Consts) (A : StackAnswers) (h : Nat) (s : AppState)
    (h1 : A.L2CAP_PsmInfo ≠ K.INVALIDPARAMETER) :
    RTLSMaster_openL2CAPChanCoc K A h s =
      (A.L2CAP_ConnectReq,
        { s with trace := s.trace ++
            [.L2CAP_ConnectReq h RTLS_PSM RTLS_PSM A.L2CAP_ConnectReq] }) := by
  simp [RTLSMaster_openL2CAPChanCoc, h1, AppState.emit]

/-- Opening the channel appends to the trace PSM registrations and connect
requests only, and at least one of them. -/
theorem openL2CAPChanCoc_effects (K : Consts) (A : StackAnswers) (h : Nat) (s : AppState) :
    ∃ es, (∀ e ∈ es, isRegisterPsm e = true ∨ isConnectReq e = true) ∧ es ≠ [] ∧
      (RTLSMaster_openL2CAPChanCoc K A h s).2 = { s with trace := s.trace ++ es } := by
  by_cases h1 : A.L2CAP_PsmInfo = K.INVALIDPARAMETER
  · by_cases h2 : A.L2CAP_RegisterPsm = K.SUCCESS
    · rw [openL2CAPChanCoc_register_ok K A h s h1 h2]
      exact ⟨_, by simp [isRegisterPsm, isConnectReq], by simp, rfl⟩
    · rw [openL2CAPChanCoc_register_fail K A h s h1 h2]
      exact ⟨_, by simp [isRegisterPsm], by simp, rfl⟩
  · rw [openL2CAPChanCoc_registered K A h s h1]
    exact ⟨_, by simp [isConnectReq], by simp, rfl⟩

/-- C18: `RTLSMaster_openL2CAPChanCoc` with the answers of the stack as
inputs.  When the PSM lookup returns `INVALIDPARAMETER`, exactly one PSM
registration is issued; a connect request follows, and its status is
returned, when the registration returned `SUCCESS`, and otherwise the status
of the registration is returned and no connect request is issued.  When the
PSM is registered already, exactly one connect request and no registration
is issued, and the status of the connect request is returned. -/
theorem C18_open_channel (K : Consts) (A : StackAnswers) (h : Nat) (s : AppState) :
    (A.L2CAP_PsmInfo = K.INVALIDPARAMETER → A.L2CAP_RegisterPsm = K.SUCCESS →
      RTLSMaster_openL2CAPChanCoc K A h s =
        (A.L2CAP_ConnectReq,
          { s with trace := s.trace ++
              [.L2CAP_RegisterPsm
                 { initPeerCredits := 0xFFFF, maxNumChannels := K.MAX_NUM_BLE_CONNS,
                   mtu := K.MAX_PDU_SIZE, peerCreditThreshold := 0, psm := RTLS_PSM }
                 A.L2CAP_RegisterPsm,
               .L2CAP_ConnectReq h RTLS_PSM RTLS_PSM A.L2CAP_ConnectReq] })) ∧
      (A.L2CAP_PsmInfo = K.INVALIDPARAMETER → A.L2CAP_RegisterPsm ≠ K.SUCCESS →
        RTLSMaster_openL2CAPChanCoc K A h s =
          (A.L2CAP_RegisterPsm,
            { s with trace := s.trace ++
                [.L2CAP_RegisterPsm
                   { initPeerCredits := 0xFFFF, maxNumChannels := K.MAX_NUM_BLE_CONNS,
                     mtu := K.MAX_PDU_SIZE, peerCreditThreshold := 0, psm := RTLS_PSM }
                   A.L2CAP_RegisterPsm] })) ∧
      (A.L2CAP_PsmInfo ≠ K.INVALIDPARAMETER →
        RTLSMaster_openL2CAPChanCoc K A h s =
          (A.L2CAP_ConnectReq,
            { s with trace := s.trace ++
                [.L2CAP_ConnectReq h RTLS_PSM RTLS_PSM A.L2CAP_ConnectReq] })) :=
  ⟨openL2CAPChanCoc_register_ok K A h s, openL2CAPChanCoc_register_fail K A h s,
    openL2CAPChanCoc_registered K A h s⟩

/-- Witness of C18: the three cases on handle 0 in the initial state. -/
theorem C18_open_channel_witness :
    (notRegistered.L2CAP_PsmInfo = sdk.INVALIDPARAMETER ∧
        notRegistered.L2CAP_RegisterPsm = sdk.SUCCESS ∧
        registerFails.L2CAP_PsmInfo = sdk.INVALIDPARAMETER ∧
        registerFails.L2CAP_RegisterPsm ≠ sdk.SUCCESS ∧
        okAnswers.L2CAP_PsmInfo ≠ sdk.INVALIDPARAMETER) ∧
      RTLSMaster_openL2CAPChanCoc sdk notRegistered 0 (AppState.init sdk) =
        (notRegistered.L2CAP_ConnectReq,
          { AppState.init sdk with trace := (AppState.init sdk).trace ++
              [.L2CAP_RegisterPsm
                 { initPeerCredits := 0xFFFF, maxNumChannels := sdk.MAX_NUM_BLE_CONNS,
                   mtu := sdk.MAX_PDU_SIZE, peerCreditThreshold := 0, psm := RTLS_PSM }
                 notRegistered.L2CAP_RegisterPsm,
               .L2CAP_ConnectReq 0 RTLS_PSM RTLS_PSM notRegistered.L2CAP_ConnectReq] }) ∧
      RTLSMaster_openL2CAPChanCoc sdk registerFails 0 (AppState.init sdk) =
        (registerFails.L2CAP_RegisterPsm,
          { AppState.init sdk with trace := (AppState.init sdk).trace ++
              [.L2CAP_RegisterPsm
                 { initPeerCredits := 0xFFFF, maxNumChannels := sdk.MAX_NUM_BLE_CONNS,
                   mtu := sdk.MAX_PDU_SIZE, peerCreditThreshold := 0, psm := RTLS_PSM }
                 registerFails.L2CAP_RegisterPsm] }) ∧
      RTLSMaster_openL2CAPChanCoc sdk okAnswers 0 (AppState.init sdk) =
        (okAnswers.L2CAP_ConnectReq,
          { AppState.init sdk with trace := (AppState.init sdk).trace ++
              [.L2CAP_ConnectReq 0 RTLS_PSM RTLS_PSM okAnswers.L2CAP_ConnectReq] }) :=
  ⟨⟨by decide, by decide, by decide, by decide, by decide⟩,
    (C18_open_channel sdk notRegistered 0 (AppState.init sdk)).1 (by decide) (by decide),
    (C18_open_channel sdk registerFails 0 (AppState.init sdk)).2.1 (by decide) (by decide),
    (C18_open_channel sdk okAnswers 0 (AppState.init sdk)).2.2 (by decide)⟩

/-! ### Pairing -/

theorem emit_trace (s : AppState) (e : Effect) : (s.emit e).trace = s.trace ++ [e] := rfl

/-- Pairing complete or encrypted with status `SUCCESS`, in a build without
`RTLS_DEBUG`: the channel is opened, and a link termination request follows
when the opening does not return `SUCCESS`. -/
theorem processPairState_success (K : Consts) (A : StackAnswers) (state : Nat)
    (d : rmPairStateData_t) (s : AppState) (hdbg : K.RTLS_DEBUG = false)
    (hce : state = K.GAPBOND_PAIRING_STATE_COMPLETE ∨ state = K.GAPBOND_PAIRING_STATE_ENCRYPTED)
    (hst : d.status = K.SUCCESS) :
    ∃ es, (∀ e ∈ es, isRegisterPsm e = true ∨ isConnectReq e = true) ∧ es ≠ [] ∧
      (RTLSMaster_openL2CAPChanCoc K A d.connHandle s).2 = { s with trace := s.trace ++ es } ∧
      RTLSMaster_processPairState K A state (some d) s =
        .ok { s with trace := s.trace ++ es ++
          (if (RTLSMaster_openL2CAPChanCoc K A d.connHandle s).1 ≠ K.SUCCESS then
            [.GAP_TerminateLinkReq d.connHandle K.HCI_DISCONNECT_REMOTE_USER_TERM]
          else []) } := by
  obtain ⟨es, hes, hne, heq⟩ := openL2CAPChanCoc_effects K A d.connHandle s
  refine ⟨es, hes, hne, heq, ?_⟩
  simp only [RTLSMaster_processPairState, hdbg, hce, hst, if_true, Bool.false_eq_true,
    if_false]
  by_cases hr : (RTLSMaster_openL2CAPChanCoc K A d.connHandle s).1 = K.SUCCESS
  · simp [hr, heq]
  · simp [hr, heq, AppState.emit]

/-- Pairing complete or encrypted with a status other than `SUCCESS`, in a
build without `RTLS_DEBUG`: one link termination request. -/
theorem processPairState_failure (K : Consts) (A : StackAnswers) (state : Nat)
    (d : rmPairStateData_t) (s : AppState) (hdbg : K.RTLS_DEBUG = false)
    (hce : state = K.GAPBOND_PAIRING_STATE_COMPLETE ∨ state = K.GAPBOND_PAIRING_STATE_ENCRYPTED)
    (hst : d.status ≠ K.SUCCESS) :
    RTLSMaster_processPairState K A state (some d) s =
      .ok { s with trace := s.trace ++
        [.GAP_TerminateLinkReq d.connHandle K.HCI_DISCONNECT_REMOTE_USER_TERM] } := by
  simp [RTLSMaster_processPairState, hdbg, hce, hst, AppState.emit]

/-- Any other pairing state, in a build without `RTLS_DEBUG`: nothing is done. -/
theorem processPairState_other (K : Consts) (A : StackAnswers) (state : Nat)
    (d : rmPairStateData_t) (s : AppState) (hdbg : K.RTLS_DEBUG = false)
    (hce : ¬ (state = K.GAPBOND_PAIRING_STATE_COMPLETE ∨
      state = K.GAPBOND_PAIRING_STATE_ENCRYPTED)) :
    RTLSMaster_processPairState K A state (some d) s = .ok s := by
  simp [RTLSMaster_processPairState, hdbg, hce]

theorem not_ctrlEvt_of_l2cap_request (e : Effect)
    (h : isRegisterPsm e = true ∨ isConnectReq e = true) : isCtrlEvt e = false := by
  cases e <;> simp_all [isRegisterPsm, isConnectReq, isCtrlEvt]

theorem ctrlEvents_l2cap_requests (es : List Effect)
    (h : ∀ e ∈ es, isRegisterPsm e = true ∨ isConnectReq e = true) : ctrlEvents es = [] := by
  simp only [ctrlEvents, List.filter_eq_nil_iff]
  intro e he
  simp [not_ctrlEvt_of_l2cap_request e (h e he)]

/-- C17: a pairing notification in a build without `RTLS_DEBUG`.  In the
state complete or encrypted with status `SUCCESS` the channel is opened (PSM
registrations and connect requests only, at least one) and a link termination
request is issued exactly when the opening does not return `SUCCESS`; with
another status exactly one link termination request is issued and the channel
is not opened; in every other state nothing is done.  No event is sent to
RTLS Control in any case. -/
theorem C17_pairing_outcome (K : Consts) (A : StackAnswers) (state : Nat)
    (d : rmPairStateData_t) (s : AppState) (hdbg : K.RTLS_DEBUG = false) :
    ((state = K.GAPBOND_PAIRING_STATE_COMPLETE ∨ state = K.GAPBOND_PAIRING_STATE_ENCRYPTED) →
        d.status = K.SUCCESS →
        ∃ es, (∀ e ∈ es, isRegisterPsm e = true ∨ isConnectReq e = true) ∧ es ≠ [] ∧
          (RTLSMaster_openL2CAPChanCoc K A d.connHandle s).2 =
            { s with trace := s.trace ++ es } ∧
          RTLSMaster_processPairState K A state (some d) s =
            .ok { s with trace := s.trace ++ es ++
              (if (RTLSMaster_openL2CAPChanCoc K A d.connHandle s).1 ≠ K.SUCCESS then
                [.GAP_TerminateLinkReq d.connHandle K.HCI_DISCONNECT_REMOTE_USER_TERM]
              else []) }) ∧
      ((state = K.GAPBOND_PAIRING_STATE_COMPLETE ∨ state = K.GAPBOND_PAIRING_STATE_ENCRYPTED) →
        d.status ≠ K.SUCCESS →
        RTLSMaster_processPairState K A state (some d) s =
          .ok { s with trace := s.trace ++
            [.GAP_TerminateLinkReq d.connHandle K.HCI_DISCONNECT_REMOTE_USER_TERM] }) ∧
      (¬ (state = K.GAPBOND_PAIRING_STATE_COMPLETE ∨
          state = K.GAPBOND_PAIRING_STATE_ENCRYPTED) →
        RTLSMaster_processPairState K A state (some d) s = .ok s) ∧
      ∃ s1, RTLSMaster_processPairState K A state (some d) s = .ok s1 ∧
        ctrlEvents s1.trace = ctrlEvents s.trace := by
  refine ⟨processPairState_success K A state d s hdbg,
    processPairState_failure K A state d s hdbg,
    processPairState_other K A state d s hdbg, ?_⟩
  by_cases hce : state = K.GAPBOND_PAIRING_STATE_COMPLETE ∨
      state = K.GAPBOND_PAIRING_STATE_ENCRYPTED
  · by_cases hst : d.status = K.SUCCESS
    · obtain ⟨es, hes, _, _, hrun⟩ := processPairState_success K A state d s hdbg hce hst
      refine ⟨_, hrun, ?_⟩
      simp only [ctrlEvents_append, ctrlEvents_l2cap_requests es hes, List.append_nil]
      split <;> simp [ctrlEvents, isCtrlEvt]
    · refine ⟨_, processPairState_failure K A state d s hdbg hce hst, ?_⟩
      simp [ctrlEvents, isCtrlEvt]
  · exact ⟨s, processPairState_other K A state d s hdbg hce, rfl⟩

/-- Witness of C17: pairing completes for handle 0 and the PSM registration
fails; pairing completes with status 1; the pairing state 0. -/
theorem C17_pairing_outcome_witness :
    (sdk.RTLS_DEBUG = false ∧
        ((1 : Nat) = sdk.GAPBOND_PAIRING_STATE_COMPLETE ∨
          (1 : Nat) = sdk.GAPBOND_PAIRING_STATE_ENCRYPTED) ∧
        ({ connHandle := 0, status := 0 } : rmPairStateData_t).status = sdk.SUCCESS ∧
        ({ connHandle := 0, status := 1 } : rmPairStateData_t).status ≠ sdk.SUCCESS ∧
        ¬ ((0 : Nat) = sdk.GAPBOND_PAIRING_STATE_COMPLETE ∨
          (0 : Nat) = sdk.GAPBOND_PAIRING_STATE_ENCRYPTED)) ∧
      (∃ es, (∀ e ∈ es, isRegisterPsm e = true ∨ isConnectReq e = true) ∧ es ≠ [] ∧
        (RTLSMaster_openL2CAPChanCoc sdk registerFails
            ({ connHandle := 0, status := 0 } : rmPairStateData_t).connHandle
            (AppState.init sdk)).2 =
          { AppState.init sdk with trace := (AppState.init sdk).trace ++ es } ∧
        RTLSMaster_processPairState sdk registerFails 1 (some { connHandle := 0, status := 0 })
            (AppState.init sdk) =
          .ok { AppState.init sdk with trace := (AppState.init sdk).trace ++ es ++
            (if (RTLSMaster_openL2CAPChanCoc sdk registerFails
                ({ connHandle := 0, status := 0 } : rmPairStateData_t).connHandle
                (AppState.init sdk)).1 ≠ sdk.SUCCESS then
              [.GAP_TerminateLinkReq ({ connHandle := 0, status := 0 } : rmPairStateData_t).connHandle
                sdk.HCI_DISCONNECT_REMOTE_USER_TERM]
            else []) }) ∧
      RTLSMaster_processPairState sdk registerFails 1 (some { connHandle := 0, status := 0 })
          (AppState.init sdk) =
        .ok { AppState.init sdk with trace :=
          [.L2CAP_RegisterPsm
             { initPeerCredits := 0xFFFF, maxNumChannels := 8, mtu := 255,
               peerCreditThreshold := 0, psm := 0x80 } 0x13,
           .GAP_TerminateLinkReq 0 0x13] } ∧
      RTLSMaster_processPairState sdk okAnswers 1 (some { connHandle := 0, status := 1 })
          (AppState.init sdk) =
        .ok { AppState.init sdk with trace := (AppState.init sdk).trace ++
          [.GAP_TerminateLinkReq ({ connHandle := 0, status := 1 } : rmPairStateData_t).connHandle
            sdk.HCI_DISCONNECT_REMOTE_USER_TERM] } ∧
      RTLSMaster_processPairState sdk okAnswers 0 (some { connHandle := 0, status := 0 })
          (AppState.init sdk) = .ok (AppState.init sdk) :=
  ⟨⟨by decide, by decide, by decide, by decide, by decide⟩,
    (C17_pairing_outcome sdk registerFails 1 { connHandle := 0, status := 0 }
      (AppState.init sdk) (by decide)).1 (by decide) (by decide),
    by decide,
    (C17_pairing_outcome sdk okAnswers 1 { connHandle := 0, status := 1 }
      (AppState.init sdk) (by decide)).2.1 (by decide) (by decide),
    (C17_pairing_outcome sdk okAnswers 0 { connHandle := 0, status := 0 }
      (AppState.init sdk) (by decide)).2.2.1 (by decide)⟩

/-! ### Dropped reports -/

/-- C11: a readable advertising report that fails the filter, or whose address
is among the scan results, or that arrives while `scanRes` has reached
`RTLS_MASTER_DEFAULT_MAX_SCAN_RES`, is handled without an event to RTLS
Control: only its two buffers are released, and `scanRes` and `scanList` are
unchanged. -/
theorem C11_report_dropped (K : Consts) (A : StackAnswers) (s : AppState)
    (state addr : Nat) (rpt : GapScan_Evt_AdvRpt_t) (data : Ref (List Nat))
    (hd : rpt.pData = some data) (hlen : 11 ≤ data.val.length)
    (hdrop : matchesSlaveScanRsp data.val = false ∨ addrInScanList s rpt.addr = true ∨
      K.RTLS_MASTER_DEFAULT_MAX_SCAN_RES ≤ s.scanRes) :
    ∃ s2, RTLSMaster_processAppMsg K A (advReportMsg state addr rpt) s = .ok s2 ∧
      s2.trace = s.trace ++ [.ICall_free data.addr, .ICall_free addr] ∧
      ctrlEvents s2.trace = ctrlEvents s.trace ∧
      s2.scanRes = s.scanRes ∧ s2.scanList = s.scanList := by
  have hcond : ¬ (matchesSlaveScanRsp data.val = true ∧
      s.scanRes < K.RTLS_MASTER_DEFAULT_MAX_SCAN_RES ∧ addrInScanList s rpt.addr = false) := by
    rintro ⟨h1, h2, h3⟩
    rcases hdrop with hdr | hdr | hdr
    · rw [h1] at hdr
      cases hdr
    · rw [h3] at hdr
      cases hdr
    · omega
  rw [processAppMsg_advReport K A state addr rpt data s hd hlen]
  simp only [hcond, if_false]
  refine ⟨_, rfl, rfl, ?_, rfl, rfl⟩
  simp [ctrlEvents, isCtrlEvt]

/-- Witness of C11: with `rptPublic` as the only scan result, a report that
fails the filter. -/
theorem C11_report_dropped_witness :
    (rptForeign.pData = some ⟨0x6000, [10, 9, 79, 116, 104, 101, 114, 32, 32, 32, 32]⟩ ∧
        11 ≤ [10, 9, 79, 116, 104, 101, 114, 32, 32, 32, 32].length ∧
        (matchesSlaveScanRsp [10, 9, 79, 116, 104, 101, 114, 32, 32, 32, 32] = false ∨
          addrInScanList stateOneResult rptForeign.addr = true ∨
          sdk.RTLS_MASTER_DEFAULT_MAX_SCAN_RES ≤ stateOneResult.scanRes)) ∧
      ∃ s2, RTLSMaster_processAppMsg sdk okAnswers (advReportMsg 0 0x1000 rptForeign)
            stateOneResult = .ok s2 ∧
        s2.trace = stateOneResult.trace ++ [.ICall_free 0x6000, .ICall_free 0x1000] ∧
        ctrlEvents s2.trace = ctrlEvents stateOneResult.trace ∧
        s2.scanRes = stateOneResult.scanRes ∧ s2.scanList = stateOneResult.scanList :=
  ⟨⟨by decide, by decide, by decide⟩,
    C11_report_dropped sdk okAnswers stateOneResult 0 0x1000 rptForeign
      ⟨0x6000, [10, 9, 79, 116, 104, 101, 114, 32, 32, 32, 32]⟩ (by decide) (by decide)
      (by decide)⟩

/-! ### Sending data -/

/-- A non-null packet whose transport buffer is allocated: the SDU is
submitted on the channel identifier of the slot, and the buffer is released
when the submission does not return `SUCCESS`. -/
theorem sendRTLSData_allocated (K : Consts) (A : StackAnswers) (m : rtlsPacket_t)
    (s : AppState) (e : rmConnCB_t) (buf : Nat)
    (he : s.rmConnCB[m.connHandle]? = some e) (hb : A.L2CAP_bm_alloc = some buf) :
    RTLSMaster_sendRTLSData K A (some m) s =
      .ok (A.L2CAP_SendSDU,
        { s with trace := s.trace ++
            [.L2CAP_bm_alloc m.payloadLen (some buf),
             .L2CAP_SendSDU { CID := e.cocCID, pPayload := ⟨buf, m.bytes.take m.payloadLen⟩,
                              len := m.payloadLen } A.L2CAP_SendSDU] ++
            (if K.SUCCESS ≠ A.L2CAP_SendSDU then [.BM_free buf] else []) }) := by
  simp only [RTLSMaster_sendRTLSData, he, hb]
  by_cases hs : K.SUCCESS = A.L2CAP_SendSDU
  · simp [hs, AppState.emit]
  · simp [hs, AppState.emit]

/-- A non-null packet whose transport buffer cannot be allocated. -/
theorem sendRTLSData_no_buffer (K : Consts) (A : StackAnswers) (m : rtlsPacket_t)
    (s : AppState) (e : rmConnCB_t)
    (he : s.rmConnCB[m.connHandle]? = some e) (hb : A.L2CAP_bm_alloc = none) :
    RTLSMaster_sendRTLSData K A (some m) s =
      .ok (K.bleMemAllocError,
        { s with trace := s.trace ++ [.L2CAP_bm_alloc m.payloadLen none] }) := by
  simp [RTLSMaster_sendRTLSData, he, hb, AppState.emit]

/-- C20 (as stated, refuted): in the initial state slot 0 is inactive and has
no channel identifier; a send-data request of 20 bytes for handle 0
nevertheless allocates a transport buffer and submits an SDU on the channel
identifier 0 (which the stack rejects here). -/
theorem C20_counterexample :
    (AppState.init sdk).rmConnCB[0]? = some { cocCID := 0, isActive := false } ∧
      RTLSMaster_sendRTLSData sdk sduRejected (some packet20) (AppState.init sdk) =
        .ok (2, { AppState.init sdk with trace :=
          [.L2CAP_bm_alloc 20 (some 0x3000),
           .L2CAP_SendSDU { CID := 0, pPayload := ⟨0x3000, List.replicate 20 0⟩, len := 20 } 2,
           .BM_free 0x3000] }) := by
  decide

/-- C20 (amended): `RTLSMaster_sendRTLSData` returns `FAILURE` without any
effect only for a null request.  For a non-null request it looks neither at
the active flag nor at the channel identifier of the slot: whatever the slot
holds, it asks for a transport buffer of `payloadLen` bytes and, when the
buffer is allocated, submits the SDU on the channel identifier found in the
slot and returns the status of the submission; when the buffer is not
allocated it returns `bleMemAllocError`. -/
theorem C20_send_data_unchecked (K : Consts) (A : StackAnswers) (m : rtlsPacket_t)
    (s : AppState) (e : rmConnCB_t) (he : s.rmConnCB[m.connHandle]? = some e) :
    RTLSMaster_sendRTLSData K A none s = .ok (K.FAILURE, s) ∧
      (∀ buf, A.L2CAP_bm_alloc = some buf →
        RTLSMaster_sendRTLSData K A (some m) s =
          .ok (A.L2CAP_SendSDU,
            { s with trace := s.trace ++
                [.L2CAP_bm_alloc m.payloadLen (some buf),
                 .L2CAP_SendSDU { CID := e.cocCID, pPayload := ⟨buf, m.bytes.take m.payloadLen⟩,
                                  len := m.payloadLen } A.L2CAP_SendSDU] ++
                (if K.SUCCESS ≠ A.L2CAP_SendSDU then [.BM_free buf] else []) })) ∧
      (A.L2CAP_bm_alloc = none →
        RTLSMaster_sendRTLSData K A (some m) s =
          .ok (K.bleMemAllocError,
            { s with trace := s.trace ++ [.L2CAP_bm_alloc m.payloadLen none] })) :=
  ⟨rfl, fun buf hb => sendRTLSData_allocated K A m s e buf he hb,
    sendRTLSData_no_buffer K A m s e he⟩

/-- Witness of C20 (amended): the packet of 20 bytes for the inactive handle 0
of the initial state, with a stack that accepts the SDU. -/
theorem C20_send_data_unchecked_witness :
    ((AppState.init sdk).rmConnCB[packet20.connHandle]? =
          some { cocCID := 0, isActive := false } ∧
        okAnswers.L2CAP_bm_alloc = some 0x3000) ∧
      RTLSMaster_sendRTLSData sdk okAnswers none (AppState.init sdk) =
        .ok (sdk.FAILURE, AppState.init sdk) ∧
      RTLSMaster_sendRTLSData sdk okAnswers (some packet20) (AppState.init sdk) =
        .ok (okAnswers.L2CAP_SendSDU,
          { AppState.init sdk with trace := (AppState.init sdk).trace ++
              [.L2CAP_bm_alloc packet20.payloadLen (some 0x3000),
               .L2CAP_SendSDU
                 { CID := ({ cocCID := 0, isActive := false } : rmConnCB_t).cocCID,
                   pPayload := ⟨0x3000, packet20.bytes.take packet20.payloadLen⟩,
                   len := packet20.payloadLen } okAnswers.L2CAP_SendSDU] ++
              (if sdk.SUCCESS ≠ okAnswers.L2CAP_SendSDU then [.BM_free 0x3000] else []) }) :=
  ⟨⟨by decide, by decide⟩,
    (C20_send_data_unchecked sdk okAnswers packet20 (AppState.init sdk)
      { cocCID := 0, isActive := false } (by decide)).1,
    (C20_send_data_unchecked sdk okAnswers packet20 (AppState.init sdk)
      { cocCID := 0, isActive := false } (by decide)).2.1 0x3000 (by decide)⟩

/-! ### Scenarios -/

theorem observable_append (t u : List Effect) :
    observable (t ++ u) = observable t ++ observable u := by
  simp [observable]

theorem ctrlEvents_observable (t : List Effect) : ctrlEvents (observable t) = ctrlEvents t := by
  simp only [ctrlEvents, observable, List.filter_filter]
  congr 1
  funext e
  cases e <;> simp [isObservable, isCtrlEvt, isCreditGrant, isTerminateLinkReq]

theorem creditGrants_observable (t : List Effect) :
    (observable t).filter isCreditGrant = t.filter isCreditGrant := by
  simp only [observable, List.filter_filter]
  congr 1
  funext e
  cases e <;> simp [isObservable, isCtrlEvt, isCreditGrant, isTerminateLinkReq]

theorem terminateReqs_observable (t : List Effect) :
    (observable t).filter isTerminateLinkReq = t.filter isTerminateLinkReq := by
  simp only [observable, List.filter_filter]
  congr 1
  funext e
  cases e <;> simp [isObservable, isCtrlEvt, isCreditGrant, isTerminateLinkReq]

/-- Appending effects to the trace appends their observed part. -/
theorem Observed_append (s : AppState) (cb : List rmConnCB_t) (obs es : List Effect)
    (h : Observed s cb obs) :
    Observed { s with trace := s.trace ++ es } cb (obs ++ observable es) := by
  obtain ⟨ha, hb⟩ := h
  exact ⟨ha, by simp [observable_append, hb]⟩

theorem taskRun_cons_ok (K : Consts) (i : TaskInput) (rest : List TaskInput)
    (s s1 : AppState) (h : taskStep K s i = .ok s1) :
    taskRun K (i :: rest) s = taskRun K rest s1 := by
  simp [taskRun, h]

/-- The handler of a queued connect request issues requests to the stack and
releases the two buffers. -/
theorem taskStep_connect (K : Consts) (A : StackAnswers) (s : AppState) (a t ci : Nat)
    (peer : BdAddr) :
    taskStep K s (.appMsg A (ctrlReqMsg K a (connectReq t peer ci))) =
      .ok { s with trace := s.trace ++
        [.GapInit_setPhyParam "INIT_PHYPARAM_CONN_INT_MAX" ci,
         .GapInit_setPhyParam "INIT_PHYPARAM_CONN_INT_MIN" ci,
         .GapInit_setPhyParam "INIT_PHYPARAM_SUP_TIMEOUT" DEFAULT_UPDATE_CONN_TIMEOUT,
         .GapInit_connect (t &&& K.MASK_ADDRTYPE_ID) peer,
         .ICall_free 0x1100, .ICall_free a] } := by
  simp [taskStep, RTLSMaster_processAppMsg, RTLSMaster_processAppMsg_switch, ctrlReqMsg,
    connectReq, castRef, derefOpt, AppData.toCtrlMsg, CtrlData.toConnReq,
    RTLSMaster_processRtlsCtrlMsg, RTLSMaster_processRtlsCtrlMsg_switch,
    RTLSMaster_processRTLSConnReq, AppState.emit, bind, Except.bind,
    RM_EVT_RTLS_CTRL_MSG_EVT, RM_EVT_ADV_REPORT, RM_EVT_SCAN_DISABLED, RM_EVT_PAIR_STATE,
    RM_EVT_PASSCODE_NEEDED]

/-- The handler of a queued pairing state change runs
`RTLSMaster_processPairState` and releases the event data. -/
theorem taskStep_pairState (K : Consts) (A : StackAnswers) (s : AppState)
    (a h state status : Nat) :
    taskStep K s (.appMsg A (pairStateMsg a h state status)) =
      match RTLSMaster_processPairState K A state (some { connHandle := h, status := status })
          s with
      | .ok s1 => .ok (s1.emit (.ICall_free a))
      | .error f => .error f := by
  simp only [taskStep, RTLSMaster_processAppMsg, RTLSMaster_processAppMsg_switch, pairStateMsg,
    castRef, derefOpt, AppData.toPairState, bind, Except.bind, Option.map,
    RM_EVT_PAIR_STATE, RM_EVT_ADV_REPORT, RM_EVT_SCAN_DISABLED]
  simp only [show ¬ ((4 : Nat) = 3) by decide, show ¬ ((4 : Nat) = 2) by decide, if_false,
    if_true]
  cases RTLSMaster_processPairState K A state (some { connHandle := h, status := status }) s <;>
    rfl

/-- The handler of a queued send-data request for a handle within the table
has no observed effect. -/
theorem taskStep_sendData (K : Consts) (A : StackAnswers) (s : AppState) (a : Nat)
    (m : rtlsPacket_t) (e : rmConnCB_t) (he : s.rmConnCB[m.connHandle]? = some e) :
    ∃ es, observable es = [] ∧
      taskStep K s (.appMsg A (ctrlReqMsg K a (sendDataReq m))) =
        .ok { s with trace := s.trace ++ es } := by
  have hrun : taskStep K s (.appMsg A (ctrlReqMsg K a (sendDataReq m))) =
      match RTLSMaster_sendRTLSData K A (some m) s with
      | .ok r => .ok ((r.2.emit (.ICall_free 0x1100)).emit (.ICall_free a))
      | .error f => .error f := by
    simp only [taskStep, RTLSMaster_processAppMsg, RTLSMaster_processAppMsg_switch, ctrlReqMsg,
      sendDataReq, castRef, derefOpt, AppData.toCtrlMsg, CtrlData.toPacket,
      RTLSMaster_processRtlsCtrlMsg, RTLSMaster_processRtlsCtrlMsg_switch, bind, Except.bind,
      Option.map, RM_EVT_RTLS_CTRL_MSG_EVT, RM_EVT_ADV_REPORT, RM_EVT_SCAN_DISABLED,
      RM_EVT_PAIR_STATE, RM_EVT_PASSCODE_NEEDED]
    simp only [show ¬ ((7 : Nat) = 3) by decide, show ¬ ((7 : Nat) = 2) by decide,
      show ¬ ((7 : Nat) = 4) by decide, show ¬ ((7 : Nat) = 5) by decide, if_false, if_true]
    cases RTLSMaster_sendRTLSData K A (some m) s <;> rfl
  rw [hrun]
  cases hb : A.L2CAP_bm_alloc with
  | none =>
    rw [sendRTLSData_no_buffer K A m s e he hb]
    exact ⟨[.L2CAP_bm_alloc m.payloadLen none, .ICall_free 0x1100, .ICall_free a],
      by simp [observable, isObservable, isCtrlEvt, isCreditGrant, isTerminateLinkReq],
      by simp [AppState.emit]⟩
  | some buf =>
    rw [sendRTLSData_allocated K A m s e buf he hb]
    refine ⟨[.L2CAP_bm_alloc m.payloadLen (some buf),
        .L2CAP_SendSDU { CID := e.cocCID, pPayload := ⟨buf, m.bytes.take m.payloadLen⟩,
                         len := m.payloadLen } A.L2CAP_SendSDU] ++
        (if K.SUCCESS ≠ A.L2CAP_SendSDU then [.BM_free buf] else []) ++
        [.ICall_free 0x1100, .ICall_free a], ?_, ?_⟩
    · split <;> simp [observable, isObservable, isCtrlEvt, isCreditGrant, isTerminateLinkReq]
    · simp [AppState.emit]

/-- The handler of a queued terminate-link request for a valid handle asks
L2CAP to disconnect the channel found in the slot. -/
theorem taskStep_terminateLink (K : Consts) (A : StackAnswers) (s : AppState) (a h : Nat)
    (e : rmConnCB_t) (hv : h ≠ K.LINKDB_CONNHANDLE_INVALID) (hlt : h < K.MAX_NUM_BLE_CONNS)
    (he : s.rmConnCB[h]? = some e) :
    taskStep K s (.appMsg A (ctrlReqMsg K a (terminateLinkReq h))) =
      .ok { s with trace := s.trace ++
        [.L2CAP_DisconnectReq e.cocCID, .ICall_free 0x1100, .ICall_free a] } := by
  simp [taskStep, RTLSMaster_processAppMsg, RTLSMaster_processAppMsg_switch, ctrlReqMsg,
    terminateLinkReq, castRef, derefOpt, AppData.toCtrlMsg, CtrlData.toTerminateLink,
    RTLSMaster_processRtlsCtrlMsg, RTLSMaster_processRtlsCtrlMsg_switch,
    RTLSMaster_terminateLinkReq, AppState.emit, bind, Except.bind, hv, hlt, he,
    RM_EVT_RTLS_CTRL_MSG_EVT, RM_EVT_ADV_REPORT, RM_EVT_SCAN_DISABLED, RM_EVT_PAIR_STATE,
    RM_EVT_PASSCODE_NEEDED]

theorem observable_l2cap_requests (es : List Effect)
    (h : ∀ e ∈ es, isRegisterPsm e = true ∨ isConnectReq e = true) : observable es = [] := by
  simp only [observable, List.filter_eq_nil_iff]
  intro e he
  have h1 := h e he
  cases e <;> simp_all [isRegisterPsm, isConnectReq, isObservable, isCtrlEvt, isCreditGrant,
    isTerminateLinkReq]

/-- The channel opening returns `SUCCESS` when both the registration and the
connect request, as far as they are issued, return `SUCCESS`. -/
theorem openL2CAPChanCoc_status_ok (K : Consts) (A : StackAnswers) (h : Nat) (s : AppState)
    (hreg : A.L2CAP_RegisterPsm = K.SUCCESS) (hconn : A.L2CAP_ConnectReq = K.SUCCESS) :
    (RTLSMaster_openL2CAPChanCoc K A h s).1 = K.SUCCESS := by
  by_cases h1 : A.L2CAP_PsmInfo = K.INVALIDPARAMETER
  · rw [openL2CAPChanCoc_register_ok K A h s h1 hreg]
    exact hconn
  · rw [openL2CAPChanCoc_registered K A h s h1]
    exact hconn

theorem obs_connect (K : Consts) (A : StackAnswers) (s : AppState) (a t ci : Nat)
    (peer : BdAddr) (cb : List rmConnCB_t) (obs : List Effect) (h : Observed s cb obs) :
    ∃ s1, taskStep K s (.appMsg A (ctrlReqMsg K a (connectReq t peer ci))) = .ok s1 ∧
      Observed s1 cb obs := by
  refine ⟨_, taskStep_connect K A s a t ci peer, ?_⟩
  have h1 := Observed_append s cb obs
    [.GapInit_setPhyParam "INIT_PHYPARAM_CONN_INT_MAX" ci,
     .GapInit_setPhyParam "INIT_PHYPARAM_CONN_INT_MIN" ci,
     .GapInit_setPhyParam "INIT_PHYPARAM_SUP_TIMEOUT" DEFAULT_UPDATE_CONN_TIMEOUT,
     .GapInit_connect (t &&& K.MASK_ADDRTYPE_ID) peer,
     .ICall_free 0x1100, .ICall_free a] h
  simpa [observable, isObservable, isCtrlEvt, isCreditGrant, isTerminateLinkReq] using h1

theorem obs_linkEstablished (K : Consts) (A : StackAnswers) (s : AppState) (h : Nat)
    (cb : List rmConnCB_t) (obs : List Effect)
    (hv : h ≠ K.LINKDB_CONNHANDLE_INVALID) (hlt : h < K.MAX_NUM_BLE_CONNS)
    (ho : Observed s cb obs) :
    ∃ s1, taskStep K s (.gapMsg A (.GAP_LINK_ESTABLISHED_EVENT K.SUCCESS h)) = .ok s1 ∧
      Observed s1 (setIsActive cb h true) (obs ++ [.RTLSCtrl_connInfoEvt (connInfoOf A h)]) := by
  refine ⟨_, rfl, ?_⟩
  rw [processGapMsg_linkEstablished_ok K A s h hv hlt]
  obtain ⟨ha, hb⟩ := ho
  refine ⟨by simp [ha], ?_⟩
  show observable (s.trace ++ _) = _
  rw [observable_append, hb]
  simp [observable, isObservable, isCtrlEvt, isCreditGrant, isTerminateLinkReq]

theorem obs_linkTerminated (K : Consts) (A : StackAnswers) (s : AppState) (h : Nat)
    (cb : List rmConnCB_t) (obs : List Effect)
    (hv : h ≠ K.LINKDB_CONNHANDLE_INVALID) (hlt : h < K.MAX_NUM_BLE_CONNS)
    (ho : Observed s cb obs) :
    ∃ s1, taskStep K s (.gapMsg A (.GAP_LINK_TERMINATED_EVENT h)) = .ok s1 ∧
      Observed s1 (setIsActive cb h false)
        (obs ++ [.RTLSCtrl_connResultEvt h .RTLS_LINK_TERMINATED]) := by
  refine ⟨_, rfl, ?_⟩
  rw [processGapMsg_linkTerminated_ok K A s h hv hlt]
  obtain ⟨ha, hb⟩ := ho
  refine ⟨by simp [ha], ?_⟩
  show observable (s.trace ++ _) = _
  rw [observable_append, hb]
  simp [observable, isObservable, isCtrlEvt, isCreditGrant, isTerminateLinkReq]

theorem obs_channelEstablished (K : Consts) (s : AppState) (status h c : Nat)
    (cb : List rmConnCB_t) (obs : List Effect)
    (hv : h ≠ K.LINKDB_CONNHANDLE_INVALID) (hlt : h < K.MAX_NUM_BLE_CONNS)
    (ho : Observed s cb obs) :
    ∃ s1, taskStep K s (.l2capSignal
        { status := status, connHandle := h, cmd := .L2CAP_CHANNEL_ESTABLISHED_EVT c }) =
          .ok s1 ∧
      Observed s1 (setCocCID cb h c)
        (obs ++ [.L2CAP_FlowCtrlCredit c 0xFFFF, .RTLSCtrl_connResultEvt h .RTLS_SUCCESS]) := by
  refine ⟨_, rfl, ?_⟩
  rw [processL2CAPSignalEvent_established_ok K s status h c hv hlt]
  obtain ⟨ha, hb⟩ := ho
  refine ⟨by simp [ha], ?_⟩
  show observable (s.trace ++ _) = _
  rw [observable_append, hb]
  simp [observable, isObservable, isCtrlEvt, isCreditGrant, isTerminateLinkReq]

theorem obs_sendDone (K : Consts) (s : AppState) (h : Nat)
    (cb : List rmConnCB_t) (obs : List Effect) (ho : Observed s cb obs) :
    ∃ s1, taskStep K s (.l2capSignal
        { status := K.SUCCESS, connHandle := h, cmd := .L2CAP_SEND_SDU_DONE_EVT }) = .ok s1 ∧
      Observed s1 cb (obs ++ [.RTLSCtrl_dataSentEvt h .RTLS_SUCCESS]) := by
  refine ⟨_, rfl, ?_⟩
  obtain ⟨ha, hb⟩ := ho
  refine ⟨by simp [RTLSMaster_processL2CAPSignalEvent, AppState.emit, ha], ?_⟩
  simp only [RTLSMaster_processL2CAPSignalEvent, if_true, AppState.emit]
  rw [observable_append, hb]
  simp [observable, isObservable, isCtrlEvt, isCreditGrant, isTerminateLinkReq]

theorem obs_sendData (K : Consts) (A : StackAnswers) (s : AppState) (a : Nat)
    (m : rtlsPacket_t) (e : rmConnCB_t) (cb : List rmConnCB_t) (obs : List Effect)
    (ho : Observed s cb obs) (he : cb[m.connHandle]? = some e) :
    ∃ s1, taskStep K s (.appMsg A (ctrlReqMsg K a (sendDataReq m))) = .ok s1 ∧
      Observed s1 cb obs := by
  have he2 : s.rmConnCB[m.connHandle]? = some e := by rw [ho.1]; exact he
  obtain ⟨es, hes, hrun⟩ := taskStep_sendData K A s a m e he2
  refine ⟨_, hrun, ?_⟩
  have h1 := Observed_append s cb obs es ho
  simpa [hes] using h1

theorem obs_terminateLink (K : Consts) (A : StackAnswers) (s : AppState) (a h : Nat)
    (e : rmConnCB_t) (cb : List rmConnCB_t) (obs : List Effect)
    (hv : h ≠ K.LINKDB_CONNHANDLE_INVALID) (hlt : h < K.MAX_NUM_BLE_CONNS)
    (ho : Observed s cb obs) (he : cb[h]? = some e) :
    ∃ s1, taskStep K s (.appMsg A (ctrlReqMsg K a (terminateLinkReq h))) = .ok s1 ∧
      Observed s1 cb obs := by
  have he2 : s.rmConnCB[h]? = some e := by rw [ho.1]; exact he
  refine ⟨_, taskStep_terminateLink K A s a h e hv hlt he2, ?_⟩
  have h1 := Observed_append s cb obs
    [.L2CAP_DisconnectReq e.cocCID, .ICall_free 0x1100, .ICall_free a] ho
  simpa [observable, isObservable, isCtrlEvt, isCreditGrant, isTerminateLinkReq] using h1

theorem obs_pairOk (K : Consts) (A : StackAnswers) (s : AppState) (a h state : Nat)
    (cb : List rmConnCB_t) (obs : List Effect) (hdbg : K.RTLS_DEBUG = false)
    (hce : state = K.GAPBOND_PAIRING_STATE_COMPLETE ∨ state = K.GAPBOND_PAIRING_STATE_ENCRYPTED)
    (hreg : A.L2CAP_RegisterPsm = K.SUCCESS) (hconn : A.L2CAP_ConnectReq = K.SUCCESS)
    (ho : Observed s cb obs) :
    ∃ s1, taskStep K s (.appMsg A (pairStateMsg a h state K.SUCCESS)) = .ok s1 ∧
      Observed s1 cb obs := by
  obtain ⟨es, hes, _, _, hrun⟩ := processPairState_success K A state
    { connHandle := h, status := K.SUCCESS } s hdbg hce rfl
  have hst := openL2CAPChanCoc_status_ok K A h s hreg hconn
  rw [taskStep_pairState, hrun]
  refine ⟨_, rfl, ?_⟩
  have h1 := Observed_append s cb obs (es ++ [.ICall_free a]) ho
  have h2 : observable (es ++ [.ICall_free a]) = [] := by
    rw [observable_append, observable_l2cap_requests es hes]
    simp [observable, isObservable, isCtrlEvt, isCreditGrant, isTerminateLinkReq]
  rw [h2, List.append_nil] at h1
  simpa [hst, AppState.emit] using h1

theorem obs_pairFail (K : Consts) (A : StackAnswers) (s : AppState) (a h state status : Nat)
    (cb : List rmConnCB_t) (obs : List Effect) (hdbg : K.RTLS_DEBUG = false)
    (hce : state = K.GAPBOND_PAIRING_STATE_COMPLETE ∨ state = K.GAPBOND_PAIRING_STATE_ENCRYPTED)
    (hst : status ≠ K.SUCCESS) (ho : Observed s cb obs) :
    ∃ s1, taskStep K s (.appMsg A (pairStateMsg a h state status)) = .ok s1 ∧
      Observed s1 cb (obs ++ [.GAP_TerminateLinkReq h K.HCI_DISCONNECT_REMOTE_USER_TERM]) := by
  have hrun := processPairState_failure K A state { connHandle := h, status := status } s hdbg
    hce hst
  rw [taskStep_pairState, hrun]
  refine ⟨_, rfl, ?_⟩
  have h1 := Observed_append s cb obs
    [.GAP_TerminateLinkReq h K.HCI_DISCONNECT_REMOTE_USER_TERM, .ICall_free a] ho
  simpa [AppState.emit, observable, isObservable, isCtrlEvt, isCreditGrant,
    isTerminateLinkReq] using h1

/-- C12: the trace connect, link established, pairing complete (with the
channel opening succeeding), channel established with identifier 7, send data
(20 bytes), send complete, terminate link, link terminated, for a valid
handle `H` from the initial state and in a build without `RTLS_DEBUG`, runs
to a state; the events sent to RTLS Control are exactly the connection
information for `H`, the connection result `RTLS_SUCCESS` for `H`, the
data-sent result `RTLS_SUCCESS` for `H` and the connection result
`RTLS_LINK_TERMINATED` for `H`, in this order; the only credit grant is
`0xFFFF` for the channel 7; and slot `H` is inactive at the end. -/
theorem C12_ready_scenario (K : Consts) (A : Nat → StackAnswers) (peer : BdAddr) (H : Nat)
    (bytes : List Nat)
    (hv : H ≠ K.LINKDB_CONNHANDLE_INVALID) (hlt : H < K.MAX_NUM_BLE_CONNS)
    (hdbg : K.RTLS_DEBUG = false)
    (hreg : (A 2).L2CAP_RegisterPsm = K.SUCCESS) (hconn : (A 2).L2CAP_ConnectReq = K.SUCCESS) :
    ∃ s, taskRun K (readyScenario K A peer H bytes) (AppState.init K) = .ok s ∧
      ctrlEvents s.trace =
        [.RTLSCtrl_connInfoEvt (connInfoOf (A 1) H),
         .RTLSCtrl_connResultEvt H .RTLS_SUCCESS,
         .RTLSCtrl_dataSentEvt H .RTLS_SUCCESS,
         .RTLSCtrl_connResultEvt H .RTLS_LINK_TERMINATED] ∧
      s.trace.filter isCreditGrant = [.L2CAP_FlowCtrlCredit 7 0xFFFF] ∧
      s.rmConnCB[H]? = some { cocCID := 7, isActive := false } := by
  have o0 : Observed (AppState.init K) (AppState.init K).rmConnCB [] := ⟨rfl, rfl⟩
  obtain ⟨s1, r1, o1⟩ := obs_connect K (A 0) (AppState.init K) 0x1000 0 80 peer _ _ o0
  obtain ⟨s2, r2, o2⟩ := obs_linkEstablished K (A 1) s1 H _ _ hv hlt o1
  obtain ⟨s3, r3, o3⟩ := obs_pairOk K (A 2) s2 0x1000 H K.GAPBOND_PAIRING_STATE_COMPLETE _ _
    hdbg (Or.inl rfl) hreg hconn o2
  obtain ⟨s4, r4, o4⟩ := obs_channelEstablished K s3 K.SUCCESS H 7 _ _ hv hlt o3
  have hslot : (setCocCID (setIsActive (AppState.init K).rmConnCB H true) H 7)[H]? =
      some { cocCID := 7, isActive := true } := by
    rw [setCocCID_getElem?_self, setIsActive_getElem?_self, init_slot K H hlt]
    rfl
  obtain ⟨s5, r5, o5⟩ := obs_sendData K (A 4) s4 0x1000
    { connHandle := H, payloadLen := 20, bytes := bytes } _ _ _ o4 hslot
  obtain ⟨s6, r6, o6⟩ := obs_sendDone K s5 H _ _ o5
  obtain ⟨s7, r7, o7⟩ := obs_terminateLink K (A 6) s6 0x1000 H _ _ _ hv hlt o6 hslot
  obtain ⟨s8, r8, o8⟩ := obs_linkTerminated K (A 7) s7 H _ _ hv hlt o7
  refine ⟨s8, ?_, ?_, ?_, ?_⟩
  · simp only [readyScenario]
    rw [taskRun_cons_ok K _ _ _ _ r1, taskRun_cons_ok K _ _ _ _ r2,
      taskRun_cons_ok K _ _ _ _ r3, taskRun_cons_ok K _ _ _ _ r4,
      taskRun_cons_ok K _ _ _ _ r5, taskRun_cons_ok K _ _ _ _ r6,
      taskRun_cons_ok K _ _ _ _ r7, taskRun_cons_ok K _ _ _ _ r8]
    rfl
  · rw [← ctrlEvents_observable, o8.2]
    simp [ctrlEvents, isCtrlEvt]
  · rw [← creditGrants_observable, o8.2]
    simp [isCreditGrant]
  · rw [o8.1, setIsActive_getElem?_self, hslot]
    rfl

/-- Witness of C12: handle 0 with a stack that accepts every request. -/
theorem C12_ready_scenario_witness :
    (0 ≠ sdk.LINKDB_CONNHANDLE_INVALID ∧ 0 < sdk.MAX_NUM_BLE_CONNS ∧ sdk.RTLS_DEBUG = false ∧
        okAnswers.L2CAP_RegisterPsm = sdk.SUCCESS ∧ okAnswers.L2CAP_ConnectReq = sdk.SUCCESS) ∧
      ∃ s, taskRun sdk (readyScenario sdk (fun _ => okAnswers) [1, 2, 3, 4, 5, 6] 0
            (List.replicate 20 0)) (AppState.init sdk) = .ok s ∧
        ctrlEvents s.trace =
          [.RTLSCtrl_connInfoEvt (connInfoOf okAnswers 0),
           .RTLSCtrl_connResultEvt 0 .RTLS_SUCCESS,
           .RTLSCtrl_dataSentEvt 0 .RTLS_SUCCESS,
           .RTLSCtrl_connResultEvt 0 .RTLS_LINK_TERMINATED] ∧
        s.trace.filter isCreditGrant = [.L2CAP_FlowCtrlCredit 7 0xFFFF] ∧
        s.rmConnCB[0]? = some { cocCID := 7, isActive := false } :=
  ⟨⟨by decide, by decide, by decide, by decide, by decide⟩,
    C12_ready_scenario sdk (fun _ => okAnswers) [1, 2, 3, 4, 5, 6] 0 (List.replicate 20 0)
      (by decide) (by decide) (by decide) (by decide) (by decide)⟩

/-- C13: the trace connect, link established, pairing complete with a status
other than `SUCCESS`, link terminated, for a valid handle `h` from the initial
state and in a build without `RTLS_DEBUG`, runs to a state; the pairing step
appends the link termination request for `h` to the trace; over the whole
trace the events sent to RTLS Control are the connection information and one
connection result, `RTLS_LINK_TERMINATED` for `h`, which comes after the
termination request. -/
theorem C13_pairing_failure_scenario (K : Consts) (A : Nat → StackAnswers) (peer : BdAddr)
    (h : Nat) (pairStatus : Nat)
    (hv : h ≠ K.LINKDB_CONNHANDLE_INVALID) (hlt : h < K.MAX_NUM_BLE_CONNS)
    (hdbg : K.RTLS_DEBUG = false) (hfail : pairStatus ≠ K.SUCCESS) :
    (∀ s2, taskStep K s2 (.appMsg (A 2)
        (pairStateMsg 0x1000 h K.GAPBOND_PAIRING_STATE_COMPLETE pairStatus)) =
      .ok { s2 with trace := s2.trace ++
        [.GAP_TerminateLinkReq h K.HCI_DISCONNECT_REMOTE_USER_TERM, .ICall_free 0x1000] }) ∧
      ∃ s, taskRun K (pairFailScenario K A peer h pairStatus) (AppState.init K) = .ok s ∧
        observable s.trace =
          [.RTLSCtrl_connInfoEvt (connInfoOf (A 1) h),
           .GAP_TerminateLinkReq h K.HCI_DISCONNECT_REMOTE_USER_TERM,
           .RTLSCtrl_connResultEvt h .RTLS_LINK_TERMINATED] ∧
        ctrlEvents s.trace =
          [.RTLSCtrl_connInfoEvt (connInfoOf (A 1) h),
           .RTLSCtrl_connResultEvt h .RTLS_LINK_TERMINATED] ∧
        s.trace.filter isConnResultEvt = [.RTLSCtrl_connResultEvt h .RTLS_LINK_TERMINATED] := by
  constructor
  · intro s2
    rw [taskStep_pairState, processPairState_failure K (A 2) K.GAPBOND_PAIRING_STATE_COMPLETE
      { connHandle := h, status := pairStatus } s2 hdbg (Or.inl rfl) hfail]
    simp [AppState.emit]
  · have o0 : Observed (AppState.init K) (AppState.init K).rmConnCB [] := ⟨rfl, rfl⟩
    obtain ⟨s1, r1, o1⟩ := obs_connect K (A 0) (AppState.init K) 0x1000 0 80 peer _ _ o0
    obtain ⟨s2, r2, o2⟩ := obs_linkEstablished K (A 1) s1 h _ _ hv hlt o1
    obtain ⟨s3, r3, o3⟩ := obs_pairFail K (A 2) s2 0x1000 h K.GAPBOND_PAIRING_STATE_COMPLETE
      pairStatus _ _ hdbg (Or.inl rfl) hfail o2
    obtain ⟨s4, r4, o4⟩ := obs_linkTerminated K (A 3) s3 h _ _ hv hlt o3
    have hobs : observable s4.trace =
        [.RTLSCtrl_connInfoEvt (connInfoOf (A 1) h),
         .GAP_TerminateLinkReq h K.HCI_DISCONNECT_REMOTE_USER_TERM,
         .RTLSCtrl_connResultEvt h .RTLS_LINK_TERMINATED] := by
      rw [o4.2]
      rfl
    have hconnres : ∀ t : List Effect,
        (observable t).filter isConnResultEvt = t.filter isConnResultEvt := by
      intro t
      simp only [observable, List.filter_filter]
      congr 1
      funext e
      cases e <;> simp [isObservable, isCtrlEvt, isCreditGrant, isTerminateLinkReq,
        isConnResultEvt]
    refine ⟨s4, ?_, hobs, ?_, ?_⟩
    · simp only [pairFailScenario]
      rw [taskRun_cons_ok K _ _ _ _ r1, taskRun_cons_ok K _ _ _ _ r2,
        taskRun_cons_ok K _ _ _ _ r3, taskRun_cons_ok K _ _ _ _ r4]
      rfl
    · rw [← ctrlEvents_observable, hobs]
      simp [ctrlEvents, isCtrlEvt]
    · rw [← hconnres, hobs]
      simp [isConnResultEvt]

/-- Witness of C13: handle 0, pairing fails with status 1. -/
theorem C13_pairing_failure_scenario_witness :
    (0 ≠ sdk.LINKDB_CONNHANDLE_INVALID ∧ 0 < sdk.MAX_NUM_BLE_CONNS ∧ sdk.RTLS_DEBUG = false ∧
        (1 : Nat) ≠ sdk.SUCCESS) ∧
      ∃ s, taskRun sdk (pairFailScenario sdk (fun _ => okAnswers) [1, 2, 3, 4, 5, 6] 0 1)
            (AppState.init sdk) = .ok s ∧
        observable s.trace =
          [.RTLSCtrl_connInfoEvt (connInfoOf okAnswers 0),
           .GAP_TerminateLinkReq 0 sdk.HCI_DISCONNECT_REMOTE_USER_TERM,
           .RTLSCtrl_connResultEvt 0 .RTLS_LINK_TERMINATED] ∧
        ctrlEvents s.trace =
          [.RTLSCtrl_connInfoEvt (connInfoOf okAnswers 0),
           .RTLSCtrl_connResultEvt 0 .RTLS_LINK_TERMINATED] ∧
        s.trace.filter isConnResultEvt = [.RTLSCtrl_connResultEvt 0 .RTLS_LINK_TERMINATED] :=
  ⟨⟨by decide, by decide, by decide, by decide⟩,
    (C13_pairing_failure_scenario sdk (fun _ => okAnswers) [1, 2, 3, 4, 5, 6] 0 1
      (by decide) (by decide) (by decide) (by decide)).2⟩

/-! ### Submission of data -/

/-- C21: a non-null send-data request for a handle within the table.  When the
transport buffer is allocated, exactly one SDU is submitted, on the channel
identifier of the slot and with the length `payloadLen`, and the status of the
submission is returned; the buffer is released exactly once when that status
is not `SUCCESS` and is not released when it is `SUCCESS`.  When the buffer
cannot be allocated, nothing is submitted or released and `bleMemAllocError`
is returned. -/
theorem C21_send_data_submission (K : Consts) (A : StackAnswers) (m : rtlsPacket_t)
    (s : AppState) (e : rmConnCB_t) (he : s.rmConnCB[m.connHandle]? = some e) :
    (∀ buf, A.L2CAP_bm_alloc = some buf →
      ∃ s1 es, RTLSMaster_sendRTLSData K A (some m) s = .ok (A.L2CAP_SendSDU, s1) ∧
        s1.trace = s.trace ++ es ∧
        es.filter isSendSDU =
          [.L2CAP_SendSDU { CID := e.cocCID, pPayload := ⟨buf, m.bytes.take m.payloadLen⟩,
                            len := m.payloadLen } A.L2CAP_SendSDU] ∧
        (A.L2CAP_SendSDU ≠ K.SUCCESS → es.filter isBmFree = [.BM_free buf]) ∧
        (A.L2CAP_SendSDU = K.SUCCESS → es.filter isBmFree = [])) ∧
      (A.L2CAP_bm_alloc = none →
        ∃ s1 es, RTLSMaster_sendRTLSData K A (some m) s = .ok (K.bleMemAllocError, s1) ∧
          s1.trace = s.trace ++ es ∧ es.filter isSendSDU = [] ∧ es.filter isBmFree = []) := by
  constructor
  · intro buf hb
    refine ⟨_, [.L2CAP_bm_alloc m.payloadLen (some buf),
        .L2CAP_SendSDU { CID := e.cocCID, pPayload := ⟨buf, m.bytes.take m.payloadLen⟩,
                         len := m.payloadLen } A.L2CAP_SendSDU] ++
        (if K.SUCCESS ≠ A.L2CAP_SendSDU then [.BM_free buf] else []),
      sendRTLSData_allocated K A m s e buf he hb, by simp, ?_, ?_, ?_⟩
    · split <;> simp [isSendSDU]
    · intro hne
      have hne2 : K.SUCCESS ≠ A.L2CAP_SendSDU := fun h => hne h.symm
      simp [hne2, isBmFree]
    · intro heq
      simp [heq, isBmFree]
  · intro hb
    exact ⟨_, _, sendRTLSData_no_buffer K A m s e he hb, rfl, by simp [isSendSDU],
      by simp [isBmFree]⟩

/-- Witness of C21: the packet of 20 bytes on the open channel 7 of handle 0,
rejected by the stack; and the same packet when no buffer is available. -/
theorem C21_send_data_submission_witness :
    (stateChannelOpen.rmConnCB[packet20.connHandle]? = some { cocCID := 7, isActive := true } ∧
        sduRejected.L2CAP_bm_alloc = some 0x3000 ∧ sduRejected.L2CAP_SendSDU ≠ sdk.SUCCESS ∧
        ({ okAnswers with L2CAP_bm_alloc := none } : StackAnswers).L2CAP_bm_alloc = none) ∧
      (∃ s1 es, RTLSMaster_sendRTLSData sdk sduRejected (some packet20) stateChannelOpen =
            .ok (sduRejected.L2CAP_SendSDU, s1) ∧
          s1.trace = stateChannelOpen.trace ++ es ∧
          es.filter isSendSDU =
            [.L2CAP_SendSDU
               { CID := ({ cocCID := 7, isActive := true } : rmConnCB_t).cocCID,
                 pPayload := ⟨0x3000, packet20.bytes.take packet20.payloadLen⟩,
                 len := packet20.payloadLen } sduRejected.L2CAP_SendSDU] ∧
          (sduRejected.L2CAP_SendSDU ≠ sdk.SUCCESS → es.filter isBmFree = [.BM_free 0x3000]) ∧
          (sduRejected.L2CAP_SendSDU = sdk.SUCCESS → es.filter isBmFree = [])) ∧
      ∃ s1 es, RTLSMaster_sendRTLSData sdk { okAnswers with L2CAP_bm_alloc := none }
            (some packet20) stateChannelOpen = .ok (sdk.bleMemAllocError, s1) ∧
          s1.trace = stateChannelOpen.trace ++ es ∧ es.filter isSendSDU = [] ∧
          es.filter isBmFree = [] :=
  ⟨⟨by decide, by decide, by decide, by decide⟩,
    (C21_send_data_submission sdk sduRejected packet20 stateChannelOpen
      { cocCID := 7, isActive := true } (by decide)).1 0x3000 (by decide),
    (C21_send_data_submission sdk { okAnswers with L2CAP_bm_alloc := none } packet20
      stateChannelOpen { cocCID := 7, isActive := true } (by decide)).2 (by decide)⟩

/-! ### Release of request payloads -/

theorem frees_connReq (K : Consts) (p : Option bleConnReq_t) (s : AppState) :
    (RTLSMaster_processRTLSConnReq K p s).trace.filter isICallFree =
      s.trace.filter isICallFree := by
  cases p <;> simp [RTLSMaster_processRTLSConnReq, AppState.emit, List.filter_append,
    isICallFree]

theorem frees_scanReq (K : Consts) (s : AppState) :
    (RTLSMaster_processRTLSScanReq K s).trace.filter isICallFree =
      s.trace.filter isICallFree := by
  simp [RTLSMaster_processRTLSScanReq, AppState.emit, List.filter_append, isICallFree]

theorem frees_enableRtlsSync (K : Consts) (A : StackAnswers) (p : Option rtlsEnableSync_t)
    (s s1 : AppState) (h : RTLSMaster_enableRtlsSync K A p s = .ok s1) :
    s1.trace.filter isICallFree = s.trace.filter isICallFree := by
  cases p with
  | none => simp [RTLSMaster_enableRtlsSync] at h
  | some e =>
    by_cases hT : e.enable = K.RTLS_TRUE
    · rcases Nat.eq_zero_or_pos s.connEventRegCauseBitmap with hb | hb
      · rw [enableRtlsSync_on_unregistered K A e s hT hb, Except.ok.injEq] at h
        subst h
        split_ifs <;> simp [CONNECTION_EVENT_REGISTER_BIT_SET, AppState.emit,
          List.filter_append, isICallFree]
      · rw [enableRtlsSync_on_registered K A e s hT hb, Except.ok.injEq] at h
        subst h
        split_ifs <;> simp [CONNECTION_EVENT_REGISTER_BIT_SET]
    · by_cases hF : e.enable = K.RTLS_FALSE
      · rw [enableRtlsSync_off K A e s hT hF, Except.ok.injEq] at h
        subst h
        split_ifs <;> simp [CONNECTION_EVENT_REGISTER_BIT_REMOVE, AppState.emit,
          List.filter_append, isICallFree]
      · rw [enableRtlsSync_other K A e s hT hF, Except.ok.injEq] at h
        subst h
        rfl

theorem frees_sendRTLSData (K : Consts) (A : StackAnswers) (p : Option rtlsPacket_t)
    (s : AppState) (r : Nat × AppState) (h : RTLSMaster_sendRTLSData K A p s = .ok r) :
    r.2.trace.filter isICallFree = s.trace.filter isICallFree := by
  cases p with
  | none =>
    simp only [RTLSMaster_sendRTLSData, Except.ok.injEq] at h
    subst h
    rfl
  | some m =>
    cases hs : s.rmConnCB[m.connHandle]? with
    | none => simp [RTLSMaster_sendRTLSData, hs] at h
    | some e =>
      cases hb : A.L2CAP_bm_alloc with
      | none =>
        rw [sendRTLSData_no_buffer K A m s e hs hb, Except.ok.injEq] at h
        subst h
        simp [List.filter_append, isICallFree]
      | some buf =>
        rw [sendRTLSData_allocated K A m s e buf hs hb, Except.ok.injEq] at h
        subst h
        simp only [List.filter_append]
        split_ifs <;> simp [isICallFree]

theorem frees_terminateLinkReq (K : Consts) (p : Option rtlsTerminateLinkReq_t)
    (s s1 : AppState) (h : RTLSMaster_terminateLinkReq K p s = .ok s1) :
    s1.trace.filter isICallFree = s.trace.filter isICallFree := by
  unfold RTLSMaster_terminateLinkReq at h
  split at h
  · cases h
  · split_ifs at h
    · split at h
      · cases h
      · cases h
        simp [AppState.emit, List.filter_append, isICallFree]
    · cases h
      simp [AppState.emit, List.filter_append, isICallFree]

theorem frees_setAoaParamsReq (A : StackAnswers) (p : Option rtlsAoaConfigReq_t)
    (s s1 : AppState) (h : RTLSMaster_setAoaParamsReq A p s = .ok s1) :
    s1.trace.filter isICallFree = s.trace.filter isICallFree := by
  unfold RTLSMaster_setAoaParamsReq at h
  split at h
  · cases h
    rfl
  · split at h
    · cases h
    · cases h
      split_ifs <;> simp [AppState.emit, List.filter_append, isICallFree]

theorem frees_enableAoaReq (p : Option rtlsAoaEnableReq_t) (s : AppState) :
    (RTLSMaster_enableAoaReq p s).trace.filter isICallFree = s.trace.filter isICallFree := by
  cases p <;> simp [RTLSMaster_enableAoaReq, AppState.emit, List.filter_append, isICallFree]

theorem frees_updateConnInterval (K : Consts) (A : StackAnswers)
    (p : Option rtlsUpdateConnIntReq_t) (s : AppState) :
    (RTLSMaster_processRTLSUpdateConnInterval K A p s).trace.filter isICallFree =
      s.trace.filter isICallFree := by
  cases p with
  | none => rfl
  | some u =>
    simp only [RTLSMaster_processRTLSUpdateConnInterval]
    split_ifs <;> simp [AppState.emit, List.filter_append, isICallFree]

theorem frees_connInfo (A : StackAnswers) (h : Nat) (s : AppState) :
    (RTLSMaster_processRTLSConnInfo A h s).trace.filter isICallFree =
      s.trace.filter isICallFree := by
  simp [processRTLSConnInfo_eq, AppState.emit, List.filter_append, isICallFree]

/-- The handlers behind the dispatcher release nothing through `ICall_free`. -/
theorem frees_switch (K : Consts) (A : StackAnswers) (req : rtlsCtrlReq_t) (s s1 : AppState)
    (h : RTLSMaster_processRtlsCtrlMsg_switch K A req s = .ok s1) :
    s1.trace.filter isICallFree = s.trace.filter isICallFree := by
  obtain ⟨op, pd⟩ := req
  cases op <;> simp only [RTLSMaster_processRtlsCtrlMsg_switch, bind, Except.bind] at h
  · split at h
    · cases h
    · simp only [Except.ok.injEq] at h
      subst h
      exact frees_connReq K _ s
  · simp only [Except.ok.injEq] at h
    subst h
    exact frees_scanReq K s
  · split at h
    · cases h
    · exact frees_enableRtlsSync K A _ s s1 h
  · split at h
    · cases h
    · split at h
      · cases h
      · next r hr =>
        simp only [Except.ok.injEq] at h
        subst h
        exact frees_sendRTLSData K A _ s r hr
  · split at h
    · cases h
    · exact frees_terminateLinkReq K _ s s1 h
  · split at h
    · cases h
    · exact frees_setAoaParamsReq A _ s s1 h
  · split at h
    · cases h
    · simp only [Except.ok.injEq] at h
      subst h
      exact frees_enableAoaReq _ s
  · split at h
    · cases h
    · simp only [Except.ok.injEq] at h
      subst h
      exact frees_updateConnInterval K A _ s
  · split at h
    · cases h
    · split at h
      · simp only [Except.ok.injEq] at h
        subst h
        exact frees_connInfo A _ s
      · simp only [Except.ok.injEq] at h
        subst h
        rfl
  · simp only [Except.ok.injEq] at h
    subst h
    rfl

theorem enableRtlsSync_total (K : Consts) (A : StackAnswers) (e : rtlsEnableSync_t)
    (s : AppState) : ∃ s1, RTLSMaster_enableRtlsSync K A (some e) s = .ok s1 := by
  by_cases hT : e.enable = K.RTLS_TRUE
  · rcases Nat.eq_zero_or_pos s.connEventRegCauseBitmap with hb | hb
    · exact ⟨_, enableRtlsSync_on_unregistered K A e s hT hb⟩
    · exact ⟨_, enableRtlsSync_on_registered K A e s hT hb⟩
  · by_cases hF : e.enable = K.RTLS_FALSE
    · exact ⟨_, enableRtlsSync_off K A e s hT hF⟩
    · exact ⟨_, enableRtlsSync_other K A e s hT hF⟩

theorem sendRTLSData_total (K : Consts) (A : StackAnswers) (m : rtlsPacket_t) (s : AppState)
    (h : m.connHandle < s.rmConnCB.length) :
    ∃ r, RTLSMaster_sendRTLSData K A (some m) s = .ok r := by
  have hs : s.rmConnCB[m.connHandle]? = some (s.rmConnCB[m.connHandle]) :=
    List.getElem?_eq_getElem h
  cases hb : A.L2CAP_bm_alloc with
  | none => exact ⟨_, sendRTLSData_no_buffer K A m s _ hs hb⟩
  | some buf => exact ⟨_, sendRTLSData_allocated K A m s _ buf hs hb⟩

theorem terminateLinkReq_total (K : Consts) (t : rtlsTerminateLinkReq_t) (s : AppState)
    (hsize : s.rmConnCB.length = K.MAX_NUM_BLE_CONNS) :
    ∃ s1, RTLSMaster_terminateLinkReq K (some t) s = .ok s1 := by
  by_cases hv : t.connHandle ≠ K.LINKDB_CONNHANDLE_INVALID ∧
      t.connHandle < K.MAX_NUM_BLE_CONNS
  · have hlt : t.connHandle < s.rmConnCB.length := by rw [hsize]; exact hv.2
    have hs : s.rmConnCB[t.connHandle]? = some (s.rmConnCB[t.connHandle]) :=
      List.getElem?_eq_getElem hlt
    simp only [RTLSMaster_terminateLinkReq, hv, and_self, if_true, hs, ne_eq,
      not_false_eq_true]
    exact ⟨_, rfl⟩
  · simp only [RTLSMaster_terminateLinkReq, hv, if_false]
    exact ⟨_, rfl⟩

/-- The dispatcher returns when the payload holds what the opcode expects and
the reads of the handler stay in bounds. -/
theorem switch_total (K : Consts) (A : StackAnswers) (req : rtlsCtrlReq_t) (d : Ref CtrlData)
    (s : AppState) (hd : req.pData = some d)
    (hfit : payloadFits req.reqOp d.val = true) (hin : payloadInBounds K d.val = true)
    (hsize : s.rmConnCB.length = K.MAX_NUM_BLE_CONNS) :
    ∃ s1, RTLSMaster_processRtlsCtrlMsg_switch K A req s = .ok s1 := by
  obtain ⟨op, pd⟩ := req
  obtain ⟨a, dv⟩ := d
  simp only at hd
  subst hd
  cases op <;> cases dv <;> simp only [payloadFits, Bool.false_eq_true] at hfit <;>
    simp only [RTLSMaster_processRtlsCtrlMsg_switch, castRef, derefOpt, Option.map, bind,
      Except.bind, CtrlData.toConnReq, CtrlData.toEnableSync, CtrlData.toPacket,
      CtrlData.toTerminateLink, CtrlData.toAoaConfig, CtrlData.toAoaEnable,
      CtrlData.toUpdateConnInt, CtrlData.toGetConnInfo]
  all_goals first
    | exact ⟨_, rfl⟩
    | exact enableRtlsSync_total K A _ s
    | exact terminateLinkReq_total K _ s hsize
    | skip
  · next m =>
    have hlt : m.connHandle < s.rmConnCB.length := by
      rw [hsize]
      simpa [payloadInBounds] using hin
    obtain ⟨r, hr⟩ := sendRTLSData_total K A m s hlt
    exact ⟨r.2, by rw [hr]⟩
  · next c =>
    have hne : c.pAntPattern ≠ [] := by simpa [payloadInBounds] using hin
    cases hp : c.pAntPattern with
    | nil => exact absurd hp hne
    | cons x rest =>
      simp only [RTLSMaster_setAoaParamsReq, hp, List.getElem?_cons_zero]
      exact ⟨_, rfl⟩

/-- C22: for a request of RTLS Control with a non-null payload and any opcode,
`RTLSMaster_processRtlsCtrlMsg` returns when the payload holds what the opcode
expects and the reads of the handler stay in bounds; whenever it returns, the
only release through `ICall_free` that it adds to the trace is that of the
request payload, once; and for an opcode that the dispatcher does not name
the state is unchanged but for the trace, to which only that release is
added. -/
theorem C22_request_payload_released (K : Consts) (A : StackAnswers) (req : rtlsCtrlReq_t)
    (d : Ref CtrlData) (s : AppState) (hd : req.pData = some d) :
    (payloadFits req.reqOp d.val = true → payloadInBounds K d.val = true →
        s.rmConnCB.length = K.MAX_NUM_BLE_CONNS →
        ∃ s1, RTLSMaster_processRtlsCtrlMsg K A (some req) s = .ok s1) ∧
      (∀ s1, RTLSMaster_processRtlsCtrlMsg K A (some req) s = .ok s1 →
        s1.trace.filter isICallFree = s.trace.filter isICallFree ++ [.ICall_free d.addr]) ∧
      (∀ n, req.reqOp = .RTLS_REQ_OTHER n →
        RTLSMaster_processRtlsCtrlMsg K A (some req) s =
          .ok { s with trace := s.trace ++ [.ICall_free d.addr] }) := by
  refine ⟨?_, ?_, ?_⟩
  · intro hfit hin hsize
    obtain ⟨s1, h1⟩ := switch_total K A req d s hd hfit hin hsize
    simp only [RTLSMaster_processRtlsCtrlMsg, bind, Except.bind, h1, hd]
    exact ⟨_, rfl⟩
  · intro s1 h
    simp only [RTLSMaster_processRtlsCtrlMsg, bind, Except.bind, hd] at h
    split at h
    · cases h
    · next s0 hs0 =>
      simp only [Except.ok.injEq] at h
      subst h
      simp [AppState.emit, List.filter_append, isICallFree,
        frees_switch K A req s s0 hs0]
  · intro n hn
    obtain ⟨op, pd⟩ := req
    simp only at hn hd
    subst hn
    subst hd
    simp [RTLSMaster_processRtlsCtrlMsg, RTLSMaster_processRtlsCtrlMsg_switch, bind,
      Except.bind, AppState.emit]

/-- Witness of C22: the send-data request for the open channel of handle 0, and
a request with an opcode that the dispatcher does not name. -/
theorem C22_request_payload_released_witness :
    ((sendDataReq packet20).pData = some ⟨0x1100, .packet packet20⟩ ∧
        payloadFits (sendDataReq packet20).reqOp (.packet packet20) = true ∧
        payloadInBounds sdk (.packet packet20) = true ∧
        stateChannelOpen.rmConnCB.length = sdk.MAX_NUM_BLE_CONNS ∧
        unknownReq.pData = some ⟨0x1100, .raw [1, 2, 3]⟩ ∧
        unknownReq.reqOp = .RTLS_REQ_OTHER 0x77) ∧
      (∃ s1, RTLSMaster_processRtlsCtrlMsg sdk okAnswers (some (sendDataReq packet20))
        stateChannelOpen = .ok s1) ∧
      RTLSMaster_processRtlsCtrlMsg sdk okAnswers (some (sendDataReq packet20))
          stateChannelOpen =
        .ok { stateChannelOpen with trace := stateChannelOpen.trace ++
          [.L2CAP_bm_alloc 20 (some 0x3000),
           .L2CAP_SendSDU { CID := 7, pPayload := ⟨0x3000, List.replicate 20 0⟩, len := 20 } 0,
           .ICall_free 0x1100] } ∧
      ({ stateChannelOpen with trace := stateChannelOpen.trace ++
          [.L2CAP_bm_alloc 20 (some 0x3000),
           .L2CAP_SendSDU { CID := 7, pPayload := ⟨0x3000, List.replicate 20 0⟩, len := 20 } 0,
           .ICall_free 0x1100] } : AppState).trace.filter isICallFree =
        stateChannelOpen.trace.filter isICallFree ++
          [.ICall_free (⟨0x1100, .packet packet20⟩ : Ref CtrlData).addr] ∧
      RTLSMaster_processRtlsCtrlMsg sdk okAnswers (some unknownReq) stateChannelOpen =
        .ok { stateChannelOpen with trace := stateChannelOpen.trace ++
          [.ICall_free (⟨0x1100, .raw [1, 2, 3]⟩ : Ref CtrlData).addr] } :=
  ⟨⟨by decide, by decide, by decide, by decide, by decide, by decide⟩,
    (C22_request_payload_released sdk okAnswers (sendDataReq packet20)
      ⟨0x1100, .packet packet20⟩ stateChannelOpen (by decide)).1 (by decide) (by decide)
      (by decide),
    by decide,
    (C22_request_payload_released sdk okAnswers (sendDataReq packet20)
      ⟨0x1100, .packet packet20⟩ stateChannelOpen (by decide)).2.1 _ (by decide),
    (C22_request_payload_released sdk okAnswers unknownReq ⟨0x1100, .raw [1, 2, 3]⟩
      stateChannelOpen (by decide)).2.2 0x77 (by decide)⟩

/-! ### Null payloads -/

/-- The handlers with a sanity check: a connect, send-data, set-AoA-params,
AoA-enable, update-connection-interval or get-connection-info request whose
payload pointer is null changes nothing. -/
theorem processRtlsCtrlMsg_null_payload_checked (K : Consts) (A : StackAnswers) (s : AppState)
    (op : rtlsReq_e)
    (hop : op = .RTLS_REQ_CONN ∨ op = .RTLS_REQ_SEND_DATA ∨ op = .RTLS_REQ_SET_AOA_PARAMS ∨
      op = .RTLS_REQ_AOA_ENABLE ∨ op = .RTLS_REQ_UPDATE_CONN_INTERVAL ∨
      op = .RTLS_REQ_GET_ACTIVE_CONN_INFO) :
    RTLSMaster_processRtlsCtrlMsg K A (some { reqOp := op, pData := none }) s = .ok s := by
  rcases hop with h | h | h | h | h | h <;> subst h <;>
    simp [RTLSMaster_processRtlsCtrlMsg, RTLSMaster_processRtlsCtrlMsg_switch, castRef,
      derefOpt, bind, Except.bind, RTLSMaster_processRTLSConnReq, RTLSMaster_sendRTLSData,
      RTLSMaster_setAoaParamsReq, RTLSMaster_enableAoaReq,
      RTLSMaster_processRTLSUpdateConnInterval]

/-- C23 (code evaluated at the failing inputs): an enable-sync request and a
terminate-link request whose payload pointer is null make the handler read a
field of the null payload. -/
theorem C23_null_payload_dereferenced :
    RTLSMaster_processRtlsCtrlMsg sdk okAnswers (some enableSyncNull) (AppState.init sdk) =
        .error .nullDeref ∧
      RTLSMaster_processRtlsCtrlMsg sdk okAnswers (some terminateLinkNull) (AppState.init sdk) =
        .error .nullDeref := by
  decide

/-! ### Connection events -/

theorem testChanMapChange_frame (K : Consts) (s : AppState) :
    (testChanMapChange K s).rmConnCB = s.rmConnCB ∧
      (testChanMapChange K s).connEventRegCauseBitmap = s.connEventRegCauseBitmap ∧
      (testChanMapChange K s).trace.filter isSyncNotifyEvt = s.trace.filter isSyncNotifyEvt := by
  unfold testChanMapChange
  by_cases h : K.RTLS_TEST_CHAN_MAP_DYNAMIC_CHANGE = true
  · by_cases h10 : (s.connectionEventCount + 1) % 4294967296 = 10 <;>
      simp [h, h10, AppState.emit, List.filter_append, isSyncNotifyEvt]
  · simp [h]

/-- C24: a non-null connection event report whose handle is below
`MAX_NUM_BLE_CONNS`, with a connection table of that size.  The handler
returns, leaves the connection table and the registration bitmap unchanged,
and sends a synchronisation event exactly when the `FOR_RTLS` cause is
registered and the slot of the handle is active: one event with the handle,
the next task time, the RSSI and the channel of the report, and the status
`RTLS_FAIL` when the status of the report is `GAP_CONN_EVT_STAT_MISSED`,
`RTLS_SUCCESS` otherwise. -/
theorem C24_sync_notify (K : Consts) (r : Ref Gap_ConnEventRpt_t) (s : AppState)
    (hlt : r.val.handle < K.MAX_NUM_BLE_CONNS)
    (hsize : s.rmConnCB.length = K.MAX_NUM_BLE_CONNS) :
    ∃ s1 e, s.rmConnCB[r.val.handle]? = some e ∧
      RTLSMaster_processConnEvt K (some r) s = .ok s1 ∧
      s1.rmConnCB = s.rmConnCB ∧
      s1.connEventRegCauseBitmap = s.connEventRegCauseBitmap ∧
      s1.trace.filter isSyncNotifyEvt = s.trace.filter isSyncNotifyEvt ++
        (if CONNECTION_EVENT_REGISTRATION_CAUSE FOR_RTLS s ≠ 0 ∧ e.isActive = true then
          [.RTLSCtrl_syncNotifyEvt r.val.handle
            (if r.val.status = K.GAP_CONN_EVT_STAT_MISSED then .RTLS_FAIL else .RTLS_SUCCESS)
            r.val.nextTaskTime r.val.lastRssi r.val.channel]
        else []) := by
  have hlt2 : r.val.handle < s.rmConnCB.length := by rw [hsize]; exact hlt
  have hs : s.rmConnCB[r.val.handle]? = some (s.rmConnCB[r.val.handle]) :=
    List.getElem?_eq_getElem hlt2
  obtain ⟨f1, f2, f3⟩ := testChanMapChange_frame K s
  by_cases hbit : CONNECTION_EVENT_REGISTRATION_CAUSE FOR_RTLS s ≠ 0
  · cases hact : (s.rmConnCB[r.val.handle]).isActive with
    | false =>
      refine ⟨s.emit (.ICall_free r.addr), _, hs, ?_, rfl, rfl, ?_⟩
      · simp [RTLSMaster_processConnEvt, hbit, hs, hact]
      · simp [hact, AppState.emit, List.filter_append, isSyncNotifyEvt]
    | true =>
      refine ⟨((testChanMapChange K s).emit (.RTLSCtrl_syncNotifyEvt r.val.handle
          (if r.val.status = K.GAP_CONN_EVT_STAT_MISSED then .RTLS_FAIL else .RTLS_SUCCESS)
          r.val.nextTaskTime r.val.lastRssi r.val.channel)).emit (.ICall_free r.addr),
        _, hs, ?_, ?_, ?_, ?_⟩
      · simp only [RTLSMaster_processConnEvt, hbit, hs, hact, if_true, ne_eq,
          not_false_eq_true]
        by_cases hm : r.val.status = K.GAP_CONN_EVT_STAT_MISSED <;> simp [hm]
      · simp [AppState.emit, f1]
      · simp [AppState.emit, f2]
      · simp [hbit, hact, AppState.emit, List.filter_append, isSyncNotifyEvt, f3]
  · refine ⟨s.emit (.ICall_free r.addr), _, hs, ?_, rfl, rfl, ?_⟩
    · simp [RTLSMaster_processConnEvt, hbit]
    · simp [hbit, AppState.emit, List.filter_append, isSyncNotifyEvt]

/-- Witness of C24: a report for the active handle 0 with the `FOR_RTLS` cause
registered. -/
theorem C24_sync_notify_witness :
    (connEvtHandle0.val.handle < sdk.MAX_NUM_BLE_CONNS ∧
        stateChannelOpenSyncOn.rmConnCB.length = sdk.MAX_NUM_BLE_CONNS) ∧
      RTLSMaster_processConnEvt sdk (some connEvtHandle0) stateChannelOpenSyncOn =
        .ok { stateChannelOpenSyncOn with trace := stateChannelOpenSyncOn.trace ++
                [.RTLSCtrl_syncNotifyEvt 0 .RTLS_SUCCESS 1000 200 5, .ICall_free 0x1000] } ∧
      ∃ s1 e, stateChannelOpenSyncOn.rmConnCB[connEvtHandle0.val.handle]? = some e ∧
        RTLSMaster_processConnEvt sdk (some connEvtHandle0) stateChannelOpenSyncOn = .ok s1 ∧
        s1.rmConnCB = stateChannelOpenSyncOn.rmConnCB ∧
        s1.connEventRegCauseBitmap = stateChannelOpenSyncOn.connEventRegCauseBitmap ∧
        s1.trace.filter isSyncNotifyEvt =
          stateChannelOpenSyncOn.trace.filter isSyncNotifyEvt ++
            (if CONNECTION_EVENT_REGISTRATION_CAUSE FOR_RTLS stateChannelOpenSyncOn ≠ 0 ∧
                e.isActive = true then
              [.RTLSCtrl_syncNotifyEvt connEvtHandle0.val.handle
                (if connEvtHandle0.val.status = sdk.GAP_CONN_EVT_STAT_MISSED then .RTLS_FAIL
                  else .RTLS_SUCCESS)
                connEvtHandle0.val.nextTaskTime connEvtHandle0.val.lastRssi
                connEvtHandle0.val.channel]
            else []) :=
  ⟨⟨by decide, by decide⟩, by decide,
    C24_sync_notify sdk connEvtHandle0 stateChannelOpenSyncOn (by decide) (by decide)⟩

/-- C25 (code evaluated at the failing inputs): with a connection table of 8
slots, a send-data request for the handle 8 makes `RTLSMaster_sendRTLSData`
index the table past its end, and so does a connection event report for the
handle 8 in `RTLSMaster_processConnEvt` while the `FOR_RTLS` cause is
registered. -/
theorem C25_table_index_unchecked :
    sdk.MAX_NUM_BLE_CONNS = 8 ∧ packetHandle8.connHandle = 8 ∧
      RTLSMaster_sendRTLSData sdk okAnswers (some packetHandle8) (AppState.init sdk) =
        .error .outOfBounds ∧
      RTLSMaster_processConnEvt sdk connEvtHandle8 stateSyncOn = .error .outOfBounds := by
  decide

/-! ### Scan results without memory, and the end of a scan -/

theorem addrInScanList_true_iff (s : AppState) (a : BdAddr) :
    addrInScanList s a = true ↔ a ∈ (resultSet s).map (fun r => r.addr) := by
  have h := addrInScanList_false_iff s a
  cases hb : addrInScanList s a with
  | true =>
    simp only [true_iff]
    by_contra hn
    have := h.mpr hn
    rw [hb] at this
    cases this
  | false =>
    simp only [Bool.false_eq_true, false_iff]
    exact h.mp hb

/-- An advertising report keeps every address that is among the scan results
there, and keeps the size of the list. -/
theorem advReport_keeps_member (K : Consts) (A : StackAnswers) (state addr : Nat)
    (rpt : GapScan_Evt_AdvRpt_t) (s s1 : AppState) (a : BdAddr)
    (hsize : s.scanList.length = K.RTLS_MASTER_DEFAULT_MAX_SCAN_RES)
    (hmax : K.RTLS_MASTER_DEFAULT_MAX_SCAN_RES ≤ 255)
    (hrun : RTLSMaster_processAppMsg K A (advReportMsg state addr rpt) s = .ok s1)
    (hmem : addrInScanList s a = true) :
    addrInScanList s1 a = true ∧
      s1.scanList.length = K.RTLS_MASTER_DEFAULT_MAX_SCAN_RES := by
  cases hr : reportReadable rpt with
  | false =>
    obtain ⟨f, hf⟩ := processAppMsg_advReport_error K A state addr rpt s hr
    rw [hf] at hrun
    cases hrun
  | true =>
    unfold reportReadable at hr
    cases hd : rpt.pData with
    | none => simp [hd] at hr
    | some data =>
      rw [hd] at hr
      have hlen : 11 ≤ data.val.length := by simpa using hr
      rw [processAppMsg_advReport K A state addr rpt data s hd hlen] at hrun
      simp only [Except.ok.injEq] at hrun
      rw [← hrun]
      split
      · next hc =>
        have hmod : (s.scanRes + 1) % 256 = s.scanRes + 1 := Nat.mod_eq_of_lt (by omega)
        refine ⟨?_, by simp [hsize]⟩
        rw [addrInScanList_true_iff] at hmem ⊢
        simp only [resultSet, hmod] at hmem ⊢
        rw [take_succ_set _ s.scanRes s.scanList (by omega), List.map_append]
        exact List.mem_append_left _ hmem
      · exact ⟨hmem, hsize⟩

/-- A sequence of advertising reports without a start-scan request keeps every
address that is among the scan results. -/
theorem reports_keep_member (K : Consts) (later : List ScanNote) (s s1 : AppState) (a : BdAddr)
    (hsize : s.scanList.length = K.RTLS_MASTER_DEFAULT_MAX_SCAN_RES)
    (hmax : K.RTLS_MASTER_DEFAULT_MAX_SCAN_RES ≤ 255)
    (hon : onlyReports later = true) (hrun : scanRun K later s = .ok s1)
    (hmem : addrInScanList s a = true) :
    addrInScanList s1 a = true ∧
      s1.scanList.length = K.RTLS_MASTER_DEFAULT_MAX_SCAN_RES := by
  induction later generalizing s with
  | nil =>
    simp only [scanRun, Except.ok.injEq] at hrun
    rw [← hrun]
    exact ⟨hmem, hsize⟩
  | cons note rest ih =>
    cases note with
    | startScan => simp [onlyReports] at hon
    | advReport A state addr rpt =>
      simp only [onlyReports] at hon
      simp only [scanRun, applyScanNote] at hrun
      cases hstep : RTLSMaster_processAppMsg K A (advReportMsg state addr rpt) s with
      | error f =>
        rw [hstep] at hrun
        cases hrun
      | ok s2 =>
        rw [hstep] at hrun
        obtain ⟨h1, h2⟩ := advReport_keeps_member K A state addr rpt s s2 a hsize hmax hstep hmem
        exact ih s2 h2 hon hrun h1

/-- C26: a readable advertising report that passes the filter, with the scan
results below capacity and its address not among them, while the scan result
cannot be allocated.  The handler returns; it sends exactly one scan result
event, with the status `RTLS_OUT_OF_MEMORY` and no record; `scanRes` grows by
one and (address type, address) is appended to the scan results.  After any
further advertising reports of the session (no start-scan request), a
readable report with that address is dropped: its buffers are released and
nothing else happens, whatever the allocator answers. -/
theorem C26_out_of_memory_report (K : Consts) (A : StackAnswers) (s : AppState)
    (state addr : Nat) (rpt : GapScan_Evt_AdvRpt_t) (data : Ref (List Nat))
    (hd : rpt.pData = some data) (hlen : 11 ≤ data.val.length)
    (hm : matchesSlaveScanRsp data.val = true)
    (hnew : addrInScanList s rpt.addr = false)
    (hcap : s.scanRes < K.RTLS_MASTER_DEFAULT_MAX_SCAN_RES)
    (hsize : s.scanList.length = K.RTLS_MASTER_DEFAULT_MAX_SCAN_RES)
    (hmax : K.RTLS_MASTER_DEFAULT_MAX_SCAN_RES ≤ 255)
    (halloc : A.ICall_malloc = none) :
    ∃ s2, RTLSMaster_processAppMsg K A (advReportMsg state addr rpt) s = .ok s2 ∧
      s2.trace = s.trace ++ [.ICall_malloc none,
        .RTLSCtrl_scanResultEvt .RTLS_OUT_OF_MEMORY none, .ICall_free data.addr,
        .ICall_free addr] ∧
      scanResultEvents s2.trace =
        scanResultEvents s.trace ++ [.RTLSCtrl_scanResultEvt .RTLS_OUT_OF_MEMORY none] ∧
      s2.scanRes = s.scanRes + 1 ∧
      resultSet s2 = resultSet s ++ [{ addrType := rpt.addrType, addr := rpt.addr }] ∧
      ∀ later s3, onlyReports later = true → scanRun K later s2 = .ok s3 →
        ∀ (A2 : StackAnswers) (state2 addr2 : Nat) (rpt2 : GapScan_Evt_AdvRpt_t)
          (data2 : Ref (List Nat)),
          rpt2.addr = rpt.addr → rpt2.pData = some data2 → 11 ≤ data2.val.length →
          RTLSMaster_processAppMsg K A2 (advReportMsg state2 addr2 rpt2) s3 =
            .ok { s3 with trace := s3.trace ++ [.ICall_free data2.addr, .ICall_free addr2] } := by
  have hrun := processAppMsg_advReport K A state addr rpt data s hd hlen
  simp only [hm, hcap, hnew, and_self, if_true] at hrun
  have hmod : (s.scanRes + 1) % 256 = s.scanRes + 1 := Nat.mod_eq_of_lt (by omega)
  have hres : resultSet { s with
        scanList := s.scanList.set s.scanRes { addrType := rpt.addrType, addr := rpt.addr }
        scanRes := (s.scanRes + 1) % 256
        trace := s.trace ++ forwardEffects A rpt data.val data.addr addr } =
      resultSet s ++ [{ addrType := rpt.addrType, addr := rpt.addr }] := by
    simp only [resultSet, hmod]
    exact take_succ_set _ s.scanRes s.scanList (by omega)
  refine ⟨_, hrun, ?_, ?_, hmod, hres, ?_⟩
  · simp [forwardEffects, halloc]
  · simp [scanResultEvents, forwardEffects, halloc, List.filter_append, isScanResultEvt]
  · intro later s3 hon hlater A2 state2 addr2 rpt2 data2 haddr hd2 hlen2
    have hmem2 : addrInScanList { s with
        scanList := s.scanList.set s.scanRes { addrType := rpt.addrType, addr := rpt.addr }
        scanRes := (s.scanRes + 1) % 256
        trace := s.trace ++ forwardEffects A rpt data.val data.addr addr } rpt.addr = true := by
      rw [addrInScanList_true_iff, hres]
      simp
    obtain ⟨hm3, _⟩ := reports_keep_member K later _ s3 rpt.addr (by simp [hsize]) hmax hon
      hlater hmem2
    rw [processAppMsg_advReport K A2 state2 addr2 rpt2 data2 s3 hd2 hlen2]
    simp [haddr, hm3]

/-- Witness of C26: `rptPublic` is reported at start-up while the scan result
cannot be allocated, then reported twice more. -/
theorem C26_out_of_memory_report_witness :
    (rptPublic.pData = some ⟨0x6000, slaveAdvData⟩ ∧ 11 ≤ slaveAdvData.length ∧
        matchesSlaveScanRsp slaveAdvData = true ∧
        addrInScanList (AppState.init sdk) rptPublic.addr = false ∧
        (AppState.init sdk).scanRes < sdk.RTLS_MASTER_DEFAULT_MAX_SCAN_RES ∧
        (AppState.init sdk).scanList.length = sdk.RTLS_MASTER_DEFAULT_MAX_SCAN_RES ∧
        sdk.RTLS_MASTER_DEFAULT_MAX_SCAN_RES ≤ 255 ∧
        noScanResultMemory.ICall_malloc = none) ∧
      (scanRun sdk outOfMemoryThenAgain (AppState.init sdk) = .ok outOfMemoryThenAgainEnd ∧
        scanResultEvents outOfMemoryThenAgainEnd.trace =
          [.RTLSCtrl_scanResultEvt .RTLS_OUT_OF_MEMORY none] ∧
        resultSet outOfMemoryThenAgainEnd = [{ addrType := 0, addr := [1, 2, 3, 4, 5, 6] }]) ∧
      ∃ s2, RTLSMaster_processAppMsg sdk noScanResultMemory (advReportMsg 0 0x1000 rptPublic)
            (AppState.init sdk) = .ok s2 ∧
        s2.trace = (AppState.init sdk).trace ++ [.ICall_malloc none,
          .RTLSCtrl_scanResultEvt .RTLS_OUT_OF_MEMORY none, .ICall_free 0x6000,
          .ICall_free 0x1000] ∧
        scanResultEvents s2.trace = scanResultEvents (AppState.init sdk).trace ++
          [.RTLSCtrl_scanResultEvt .RTLS_OUT_OF_MEMORY none] ∧
        s2.scanRes = (AppState.init sdk).scanRes + 1 ∧
        resultSet s2 = resultSet (AppState.init sdk) ++
          [{ addrType := rptPublic.addrType, addr := rptPublic.addr }] ∧
        ∀ later s3, onlyReports later = true → scanRun sdk later s2 = .ok s3 →
          ∀ (A2 : StackAnswers) (state2 addr2 : Nat) (rpt2 : GapScan_Evt_AdvRpt_t)
            (data2 : Ref (List Nat)),
            rpt2.addr = rptPublic.addr → rpt2.pData = some data2 → 11 ≤ data2.val.length →
            RTLSMaster_processAppMsg sdk A2 (advReportMsg state2 addr2 rpt2) s3 =
              .ok { s3 with
                    trace := s3.trace ++ [.ICall_free data2.addr, .ICall_free addr2] } :=
  ⟨⟨by decide, by decide, by decide, by decide, by decide, by decide, by decide, by decide⟩,
    by decide,
    C26_out_of_memory_report sdk noScanResultMemory (AppState.init sdk) 0 0x1000 rptPublic
      ⟨0x6000, slaveAdvData⟩ (by decide) (by decide) (by decide) (by decide) (by decide)
      (by decide) (by decide) (by decide)⟩

/-- C27: every message that a run of `RTLSMaster_scanCb` puts in the queue
carries the payload pointer of the callback and the state `SUCCESS`, and when
its event is `RM_EVT_SCAN_DISABLED`, `RTLSMaster_processAppMsg` returns on it
from any state, with exactly one scan result event, of status `RTLS_SUCCESS`
and without a record, followed by the release of the payload when it is not
null.  Such a message is queued when the event mask has the scan-disabled bit
and neither the report bit nor the scan-enabled bit, the message is allocated
and the queue accepts it. -/
theorem C27_scan_stopped_success (K : Consts) (Q : QueueAnswers) (A : StackAnswers) (evt : Nat)
    (pMsg : Option (Ref AppData)) (s t : AppState) :
    (∃ new, (RTLSMaster_scanCb K Q evt pMsg s).appMsgQueue = s.appMsgQueue ++ new ∧
        ∀ m ∈ new, m.val.pData = pMsg ∧ m.val.hdr.state = K.SUCCESS ∧
          (m.val.hdr.event = RM_EVT_SCAN_DISABLED →
            ∃ t1, RTLSMaster_processAppMsg K A m.val t = .ok t1 ∧
              t1.trace = t.trace ++ [.RTLSCtrl_scanResultEvt .RTLS_SUCCESS none] ++
                (pMsg.map (fun d => Effect.ICall_free d.addr)).toList ∧
              scanResultEvents t1.trace =
                scanResultEvents t.trace ++ [.RTLSCtrl_scanResultEvt .RTLS_SUCCESS none] ∧
              { t1 with trace := t.trace } = t)) ∧
      (∀ a, evt &&& K.GAP_EVT_ADV_REPORT = 0 → evt &&& K.GAP_EVT_SCAN_ENABLED = 0 →
        evt &&& K.GAP_EVT_SCAN_DISABLED ≠ 0 → Q.ICall_malloc_pMsg = some a →
        Q.Util_enqueueMsg = true →
        (RTLSMaster_scanCb K Q evt pMsg s).appMsgQueue = s.appMsgQueue ++
          [⟨a, { hdr := ⟨RM_EVT_SCAN_DISABLED, K.SUCCESS⟩, pData := pMsg }⟩]) := by
  have hproc : ∀ m : rmEvt_t, m.pData = pMsg → m.hdr.state = K.SUCCESS →
      m.hdr.event = RM_EVT_SCAN_DISABLED →
      ∃ t1, RTLSMaster_processAppMsg K A m t = .ok t1 ∧
        t1.trace = t.trace ++ [.RTLSCtrl_scanResultEvt .RTLS_SUCCESS none] ++
          (pMsg.map (fun d => Effect.ICall_free d.addr)).toList ∧
        scanResultEvents t1.trace =
          scanResultEvents t.trace ++ [.RTLSCtrl_scanResultEvt .RTLS_SUCCESS none] ∧
        { t1 with trace := t.trace } = t := by
    intro m hp hst hev
    cases hpm : pMsg with
    | none =>
      rw [hpm] at hp
      refine ⟨t.emit (.RTLSCtrl_scanResultEvt .RTLS_SUCCESS none), ?_, ?_, ?_, rfl⟩
      · simp [RTLSMaster_processAppMsg, RTLSMaster_processAppMsg_switch, hev, hst, hp,
          RM_EVT_SCAN_DISABLED, RM_EVT_ADV_REPORT, bind, Except.bind]
      · simp [AppState.emit]
      · simp [AppState.emit, scanResultEvents, List.filter_append, isScanResultEvt]
    | some d =>
      rw [hpm] at hp
      refine ⟨(t.emit (.RTLSCtrl_scanResultEvt .RTLS_SUCCESS none)).emit (.ICall_free d.addr),
        ?_, ?_, ?_, rfl⟩
      · simp [RTLSMaster_processAppMsg, RTLSMaster_processAppMsg_switch, hev, hst, hp,
          RM_EVT_SCAN_DISABLED, RM_EVT_ADV_REPORT, bind, Except.bind]
      · simp [AppState.emit]
      · simp [AppState.emit, scanResultEvents, List.filter_append, isScanResultEvt]
  constructor
  · unfold RTLSMaster_scanCb RTLSMaster_enqueueMsg
    by_cases h1 : evt &&& K.GAP_EVT_ADV_REPORT ≠ 0
    · cases hq : Q.ICall_malloc_pMsg with
      | none => exact ⟨[], by simp [h1, hq, AppState.emit]; split_ifs <;> rfl, by simp⟩
      | some a =>
        by_cases he : Q.Util_enqueueMsg = true
        · refine ⟨[⟨a, { hdr := ⟨RM_EVT_ADV_REPORT, K.SUCCESS⟩, pData := pMsg }⟩],
            by simp [h1, hq, he, AppState.emit], ?_⟩
          intro m hmem
          simp only [List.mem_singleton] at hmem
          subst hmem
          exact ⟨rfl, rfl, fun h => by simp [RM_EVT_ADV_REPORT, RM_EVT_SCAN_DISABLED] at h⟩
        · exact ⟨[], by simp [h1, hq, he, AppState.emit]; split_ifs <;> rfl, by simp⟩
    · by_cases h2 : evt &&& K.GAP_EVT_SCAN_ENABLED ≠ 0
      · cases hq : Q.ICall_malloc_pMsg with
        | none => exact ⟨[], by simp [h1, h2, hq, AppState.emit]; split_ifs <;> rfl, by simp⟩
        | some a =>
          by_cases he : Q.Util_enqueueMsg = true
          · refine ⟨[⟨a, { hdr := ⟨RM_EVT_SCAN_ENABLED, K.SUCCESS⟩, pData := pMsg }⟩],
              by simp [h1, h2, hq, he, AppState.emit], ?_⟩
            intro m hmem
            simp only [List.mem_singleton] at hmem
            subst hmem
            exact ⟨rfl, rfl, fun h => by simp [RM_EVT_SCAN_ENABLED, RM_EVT_SCAN_DISABLED] at h⟩
          · exact ⟨[], by simp [h1, h2, hq, he, AppState.emit]; split_ifs <;> rfl, by simp⟩
      · by_cases h3 : evt &&& K.GAP_EVT_SCAN_DISABLED ≠ 0
        · cases hq : Q.ICall_malloc_pMsg with
          | none => exact ⟨[], by simp [h1, h2, h3, hq, AppState.emit]; split_ifs <;> rfl, by simp⟩
          | some a =>
            by_cases he : Q.Util_enqueueMsg = true
            · refine ⟨[⟨a, { hdr := ⟨RM_EVT_SCAN_DISABLED, K.SUCCESS⟩, pData := pMsg }⟩],
                by simp [h1, h2, h3, hq, he, AppState.emit], ?_⟩
              intro m hmem
              simp only [List.mem_singleton] at hmem
              subst hmem
              exact ⟨rfl, rfl, fun h => hproc _ rfl rfl h⟩
            · exact ⟨[], by simp [h1, h2, h3, hq, he, AppState.emit]; split_ifs <;> rfl, by simp⟩
        · exact ⟨[], by simp [h1, h2, h3], by simp⟩
  · intro a h1 h2 h3 hq he
    simp [RTLSMaster_scanCb, RTLSMaster_enqueueMsg, h1, h2, h3, hq, he, AppState.emit]

/-- Witness of C27: the scanner reports a stopped scan without a payload, the
message is allocated at `0x4000` and queued, and the handler of the queued
message sends one scan result event with the status `RTLS_SUCCESS`. -/
theorem C27_scan_stopped_success_witness :
    (scanDisabledEvt &&& sdk.GAP_EVT_ADV_REPORT = 0 ∧
        scanDisabledEvt &&& sdk.GAP_EVT_SCAN_ENABLED = 0 ∧
        scanDisabledEvt &&& sdk.GAP_EVT_SCAN_DISABLED ≠ 0 ∧
        queueAccepts.ICall_malloc_pMsg = some 0x4000 ∧ queueAccepts.Util_enqueueMsg = true) ∧
      (RTLSMaster_scanCb sdk queueAccepts scanDisabledEvt none (AppState.init sdk)).appMsgQueue =
        (AppState.init sdk).appMsgQueue ++
          [⟨0x4000, { hdr := ⟨RM_EVT_SCAN_DISABLED, sdk.SUCCESS⟩, pData := none }⟩] ∧
      RTLSMaster_processAppMsg sdk okAnswers
          { hdr := ⟨RM_EVT_SCAN_DISABLED, sdk.SUCCESS⟩, pData := none } (AppState.init sdk) =
        .ok ((AppState.init sdk).emit (.RTLSCtrl_scanResultEvt .RTLS_SUCCESS none)) :=
  ⟨⟨by decide, by decide, by decide, by decide, by decide⟩,
    (C27_scan_stopped_success sdk queueAccepts okAnswers scanDisabledEvt none (AppState.init sdk)
      (AppState.init sdk)).2 0x4000 (by decide) (by decide) (by decide) (by decide) (by decide),
    by decide⟩

end RtlsMaster
